import Mathlib

/-!
# CQG API facade: shallow embedding and checked properties

Embedding of `CQGAPIFacade.h` / `CQGAPIFacade.cpp`.

The vendor connector (CQGCEL and the COM objects it hands out) is not part of
the repository.  It is modelled as an oracle: every COM object is a record of
the answers (result code, returned object or value) it gives to the calls the
facade makes on it; the statements below hold for every such record.  Every
facade operation returns, next to its C++ return value (or the exception or
null-pointer call that ended it), the facade state afterwards and the list of
gateway calls it made, in order.
-/

namespace cqg

/-! ## Scalars -/

/-- COM result code, a signed 32-bit value; only its sign and the two
constants below are ever inspected. -/
abbrev HRESULT := Int

def S_OK : HRESULT := 0
def S_FALSE : HRESULT := 1
def E_FAIL : HRESULT := -2147467259

/-- The `SUCCEEDED(hr)` macro: `hr >= 0`. -/
def SUCCEEDED (hr : HRESULT) : Bool := decide (0 ≤ hr)

/-- The `FAILED(hr)` macro: `hr < 0`. -/
def FAILED (hr : HRESULT) : Bool := decide (hr < 0)

/-- `VARIANT_BOOL` is a 16-bit integer; the two canonical values. -/
abbrev VARIANT_BOOL := Int

def VARIANT_TRUE : VARIANT_BOOL := -1
def VARIANT_FALSE : VARIANT_BOOL := 0

/-- A C++ `double`.  The facade never computes with one: it copies them and
supplies the literals `0.0` and `+infinity`, so a value is either a number or
one of the special values (the two signed zeros are not told apart). -/
inductive Double where
  | num (q : ℚ)
  | inf
  | negInf
  | nan
  deriving DecidableEq

instance : OfScientific Double := ⟨fun m s e => Double.num (OfScientific.ofScientific m s e)⟩
instance : OfNat Double n := ⟨Double.num n⟩

abbrev Price := Double
abbrev MoneyAmount := Double
abbrev Volume := Int
abbrev ID := Int
abbrev Quantity := Nat

def InvalidPrice : Price := Double.inf
def InvalidMoneyAmount : MoneyAmount := Double.inf
def InvalidVolume : Volume := -1

/-- Conversion of a `long` to `unsigned` (the type of `Quantity`). -/
def toUnsigned (v : Int) : Quantity := (v % 2 ^ 32).toNat

/-! ## Facade value types (`CQGAPIFacade.h`) -/

/-- Account information. -/
structure AccountInfo where
  fcmID : ID := 0
  fcmAccountID : String := ""
  gwAccountID : ID := 0
  gwAccountName : String := ""
  currency : String := ""
  balance : MoneyAmount := 0
  ote : MoneyAmount := 0
  profitLoss : MoneyAmount := 0
  deriving DecidableEq

/-- Account position information. -/
structure PositionInfo where
  symbol : String := ""
  longPosition : Bool := false
  quantity : Quantity := 0
  averagePrice : Price := 0
  ote : MoneyAmount := 0
  profitLoss : MoneyAmount := 0
  deriving DecidableEq

abbrev Accounts := List AccountInfo
abbrev Positions := List PositionInfo

/-- Quote type, the enumeration `QuoteInfo::Type`. -/
inductive QuoteInfoType where
  | Unknown | Ask | Bid | Trade | Close | High | Low
  deriving DecidableEq, Repr

/-- Quote info. -/
structure QuoteInfo where
  type : QuoteInfoType := QuoteInfoType.Unknown
  price : Price := 0
  volume : Volume := 0
  deriving DecidableEq

abbrev Quotes := List QuoteInfo

/-- Resolved symbol information. -/
structure SymbolInfo where
  fullName : String := ""
  lastQuotes : Quotes := []
  deriving DecidableEq

/-- Order fill information. -/
structure FillInfo where
  canceled : Bool := false
  symbol : String := ""
  fillPrice : Price := 0
  fillQty : Volume := 0
  deriving DecidableEq

abbrev Fills := List FillInfo

/-- Placed order information. -/
structure OrderInfo where
  orderGuid : String := ""
  gwOrderID : String := ""
  symbol : String := ""
  gwAccountID : ID := 0
  buy : Bool := false
  final : Bool := false
  quantity : Quantity := 0
  filledQty : Quantity := 0
  error : String := ""
  orderFills : Fills := []
  description : String := ""
  deriving DecidableEq

/-- The enumeration `COleDateTime::DateTimeStatus`. -/
inductive DateTimeStatus where
  | error | valid | invalid | null
  deriving DecidableEq, Repr

/-- Class `COleDateTime`: a `DATE` (a double) and its status; the default
constructor gives `m_dt = 0`, `m_status = valid`. -/
structure COleDateTime where
  m_dt : Double := 0
  m_status : DateTimeStatus := DateTimeStatus.valid
  deriving DecidableEq

/-- The converting constructor `COleDateTime(DATE dtSrc)`: `m_dt(dtSrc), m_status(valid)`. -/
def COleDateTime.ofDATE (dtSrc : Double) : COleDateTime :=
  { m_dt := dtSrc, m_status := DateTimeStatus.valid }

/-- Timed bars request definition, as `CQGAPIFacade.h` declares it. -/
structure BarsRequest where
  symbol : String := ""
  useIndexRange : Bool := false
  startDate : COleDateTime := {}
  endDate : COleDateTime := {}
  startIndex : Int := 0
  endIndex : Int := 0
  intradayPeriodInMinutes : Int := 0
  sessionsFilter : Int := 0
  deriving DecidableEq

/-- The enumerator `BarsRequest::UseAllSessions`. -/
def BarsRequest.UseAllSessions : Int := 31

/-- Modelled from the spec: the member `rangeStart` of `BarsRequest`, which
`RequestBars` reads and `CQGAPIFacade.h` does not declare.  The specification knows one
date-range pair in a request (sections 3 and 9), `startDate` / `endDate`; `rangeStart`
is its first member. -/
def BarsRequest.rangeStart (r : BarsRequest) : COleDateTime := r.startDate

/-- Modelled from the spec: the member `rangeEnd` of `BarsRequest`, which `RequestBars`
reads and `CQGAPIFacade.h` does not declare; see `BarsRequest.rangeStart`. -/
def BarsRequest.rangeEnd (r : BarsRequest) : COleDateTime := r.endDate

/-- Timed bar information. -/
structure BarInfo where
  timestamp : COleDateTime := {}
  «open» : Price := 0
  high : Price := 0
  low : Price := 0
  close : Price := 0
  deriving DecidableEq

abbrev BarInfos := List BarInfo

/-- Timed bars request result. -/
structure Bars where
  requestGuid : String := ""
  error : String := ""
  requestedCount : Int := 0
  bars : BarInfos := []
  deriving DecidableEq

/-! ## What can escape a C++ function besides its return value -/

/-- A control-flow outcome other than a normal return. -/
inductive Fault where
  /-- `throw std::runtime_error(what)`. -/
  | runtime_error (what : String)
  /-- The `std::length_error` that `std::vector::reserve` throws for a size beyond `max_size()`. -/
  | length_error (what : String)
  /-- An exception that is not a `std::exception` (what `catch(...)` is for). -/
  | unknownException
  /-- A call through a null interface pointer. -/
  | nullDeref
  deriving DecidableEq, Repr

/-! ## Error Translator -/

/-- COM interfaces on which the facade reports errors (the template argument
`IFaceT` of `GetCOMError` / `CheckCOMError`). -/
inductive IFace where
  | ICQGCEL | ICQGAPIConfig | ICQGAccounts | ICQGAccount | ICQGInstruments
  | ICQGInstrument | ICQGOrders | ICQGOrder | ICQGPositions | ICQGQuotes
  | ICQGTimedBarsRequest | ICQGEnvironment | IEnumVARIANT
  deriving DecidableEq, Repr

/-- The rich error object `IErrorInfo`: the answer of `GetDescription`. -/
structure IErrorInfo where
  getDescriptionHr : HRESULT := S_OK
  description : String := ""
  deriving DecidableEq, Repr

/-- Answers of the COM runtime and the operating system that the error
translator consults, and the indeterminate content of uninitialised locals. -/
structure ComEnv where
  /-- `spIFace->QueryInterface(__uuidof(ISupportErrorInfo), ...)`. -/
  queryInterfaceHr : IFace → HRESULT := fun _ => S_OK
  /-- `InterfaceSupportsErrorInfo(__uuidof(IFaceT))`. -/
  supportsErrorInfoHr : IFace → HRESULT := fun _ => S_OK
  /-- `GetErrorInfo(0, &spErrorInfo)`: result code and the object stored. -/
  getErrorInfoHr : HRESULT := S_OK
  errorInfo : Option IErrorInfo := some {}
  /-- `FormatMessage` for a result code; `none` when it leaves the buffer null. -/
  formatMessage : HRESULT → Option String := fun _ => none
  /-- Text of the `std::length_error` thrown by `std::vector::reserve`. -/
  vectorTooLong : String := "vector<T> too long"
  /-- Scalars found in the local `AccountInfo account;` of loop iteration `i`. -/
  stackAccountInfo : Int → AccountInfo := fun _ => {}
  /-- Scalars found in the local `PositionInfo position;` of loop iteration `i`. -/
  stackPositionInfo : Int → PositionInfo := fun _ => {}
  /-- Content of `requestedCount` in a local `Bars bars;` that nothing was stored in. -/
  stackRequestedCount : Int := 0

/-- `GetCOMErrorString(spIFace, error)`: result code and the `error` out-parameter. -/
def GetCOMErrorString (env : ComEnv) (iface : IFace) : Except Fault (HRESULT × String) :=
  let error := ""
  let hr := env.queryInterfaceHr iface
  if SUCCEEDED hr then
    let hr := env.supportsErrorInfoHr iface
    if SUCCEEDED hr then
      let hr := env.getErrorInfoHr
      if SUCCEEDED hr then
        match env.errorInfo with
        | none => .error Fault.nullDeref
        | some spErrorInfo => .ok (spErrorInfo.getDescriptionHr, spErrorInfo.description)
      else .ok (hr, error)
    else .ok (hr, error)
  else .ok (hr, error)

/-- `GetCOMError(spIFace, hr)`. -/
def GetCOMError (env : ComEnv) (iface : IFace) (hr : HRESULT) : Except Fault String :=
  if SUCCEEDED hr then .ok ""
  else
    match GetCOMErrorString env iface with
    | .error e => .error e
    | .ok (hres, errMessage) =>
      if SUCCEEDED hres then .ok ("COM error occurred. Description: " ++ errMessage)
      else .ok ((env.formatMessage hr).getD "")

/-- `CheckCOMError(spIFace, hr)`: returns normally on success, throws otherwise. -/
def CheckCOMError (env : ComEnv) (iface : IFace) (hr : HRESULT) : Except Fault Unit :=
  if SUCCEEDED hr then .ok ()
  else
    match GetCOMError env iface hr with
    | .error e => .error e
    | .ok what => .error (Fault.runtime_error what)

/-! ## Collection Iterator Adapter -/

/-- A foreign enumerator `IEnumVARIANT`.  `script` lists the answers of the
successive `Next(1, ...)` calls counted from the start of the sequence (result
code and the variant stored, `none` for an empty variant); once it is used up
`Next` answers `S_FALSE`.  `rest` is the part still ahead of the cursor. -/
structure IEnumVARIANT (α : Type) where
  resetHr : HRESULT := S_OK
  script : List (HRESULT × Option α) := []
  rest : List (HRESULT × Option α) := []

/-- `IEnumVARIANT::Reset`: result code and the enumerator afterwards. -/
def IEnumVARIANT.Reset {α : Type} (e : IEnumVARIANT α) : HRESULT × IEnumVARIANT α :=
  (e.resetHr, { e with rest := e.script })

/-- `IEnumVARIANT::Next(1, &result, NULL)`: result code, variant, enumerator afterwards. -/
def IEnumVARIANT.Next {α : Type} (e : IEnumVARIANT α) : HRESULT × Option α × IEnumVARIANT α :=
  match e.rest with
  | [] => (S_FALSE, none, e)
  | (hr, v) :: rest => (hr, v, { e with rest := rest })

/-- A foreign collection as the adapter sees it: the answer of `get__NewEnum`. -/
structure ComCollection (α : Type) where
  newEnumHr : HRESULT := S_OK
  newEnum : Option (IEnumVARIANT α) := none

/-- State of a `CComCollection<ICollectionT, ItemT>`. -/
structure CComCollection (α : Type) where
  m_isEnd : Bool
  m_collection : Option (IEnumVARIANT α)

namespace CComCollection

/-- `bool IsEnd() const`. -/
def IsEnd {α : Type} (q : CComCollection α) : Bool := q.m_isEnd

/-- `void Reset()`. -/
def Reset {α : Type} (env : ComEnv) (q : CComCollection α) : Except Fault (CComCollection α) :=
  match q.m_collection with
  | some e =>
    let r := e.Reset
    match CheckCOMError env IFace.IEnumVARIANT r.1 with
    | .error f => .error f
    | .ok _ => .ok { m_isEnd := false, m_collection := some r.2 }
  | none => .ok q

/-- The constructor `CComCollection(ICollectionT* collection)`; `iface` is `ICollectionT`. -/
def new {α : Type} (env : ComEnv) (iface : IFace) (collection : Option (ComCollection α)) :
    Except Fault (CComCollection α) :=
  match collection with
  | some c =>
    match CheckCOMError env iface c.newEnumHr with
    | .error f => .error f
    | .ok _ => Reset env { m_isEnd := true, m_collection := c.newEnum }
  | none => .ok { m_isEnd := true, m_collection := none }

/-- `ATL::CComVariant GetNext()`: the variant returned and the adapter afterwards. -/
def GetNext {α : Type} (env : ComEnv) (q : CComCollection α) :
    Except Fault (Option α × CComCollection α) :=
  match q.m_collection with
  | some e =>
    let r := e.Next
    match CheckCOMError env IFace.IEnumVARIANT r.1 with
    | .error f => .error f
    | .ok _ => .ok (r.2.1, { m_isEnd := decide (r.1 = S_FALSE), m_collection := some r.2.2 })
  | none => .ok (none, { q with m_isEnd := true })

/-- Number of `Next` answers still ahead of the cursor. -/
def remaining {α : Type} (q : CComCollection α) : Nat :=
  match q.m_collection with
  | some e => e.rest.length
  | none => 0

end CComCollection

/-! ## Order parameters (`CQGAPIFacade.h`) -/

/-- Class `OrderPrice`: an order price parameter with its initialized flag. -/
structure OrderPrice where
  m_price : Price
  m_initialized : Bool
  deriving DecidableEq

namespace OrderPrice

/-- The default constructor `OrderPrice(): m_price(), m_initialized(false)`. -/
def default : OrderPrice := { m_price := 0.0, m_initialized := false }

/-- The converting constructor `OrderPrice(Price newPrice)`. -/
def ofPrice (newPrice : Price) : OrderPrice := { m_price := newPrice, m_initialized := true }

/-- `bool initialized() const`. -/
def initialized (p : OrderPrice) : Bool := p.m_initialized

/-- `Price price() const`. -/
def price (p : OrderPrice) : Price := p.m_price

end OrderPrice

/-- Available order types, `enum OrderType`. -/
inductive OrderType where
  | Market | Limit | Stop | StopLimit
  deriving DecidableEq, Repr

/-! ## The gateway connector as an oracle

Enumerations and interfaces of the imported type library `CQGCEL-4_0.dll`.
A property getter whose result code the facade ignores is modelled by the
value its out-variable holds after the call. -/

inductive eOrderType where
  | otMarket | otLimit | otStop | otStopLimit
  deriving DecidableEq, Repr

inductive eOrderSide where
  | osdUndefined | osdBuy | osdSell
  deriving DecidableEq, Repr

inductive eQuoteType where
  | qtAsk | qtBid | qtTrade | qtYesterdaySettlement | qtDayHigh | qtDayLow
  /-- Any other enumerator of the type library, by its value. -/
  | other (raw : Int)
  deriving DecidableEq, Repr

inductive eFillStatus where
  | fsNormal | fsCanceled | fsBusted
  /-- Any other enumerator of the type library, by its value. -/
  | other (raw : Int)
  deriving DecidableEq, Repr

inductive eRequestStatus where
  | rsSuccess
  /-- Any other enumerator of the type library, by its value. -/
  | other (raw : Int)
  deriving DecidableEq, Repr

inductive eConnectionStatus where
  | csConnectionUp
  /-- Any other enumerator of the type library, by its value. -/
  | other (raw : Int)
  deriving DecidableEq, Repr

inductive eAccountChangeType where
  | actAccountsReloaded | actPositionsReloaded | actAccountChanged | actPositionAdded
  | actPositionChanged
  /-- Any other enumerator of the type library, by its value. -/
  | other (raw : Int)
  deriving DecidableEq, Repr

inductive eAccountSubscriptionLevel where
  | aslAccountUpdatesAndOrders
  /-- Any other enumerator of the type library, by its value. -/
  | other (raw : Int)
  deriving DecidableEq, Repr

/-- A `VARIANT` as the facade builds one for a range bound of a bars request:
`VT_DATE` holding a `DATE`, or an integer (`VT_I4`). -/
inductive VARIANT where
  | date (dt : Double)
  | i4 (v : Int)
  deriving DecidableEq

/-- Interface `ICQGOrder`. -/
structure ICQGOrder where
  /-- Value of `get_GUID`. -/
  guid : String := ""
  /-- Content of `state` after `get_IsFinal(&state)`. -/
  isFinal : VARIANT_BOOL := VARIANT_FALSE
  /-- Content of `canBeCanceled` after `get_CanBeCanceled(&canBeCanceled)`. -/
  canBeCanceled : VARIANT_BOOL := VARIANT_TRUE
  put_DescriptionHr : HRESULT := S_OK
  placeHr : HRESULT := S_OK
  cancelHr : HRESULT := S_OK
  /-- Value of `get_InstrumentName`. -/
  instrumentName : String := ""
  /-- The account stored by `get_Account`, known by what its `get_GWAccountID` stores;
  `none` when no account is stored. -/
  account : Option ID := some 0
  /-- Content of `side` after `get_Side(&side)`. -/
  side : eOrderSide := eOrderSide.osdUndefined
  /-- Content of `qty` after `get_Quantity(&qty)`. -/
  quantity : Int := 0
  /-- Content of `filledQty` after `get_FilledQuantity(&filledQty)`. -/
  filledQuantity : Int := 0
  /-- Value of `get_Description`. -/
  description : String := ""
  /-- Value of `get_OriginalOrderID`. -/
  originalOrderID : String := ""
  deriving DecidableEq, Repr

/-- Interface `ICQGFill`; the per-leg properties take the leg index. -/
structure ICQGFill where
  /-- Content of `valid` after `m_spCQGCEL->IsValid(fill, &valid)`. -/
  isValid : VARIANT_BOOL := VARIANT_TRUE
  /-- Content of `legCount` after `get_LegCount(&legCount)`. -/
  legCount : Int := 0
  /-- Content of `status` after `get_Status(&status)`. -/
  status : eFillStatus := eFillStatus.fsNormal
  instrumentName : Int → String := fun _ => ""
  price : Int → Price := fun _ => 0
  quantity : Int → Volume := fun _ => 0

/-- Interface `ICQGError`. -/
structure ICQGError where
  /-- Content of `valid` after `m_spCQGCEL->IsValid(cqgerr, &valid)`. -/
  isValid : VARIANT_BOOL := VARIANT_TRUE
  description : String := ""
  deriving DecidableEq, Repr

/-- Interface `ICQGQuote`. -/
structure ICQGQuote where
  /-- Content of `valid` after `get_IsValid(&valid)`. -/
  isValid : VARIANT_BOOL := VARIANT_TRUE
  type : eQuoteType := eQuoteType.qtTrade
  price : Price := 0
  volume : Volume := 0
  deriving DecidableEq

/-- Interface `ICQGQuotes`, used as a collection only. -/
abbrev ICQGQuotes := ComCollection ICQGQuote

/-- Interface `ICQGTimedBar`. -/
structure ICQGTimedBar where
  timestamp : Double := 0
  «open» : Price := 0
  high : Price := 0
  low : Price := 0
  close : Price := 0
  deriving DecidableEq

/-- Interface `ICQGTimedBars`, a resolved or pending bar series. -/
structure ICQGTimedBars where
  /-- Value of `get_Id`. -/
  id : String := ""
  /-- Content of `status` after `get_Status(&status)`. -/
  status : eRequestStatus := eRequestStatus.rsSuccess
  /-- Content of `barCount` after `get_Count(&barCount)`. -/
  count : Int := 0
  /-- The bar stored by `get_Item(i, &spBar)`, `none` when none is stored. -/
  get_Item : Int → Option ICQGTimedBar := fun _ => none

/-- Interface `ICQGTimedBarsRequest`: result codes of the property setters. -/
structure ICQGTimedBarsRequest where
  put_Symbol : String → HRESULT := fun _ => S_OK
  put_RangeStart : VARIANT → HRESULT := fun _ => S_OK
  put_RangeEnd : VARIANT → HRESULT := fun _ => S_OK
  put_IntradayPeriod : Int → HRESULT := fun _ => S_OK

/-- The properties the facade has stored in a bars request when it submits it. -/
structure SubmittedBarsRequest where
  symbol : String
  rangeStart : VARIANT
  rangeEnd : VARIANT
  intradayPeriod : Int
  deriving DecidableEq

/-- Interface `ICQGOrders`: enumerable, with lookup by guid. -/
structure ICQGOrders where
  toCollection : ComCollection ICQGOrder := {}
  get_ItemByGuid : String → HRESULT × Option ICQGOrder := fun _ => (S_FALSE, none)

/-- Interface `ICQGAccountSummary`.  Each query gives `some v` when it stored
`v` in its out-parameter and `none` when it failed and left it untouched. -/
structure ICQGAccountSummary where
  Balance : Option MoneyAmount := none
  OTE : Option MoneyAmount := none
  ProfitLoss : Option MoneyAmount := none

/-- Interface `ICQGPosition`. -/
structure ICQGPosition where
  instrumentName : String := ""
  side : eOrderSide := eOrderSide.osdUndefined
  quantity : Int := 0
  /-- The three queries below: `some v` when the value was stored, `none` when the call failed. -/
  averagePrice : Option Price := none
  ote : Option MoneyAmount := none
  profitLoss : Option MoneyAmount := none

/-- Interface `ICQGPositions`. -/
structure ICQGPositions where
  get_Count : HRESULT × Int := (S_OK, 0)
  get_ItemByIndex : Int → HRESULT × Option ICQGPosition := fun _ => (S_FALSE, none)

/-- Interface `ICQGAccount`. -/
structure ICQGAccount where
  fcmID : ID := 0
  fcmAccountID : String := ""
  gwAccountID : ID := 0
  gwAccountName : String := ""
  reportingCurrency : String := ""
  get_Summary : HRESULT × Option ICQGAccountSummary := (S_OK, some {})
  get_Positions : HRESULT × Option ICQGPositions := (S_OK, some {})
  get_Orders : HRESULT × Option ICQGOrders := (S_OK, some {})
  get_InternalOrders : HRESULT × Option ICQGOrders := (S_OK, some {})

/-- Interface `ICQGAccounts`. -/
structure ICQGAccounts where
  get_Count : HRESULT × Int := (S_OK, 0)
  get_ItemByIndex : Int → HRESULT × Option ICQGAccount := fun _ => (S_FALSE, none)
  get_Item : ID → HRESULT × Option ICQGAccount := fun _ => (S_FALSE, none)

/-- Interface `ICQGInstrument`. -/
structure ICQGInstrument where
  /-- Value of `get_FullName`. -/
  fullName : String := ""
  get_FullNameHr : HRESULT := S_OK
  get_Quotes : HRESULT × Option ICQGQuotes := (S_OK, none)

/-- Interface `ICQGInstruments`. -/
structure ICQGInstruments where
  get_Item : String → HRESULT × Option ICQGInstrument := fun _ => (S_FALSE, none)

/-- Interface `ICQGEnvironment`: the answer of `get_LineTime(&lineTime)`, result code
and the content of `lineTime` afterwards. -/
structure ICQGEnvironment where
  get_LineTime : HRESULT × Double := (S_OK, 0)

/-- Interface `ICQGAPIConfig`: result codes of the property setters. -/
structure ICQGAPIConfig where
  put_ReadyStatusCheckHr : HRESULT := S_OK
  put_UsedFromATLClientHr : HRESULT := S_OK
  put_CollectionsThrowExceptionHr : HRESULT := S_OK
  put_TimeZoneCodeHr : HRESULT := S_OK
  put_UseOrderSideHr : HRESULT := S_OK
  put_DefPositionSubscriptionLevelHr : HRESULT := S_OK

/-- Interface `ICQGCEL`, the connector. -/
structure ICQGCEL where
  get_APIConfiguration : HRESULT × Option ICQGAPIConfig := (S_OK, some {})
  StartupHr : HRESULT := S_OK
  get_Accounts : HRESULT × Option ICQGAccounts := (S_OK, some {})
  get_Instruments : HRESULT × Option ICQGInstruments := (S_OK, some {})
  get_Orders : HRESULT × Option ICQGOrders := (S_OK, some {})
  get_InternalOrders : HRESULT × Option ICQGOrders := (S_OK, some {})
  CreateOrder : eOrderType → Option ICQGInstrument → Option ICQGAccount → Quantity →
    eOrderSide → Price → Price → HRESULT × Option ICQGOrder := fun _ _ _ _ _ _ _ => (E_FAIL, none)
  CancelAllOrders : Option ICQGAccount → Option ICQGInstrument → HRESULT := fun _ _ => S_OK
  NewInstrument : String → HRESULT := fun _ => S_OK
  GWLogon : String → String → HRESULT := fun _ _ => S_OK
  CreateTimedBarsRequest : HRESULT × Option ICQGTimedBarsRequest := (S_OK, some {})
  RequestTimedBars : SubmittedBarsRequest → HRESULT × Option ICQGTimedBars :=
    fun _ => (E_FAIL, none)
  put_AccountSubscriptionLevel : eAccountSubscriptionLevel → HRESULT := fun _ => S_OK
  get_Environment : HRESULT × Option ICQGEnvironment := (S_OK, some {})

/-- A call made on the gateway, with the arguments the facade passed.  An
account argument is recorded by its gateway account id and an instrument
argument by its full name; `none` is a null pointer.  Reads of plain
properties of an order, account or position and the enumeration of a
collection (`get__NewEnum`, `Reset`, `Next`) are not recorded. -/
inductive GwCall where
  | CoCreateInstance
  | get_APIConfiguration
  | put_ReadyStatusCheck
  | put_UsedFromATLClient
  | put_CollectionsThrowException
  | put_TimeZoneCode
  | put_UseOrderSide
  | put_DefPositionSubscriptionLevel
  | DispEventAdvise
  | Startup
  | get_Accounts
  | Accounts_get_Count
  | Accounts_get_ItemByIndex (i : Int)
  | Accounts_get_Item (gwAccountID : ID)
  | Account_get_Summary (gwAccountID : ID)
  | Account_get_Positions (gwAccountID : ID)
  | Positions_get_Count
  | Positions_get_ItemByIndex (i : Int)
  | Account_get_Orders (gwAccountID : ID)
  | Account_get_InternalOrders (gwAccountID : ID)
  | get_Instruments
  | Instruments_get_Item (symbol : String)
  | get_Orders
  | get_InternalOrders
  | Orders_get_ItemByGuid (guid : String)
  | CreateOrder (ordType : eOrderType) (instrument : Option String) (account : Option ID)
      (quantity : Quantity) (side : eOrderSide) (limitPrice stopPrice : Price)
  | Order_put_Description (guid : String) (description : String)
  | Order_Place (guid : String)
  | Order_Cancel (guid : String)
  | CancelAllOrders (account : Option ID) (instrument : Option String)
  | NewInstrument (symbol : String)
  | GWLogon (user password : String)
  | CreateTimedBarsRequest
  | Request_put_Symbol (symbol : String)
  | Request_put_RangeStart (v : VARIANT)
  | Request_put_RangeEnd (v : VARIANT)
  | Request_put_IntradayPeriod (minutes : Int)
  | RequestTimedBars (request : SubmittedBarsRequest)
  | IsValid
  | put_AccountSubscriptionLevel (level : eAccountSubscriptionLevel)
  | get_Environment
  | Environment_get_LineTime
  deriving DecidableEq

/-- The host's events sink `IAPIEvents*`, known by its identity only. -/
abbrev IAPIEventsPtr := Option Nat

/-- Class `CQGCELWrapper`: the connector and the host's sink.  `m_spCQGCEL` is
not null in a wrapper that exists: the constructor calls through it right
after creating it and only the destructor releases it. -/
structure CQGCELWrapper where
  m_spCQGCEL : ICQGCEL
  m_events : IAPIEventsPtr

/-- State of an `IAPIFacadeImpl`; `m_api` is the `std::auto_ptr<CQGCELWrapper>`. -/
structure IAPIFacadeImpl where
  m_api : Option CQGCELWrapper
  m_lastError : String

/-- What one facade operation did: its return value (or what escaped it), the
facade afterwards and the gateway calls made, in order. -/
structure Outcome (α : Type) where
  result : Except Fault α
  facade : IAPIFacadeImpl
  calls : List GwCall

/-! ## Free helper functions of `CQGAPIFacade.cpp` -/

/-- The loop of `GetWorkingOrders`; `fuel` bounds the number of iterations. -/
def GetWorkingOrders.loop (env : ComEnv) :
    Nat → CComCollection ICQGOrder → Nat → Except Fault Nat
  | 0, _, count => .ok count
  | fuel + 1, q, count =>
    if q.IsEnd then .ok count
    else
      match q.GetNext env with
      | .error f => .error f
      | .ok (v, q) =>
        if q.IsEnd then .ok count
        else
          match v with
          | none => .error Fault.nullDeref
          | some spOrder =>
            GetWorkingOrders.loop env fuel q
              (if spOrder.isFinal = VARIANT_FALSE then count + 1 else count)

/-- `int GetWorkingOrders(ICQGOrders* orders)`.  Every iteration of the loop
consumes one answer of the enumerator, so the fuel given is never used up
(`GetWorkingOrders_loop_fuel`).  The counter is a C++ `int`; it never exceeds the
number of entries enumerated and is modelled without a bound. -/
def GetWorkingOrders (env : ComEnv) (orders : Option ICQGOrders) : Except Fault Nat :=
  match orders with
  | none => .ok 0
  | some orders =>
    match CComCollection.new env IFace.ICQGOrders (some orders.toCollection) with
    | .error f => .error f
    | .ok q => GetWorkingOrders.loop env (q.remaining + 1) q 0

/-- `bool GetQuote(ICQGQuote* quote, QuoteInfo& quoteInfo)`: the return value and the
content of `quoteInfo` afterwards. -/
def GetQuote (quote : Option ICQGQuote) (quoteInfo : QuoteInfo) : Bool × QuoteInfo :=
  match quote with
  | none => (false, quoteInfo)
  | some quote =>
    if quote.isValid = VARIANT_FALSE then (false, quoteInfo)
    else
      let quoteInfo := { quoteInfo with type := QuoteInfoType.Unknown }
      let mapped : Option QuoteInfoType :=
        if quote.type = eQuoteType.qtAsk then some QuoteInfoType.Ask
        else if quote.type = eQuoteType.qtBid then some QuoteInfoType.Bid
        else if quote.type = eQuoteType.qtTrade then some QuoteInfoType.Trade
        else if quote.type = eQuoteType.qtYesterdaySettlement then some QuoteInfoType.Close
        else if quote.type = eQuoteType.qtDayHigh then some QuoteInfoType.High
        else if quote.type = eQuoteType.qtDayLow then some QuoteInfoType.Low
        else none
      match mapped with
      | none => (false, quoteInfo)
      | some type => (true, { quoteInfo with type := type, price := quote.price, volume := quote.volume })

/-- The loop of `GetAllQuotes`; `fuel` bounds the number of iterations.  The local
`QuoteInfo quote;` of an iteration holds nothing that reaches the result: `GetQuote`
stores its three members before it returns true. -/
def GetAllQuotes.loop (env : ComEnv) :
    Nat → CComCollection ICQGQuote → SymbolInfo → Except Fault SymbolInfo
  | 0, _, symInfo => .ok symInfo
  | fuel + 1, q, symInfo =>
    if q.IsEnd then .ok symInfo
    else
      match q.GetNext env with
      | .error f => .error f
      | .ok (v, q) =>
        if q.IsEnd then .ok symInfo
        else
          let r := GetQuote v {}
          GetAllQuotes.loop env fuel q
            (if r.1 then { symInfo with lastQuotes := symInfo.lastQuotes ++ [r.2] } else symInfo)

/-- `void GetAllQuotes(ICQGQuotes* quotes, SymbolInfo& symInfo)`: the content of
`symInfo` afterwards.  Every iteration of the loop consumes one answer of the
enumerator, so the fuel given is never used up. -/
def GetAllQuotes (env : ComEnv) (quotes : Option ICQGQuotes) (symInfo : SymbolInfo) :
    Except Fault SymbolInfo :=
  match quotes with
  | none => .ok symInfo
  | some quotes =>
    match CComCollection.new env IFace.ICQGQuotes (some quotes) with
    | .error f => .error f
    | .ok q => GetAllQuotes.loop env (q.remaining + 1) q symInfo

/-- `void GetAccountInfo(ICQGAccount* acc, ICQGAccountSummary* accSum, AccountInfo& account)`. -/
def GetAccountInfo (acc : Option ICQGAccount) (accSum : Option ICQGAccountSummary)
    (account : AccountInfo) : Except Fault AccountInfo :=
  match acc with
  | none => .ok account
  | some acc =>
    let account : AccountInfo :=
      { account with
        fcmID := acc.fcmID
        fcmAccountID := acc.fcmAccountID
        gwAccountID := acc.gwAccountID
        gwAccountName := acc.gwAccountName
        currency := acc.reportingCurrency
        balance := 0.0
        ote := 0.0
        profitLoss := 0.0 }
    match accSum with
    | none => .error Fault.nullDeref
    | some accSum =>
      .ok { account with
            balance := accSum.Balance.getD account.balance
            ote := accSum.OTE.getD account.ote
            profitLoss := accSum.ProfitLoss.getD account.profitLoss }

/-- `void GetPositionInfo(ICQGPosition* pos, PositionInfo& position)`. -/
def GetPositionInfo (pos : Option ICQGPosition) (position : PositionInfo) : PositionInfo :=
  match pos with
  | none => position
  | some pos =>
    let position : PositionInfo :=
      { position with
        symbol := pos.instrumentName
        longPosition := decide (pos.side = eOrderSide.osdBuy)
        quantity := toUnsigned pos.quantity
        averagePrice := InvalidPrice
        ote := 0.0
        profitLoss := 0.0 }
    { position with
      averagePrice := pos.averagePrice.getD position.averagePrice
      ote := pos.ote.getD position.ote
      profitLoss := pos.profitLoss.getD position.profitLoss }

/-- Method `std::vector::clear()`: the vector afterwards. -/
def clear {α : Type} (_v : List α) : List α := []

/-- Content of a local `AccountInfo account;` before anything is stored in it:
the strings are empty, the scalars indeterminate (`scalars` says what they hold). -/
def AccountInfo.uninitialized (scalars : AccountInfo) : AccountInfo :=
  { scalars with fcmAccountID := "", gwAccountName := "", currency := "" }

/-- Content of a local `PositionInfo position;` before anything is stored in it. -/
def PositionInfo.uninitialized (scalars : PositionInfo) : PositionInfo :=
  { scalars with symbol := "" }

/-! ## Construction of the connector wrapper -/

/-- A run of statements `hr = obj->Call(...); CheckCOMError(obj, hr);`: the
calls made and whether one of the checks threw. -/
def runChecked (env : ComEnv) : List (GwCall × IFace × HRESULT) → Except Fault Unit × List GwCall
  | [] => (.ok (), [])
  | (call, iface, hr) :: steps =>
    match CheckCOMError env iface hr with
    | .error f => (.error f, [call])
    | .ok _ => ((runChecked env steps).1, call :: (runChecked env steps).2)

/-- `CQGCELWrapper::initializeCQGCEL()`; `coCreate` is the answer of
`m_spCQGCEL.CoCreateInstance(__uuidof(CQGCEL), ...)`. -/
def initializeCQGCEL (env : ComEnv) (coCreate : HRESULT × Option ICQGCEL) :
    Except Fault ICQGCEL × List GwCall :=
  if FAILED coCreate.1 then
    (.error (Fault.runtime_error
      ("Unable to create CQGCEL COM object. " ++
        "Please register it again and restart application.")), [GwCall.CoCreateInstance])
  else
    match coCreate.2 with
    | none => (.error Fault.nullDeref, [GwCall.CoCreateInstance])
    | some cel =>
      match CheckCOMError env IFace.ICQGCEL cel.get_APIConfiguration.1 with
      | .error f => (.error f, [GwCall.CoCreateInstance, GwCall.get_APIConfiguration])
      | .ok _ =>
        match cel.get_APIConfiguration.2 with
        | none => (.error Fault.nullDeref, [GwCall.CoCreateInstance, GwCall.get_APIConfiguration])
        | some spConf =>
          let r := runChecked env
            [ (GwCall.put_ReadyStatusCheck, IFace.ICQGAPIConfig, spConf.put_ReadyStatusCheckHr),
              (GwCall.put_UsedFromATLClient, IFace.ICQGAPIConfig, spConf.put_UsedFromATLClientHr),
              (GwCall.put_CollectionsThrowException, IFace.ICQGAPIConfig,
                spConf.put_CollectionsThrowExceptionHr),
              (GwCall.put_TimeZoneCode, IFace.ICQGAPIConfig, spConf.put_TimeZoneCodeHr),
              (GwCall.put_UseOrderSide, IFace.ICQGAPIConfig, spConf.put_UseOrderSideHr),
              (GwCall.put_DefPositionSubscriptionLevel, IFace.ICQGAPIConfig,
                spConf.put_DefPositionSubscriptionLevelHr) ]
          let calls := [GwCall.CoCreateInstance, GwCall.get_APIConfiguration] ++ r.2
          match r.1 with
          | .error f => (.error f, calls)
          | .ok _ =>
            let calls := calls ++ [GwCall.DispEventAdvise, GwCall.Startup]
            match CheckCOMError env IFace.ICQGCEL cel.StartupHr with
            | .error f => (.error f, calls)
            | .ok _ => (.ok cel, calls)

/-- The constructor `CQGCELWrapper(IAPIEvents* events)`. -/
def CQGCELWrapper.new (env : ComEnv) (coCreate : HRESULT × Option ICQGCEL)
    (events : IAPIEventsPtr) : Except Fault CQGCELWrapper × List GwCall :=
  match initializeCQGCEL env coCreate with
  | (.error f, calls) => (.error f, calls)
  | (.ok cel, calls) => (.ok { m_spCQGCEL := cel, m_events := events }, calls)

/-! ## `CQGCELWrapper`: handlers of the gateway's notifications -/

/-- A callback delivered to the host's sink (`IAPIEvents`), with its arguments. -/
inductive HostEvent where
  | OnError (error : String)
  | OnMarketDataConnection (connected : Bool)
  | OnTradingConnection (connected : Bool)
  | OnSymbolSubscribed (requestedSymbol : String) (symbol : SymbolInfo)
  | OnSymbolError (symbol : String)
  | OnSymbolQuote (symbol : SymbolInfo)
  | OnAccountsReloaded
  | OnPositionsReloaded
  | OnAccountChanged (account : AccountInfo)
  | OnPositionChanged (account : AccountInfo) (position : PositionInfo) (newPosition : Bool)
  | OnOrderChanged (order : OrderInfo)
  | OnBarsReceived (bars : Bars)
  deriving DecidableEq

/-- What one notification handler did: the `HRESULT` it returned (or what escaped
it), the callbacks it delivered to the host's sink and the gateway calls it made, both
in order. -/
structure HandlerOutcome where
  result : Except Fault HRESULT
  events : List HostEvent
  calls : List GwCall

namespace CQGCELWrapper

/-- `bool checkValid(Interface* obj)`, for an object known by the content of `valid`
after `m_spCQGCEL->IsValid(obj, &valid)` (`none` for a null pointer): the return value
and the gateway call made. -/
def checkValid (obj : Option VARIANT_BOOL) : Bool × List GwCall :=
  match obj with
  | none => (false, [])
  | some valid => (decide (valid = VARIANT_TRUE), [GwCall.IsValid])

/-- `STDMETHOD(OnDataError)(LPDISPATCH obj, BSTR errorDescription)`; the parameter `obj`
is not used by the handler. -/
def OnDataError (self : CQGCELWrapper) (errorDescription : String) : HandlerOutcome :=
  match self.m_events with
  | some _ => { result := .ok S_OK, events := [HostEvent.OnError errorDescription], calls := [] }
  | none => { result := .ok S_OK, events := [], calls := [] }

/-- `STDMETHOD(OnGWConnectionStatusChanged)(eConnectionStatus newStatus)`. -/
def OnGWConnectionStatusChanged (env : ComEnv) (self : CQGCELWrapper)
    (newStatus : eConnectionStatus) : HandlerOutcome :=
  let connected := decide (newStatus = eConnectionStatus.csConnectionUp)
  let level := eAccountSubscriptionLevel.aslAccountUpdatesAndOrders
  -- the block `if(connected) { hr = ...; CheckCOMError(m_spCQGCEL, hr); }`
  let subscribed : Except Fault Unit × List GwCall :=
    if connected then
      (CheckCOMError env IFace.ICQGCEL (self.m_spCQGCEL.put_AccountSubscriptionLevel level),
        [GwCall.put_AccountSubscriptionLevel level])
    else (.ok (), [])
  match subscribed.1 with
  | .error f => { result := .error f, events := [], calls := subscribed.2 }
  | .ok _ =>
    match self.m_events with
    | some _ =>
      { result := .ok S_OK, events := [HostEvent.OnTradingConnection connected],
        calls := subscribed.2 }
    | none => { result := .ok S_OK, events := [], calls := subscribed.2 }

/-- `STDMETHOD(OnDataConnectionStatusChanged)(eConnectionStatus newStatus)`. -/
def OnDataConnectionStatusChanged (self : CQGCELWrapper) (newStatus : eConnectionStatus) :
    HandlerOutcome :=
  match self.m_events with
  | some _ =>
    { result := .ok S_OK,
      events :=
        [HostEvent.OnMarketDataConnection (decide (newStatus = eConnectionStatus.csConnectionUp))],
      calls := [] }
  | none => { result := .ok S_OK, events := [], calls := [] }

/-- The branch of `OnAccountChanged` for the change types account-changed, position-added
and position-changed. -/
def OnAccountChanged.incremental (env : ComEnv) (change : eAccountChangeType)
    (account : Option ICQGAccount) (position : Option ICQGPosition) : HandlerOutcome :=
  match account with
  | none => { result := .error Fault.nullDeref, events := [], calls := [] }
  | some acc =>
    let calls := [GwCall.Account_get_Summary acc.gwAccountID]
    match CheckCOMError env IFace.ICQGAccount acc.get_Summary.1 with
    | .error f => { result := .error f, events := [], calls := calls }
    | .ok _ =>
      match GetAccountInfo account acc.get_Summary.2
          (AccountInfo.uninitialized (env.stackAccountInfo 0)) with
      | .error f => { result := .error f, events := [], calls := calls }
      | .ok accountInfo =>
        if change = eAccountChangeType.actAccountChanged then
          { result := .ok S_OK, events := [HostEvent.OnAccountChanged accountInfo], calls := calls }
        else
          let positionInfo :=
            GetPositionInfo position (PositionInfo.uninitialized (env.stackPositionInfo 0))
          { result := .ok S_OK,
            events :=
              [HostEvent.OnPositionChanged accountInfo positionInfo
                (decide (change = eAccountChangeType.actPositionAdded))],
            calls := calls }

/-- `STDMETHOD(OnAccountChanged)(eAccountChangeType change, ICQGAccount* account,
ICQGPosition* position)`. -/
def OnAccountChanged (env : ComEnv) (self : CQGCELWrapper) (change : eAccountChangeType)
    (account : Option ICQGAccount) (position : Option ICQGPosition) : HandlerOutcome :=
  match self.m_events with
  | none => { result := .ok S_OK, events := [], calls := [] }
  | some _ =>
    if change = eAccountChangeType.actAccountsReloaded then
      { result := .ok S_OK, events := [HostEvent.OnAccountsReloaded], calls := [] }
    else if change = eAccountChangeType.actPositionsReloaded then
      { result := .ok S_OK, events := [HostEvent.OnPositionsReloaded], calls := [] }
    else if change = eAccountChangeType.actAccountChanged ∨
        change = eAccountChangeType.actPositionAdded ∨
        change = eAccountChangeType.actPositionChanged then
      OnAccountChanged.incremental env change account position
    else { result := .ok S_OK, events := [], calls := [] }

/-- The fills loop of `OnOrderChanged`: one `FillInfo` per leg index below `legCount`. -/
def OnOrderChanged.fills (fill : ICQGFill) (legCount : Int) : Fills :=
  (List.range legCount.toNat).map fun (i : Nat) =>
    { canceled :=
        decide (fill.status = eFillStatus.fsCanceled) || decide (fill.status = eFillStatus.fsBusted)
      symbol := fill.instrumentName (i : Int)
      fillPrice := fill.price (i : Int)
      fillQty := fill.quantity (i : Int) }

/-- The content of an `error` member after the block
`if(checkValid(cqgerr)) { cqgerr->get_Description(&errorDesc); x.error = errorDesc; }`,
the member being empty before it. -/
def describedError (cqgerr : Option ICQGError) : String :=
  match cqgerr with
  | some e => if (checkValid (some e.isValid)).1 then e.description else ""
  | none => ""

/-- `STDMETHOD(OnOrderChanged)(change, order, oldProperties, fill, cqgerr)`; the
parameters `change` and `oldProperties` are not used by the handler. -/
def OnOrderChanged (env : ComEnv) (self : CQGCELWrapper) (order : Option ICQGOrder)
    (fill : Option ICQGFill) (cqgerr : Option ICQGError) : HandlerOutcome :=
  match self.m_events with
  | none => { result := .ok S_OK, events := [], calls := [] }
  | some _ =>
    match order with
    | none => { result := .error Fault.nullDeref, events := [], calls := [] }
    | some order =>
    match order.account with
    | none => { result := .error Fault.nullDeref, events := [], calls := [] }
    | some gwAccountID =>
    let validFill := checkValid (fill.map (·.isValid))
    -- the block `if(checkValid(fill)) { ... }`: the fills stored, or `none` when
    -- `orderInfo.orderFills.reserve(legCount)` throws for a negative `legCount`
    let orderFills : Option Fills :=
      match fill with
      | some fill =>
        if validFill.1 then
          if fill.legCount < 0 then none else some (OnOrderChanged.fills fill fill.legCount)
        else some []
      | none => some []
    match orderFills with
    | none =>
      { result := .error (Fault.length_error env.vectorTooLong), events := [], calls := validFill.2 }
    | some orderFills =>
    let validErr := checkValid (cqgerr.map (·.isValid))
    let orderInfo : OrderInfo :=
      { orderGuid := order.guid
        symbol := order.instrumentName
        gwAccountID := gwAccountID
        buy := decide (order.side = eOrderSide.osdBuy)
        final := decide (order.isFinal = VARIANT_TRUE)
        quantity := toUnsigned order.quantity
        filledQty := toUnsigned order.filledQuantity
        description := order.description
        gwOrderID := order.originalOrderID
        orderFills := orderFills
        error := describedError cqgerr }
    { result := .ok S_OK, events := [HostEvent.OnOrderChanged orderInfo],
      calls := validFill.2 ++ validErr.2 }

/-- The bars loop of `OnTimedBarsResolved`: `n` iterations are left, starting at index
`i`; `none` when `get_Item` stores no bar and the handler calls through the null `spBar`. -/
def OnTimedBarsResolved.loop (cqgTimedBars : ICQGTimedBars) : Nat → Int → BarInfos → Option BarInfos
  | 0, _, bars => some bars
  | n + 1, i, bars =>
    match cqgTimedBars.get_Item i with
    | none => none
    | some spBar =>
      let bar : BarInfo :=
        { timestamp := { m_dt := spBar.timestamp }
          «open» := spBar.«open»
          high := spBar.high
          low := spBar.low
          close := spBar.close }
      OnTimedBarsResolved.loop cqgTimedBars n (i + 1) (bars ++ [bar])

/-- The content of `bars.error` when `OnTimedBarsResolved` delivers: the description
of a valid error object, replaced by the fixed text when it is empty and the request
status is not `rsSuccess`. -/
def OnTimedBarsResolved.error (cqgerr : Option ICQGError) (status : eRequestStatus) : String :=
  if describedError cqgerr = "" ∧ status ≠ eRequestStatus.rsSuccess then
    "Bars request failed, cancelled or pending."
  else describedError cqgerr

/-- `STDMETHOD(OnTimedBarsResolved)(ICQGTimedBars* cqgTimedBars, ICQGError* cqgerr)`. -/
def OnTimedBarsResolved (env : ComEnv) (self : CQGCELWrapper)
    (cqgTimedBars : Option ICQGTimedBars) (cqgerr : Option ICQGError) : HandlerOutcome :=
  match self.m_events with
  | none => { result := .ok S_OK, events := [], calls := [] }
  | some _ =>
    match cqgTimedBars with
    | none => { result := .error Fault.nullDeref, events := [], calls := [] }
    | some cqgTimedBars =>
    let validErr := checkValid (cqgerr.map (·.isValid))
    let calls := validErr.2
    -- `bars.bars.reserve(barCount)` throws for a negative `barCount`
    if cqgTimedBars.count < 0 then
      { result := .error (Fault.length_error env.vectorTooLong), events := [], calls := calls }
    else
    match OnTimedBarsResolved.loop cqgTimedBars cqgTimedBars.count.toNat 0 [] with
    | none => { result := .error Fault.nullDeref, events := [], calls := calls }
    | some barInfos =>
      -- the local `Bars bars;`: nothing is ever stored in `requestedCount`
      let bars : Bars :=
        { requestGuid := cqgTimedBars.id
          error := OnTimedBarsResolved.error cqgerr cqgTimedBars.status
          requestedCount := env.stackRequestedCount
          bars := barInfos }
      { result := .ok S_OK, events := [HostEvent.OnBarsReceived bars], calls := calls }

/-- `STDMETHOD(OnInstrumentSubscribed)(BSTR symbol, ICQGInstrument* instrument)`. -/
def OnInstrumentSubscribed (env : ComEnv) (self : CQGCELWrapper) (symbol : String)
    (instrument : Option ICQGInstrument) : HandlerOutcome :=
  match self.m_events with
  | none => { result := .ok S_OK, events := [], calls := [] }
  | some _ =>
    match instrument with
    | none => { result := .error Fault.nullDeref, events := [], calls := [] }
    | some instrument =>
    match CheckCOMError env IFace.ICQGInstrument instrument.get_FullNameHr with
    | .error f => { result := .error f, events := [], calls := [] }
    | .ok _ =>
    let symInfo : SymbolInfo := { fullName := instrument.fullName }
    match CheckCOMError env IFace.ICQGInstrument instrument.get_Quotes.1 with
    | .error f => { result := .error f, events := [], calls := [] }
    | .ok _ =>
    match GetAllQuotes env instrument.get_Quotes.2 symInfo with
    | .error f => { result := .error f, events := [], calls := [] }
    | .ok symInfo =>
      { result := .ok S_OK, events := [HostEvent.OnSymbolSubscribed symbol symInfo], calls := [] }

/-- `STDMETHOD(OnInstrumentChanged)(ICQGInstrument* instrument, ICQGQuotes* quotes,
ICQGInstrumentProperties* props)`; the parameter `props` is not used by the handler. -/
def OnInstrumentChanged (env : ComEnv) (self : CQGCELWrapper)
    (instrument : Option ICQGInstrument) (quotes : Option ICQGQuotes) : HandlerOutcome :=
  match self.m_events with
  | none => { result := .ok S_OK, events := [], calls := [] }
  | some _ =>
    match instrument with
    | none => { result := .error Fault.nullDeref, events := [], calls := [] }
    | some instrument =>
    match CheckCOMError env IFace.ICQGInstrument instrument.get_FullNameHr with
    | .error f => { result := .error f, events := [], calls := [] }
    | .ok _ =>
    let symInfo : SymbolInfo := { fullName := instrument.fullName }
    match GetAllQuotes env quotes symInfo with
    | .error f => { result := .error f, events := [], calls := [] }
    | .ok symInfo =>
      { result := .ok S_OK, events := [HostEvent.OnSymbolQuote symInfo], calls := [] }

end CQGCELWrapper

/-! ## `IAPIFacadeImpl` -/

namespace IAPIFacadeImpl

/-- `virtual bool IsValid()`: `m_api.get() != NULL`. -/
def IsValid (self : IAPIFacadeImpl) : Bool := self.m_api.isSome

/-- `virtual CString GetLastError()`. -/
def GetLastError (self : IAPIFacadeImpl) : String := self.m_lastError

/-- The exit of `CHECK_CEL_INIT(res)` taken when `IsValid()` is false. -/
def notInitialized {α : Type} (self : IAPIFacadeImpl) (res : α) : Outcome α :=
  { result := .ok res, facade := { self with m_lastError := "CQGCVEL not initialized" }, calls := [] }

/-- Macro `RETURN_CEL_OBJ_RESULT(obj, hr, res)`. -/
def RETURN_CEL_OBJ_RESULT {α : Type} (env : ComEnv) (self : IAPIFacadeImpl)
    (calls : List GwCall) (obj : IFace) (hr : HRESULT) (res : α) : Outcome α :=
  match GetCOMError env obj hr with
  | .error f => { result := .error f, facade := self, calls := calls }
  | .ok msg => { result := .ok res, facade := { self with m_lastError := msg }, calls := calls }

/-- A call through a null interface pointer inside an operation. -/
def crash {α : Type} (self : IAPIFacadeImpl) (calls : List GwCall) : Outcome α :=
  { result := .error Fault.nullDeref, facade := self, calls := calls }

/-- The statement `v.reserve(count)` for a negative `long count`: converted to the
unsigned size type it exceeds `max_size()` and `reserve` throws.  (For a count that is
not negative `reserve` changes nothing that can be observed.) -/
def reserveNegative {α : Type} (env : ComEnv) (self : IAPIFacadeImpl) (calls : List GwCall) :
    Outcome α :=
  { result := .error (Fault.length_error env.vectorTooLong), facade := self, calls := calls }

/-- `virtual bool Initialize(IAPIEvents* events)`. -/
def Initialize (env : ComEnv) (coCreate : HRESULT × Option ICQGCEL) (self : IAPIFacadeImpl)
    (events : IAPIEventsPtr) : Outcome Bool :=
  let self := { self with m_lastError := "" }
  if self.m_api.isSome then
    { result := .ok false, facade := { self with m_lastError := "CQGCEL already initialized" },
      calls := [] }
  else
    match CQGCELWrapper.new env coCreate events with
    | (.ok api, calls) => { result := .ok true, facade := { self with m_api := some api }, calls := calls }
    | (.error (Fault.runtime_error what), calls) =>
      { result := .ok false,
        facade := { self with m_lastError := "Unable to initialize CQGCEL: " ++ what },
        calls := calls }
    | (.error (Fault.length_error what), calls) =>
      { result := .ok false,
        facade := { self with m_lastError := "Unable to initialize CQGCEL: " ++ what },
        calls := calls }
    | (.error Fault.unknownException, calls) =>
      { result := .ok false,
        facade := { self with m_lastError := "Unable to initialize CQGCEL: Unknown exception" },
        calls := calls }
    | (.error Fault.nullDeref, calls) => crash self calls

/-- Macro `RETURN_CEL_RESULT(hr)`. -/
def RETURN_CEL_RESULT (env : ComEnv) (self : IAPIFacadeImpl) (calls : List GwCall)
    (hr : HRESULT) : Outcome Bool :=
  match GetCOMError env IFace.ICQGCEL hr with
  | .error f => { result := .error f, facade := self, calls := calls }
  | .ok msg =>
    { result := .ok (decide (msg = "")), facade := { self with m_lastError := msg }, calls := calls }

/-- `virtual bool RequestSymbol(const CString& symbol)`. -/
def RequestSymbol (env : ComEnv) (self : IAPIFacadeImpl) (symbol : String) : Outcome Bool :=
  let self := { self with m_lastError := "" }
  match self.m_api with
  | none => notInitialized self false
  | some api =>
    RETURN_CEL_RESULT env self [GwCall.NewInstrument symbol] (api.m_spCQGCEL.NewInstrument symbol)

/-- `virtual CString RequestBars(const BarsRequest& barsRequest)`. -/
def RequestBars (env : ComEnv) (self : IAPIFacadeImpl) (barsRequest : BarsRequest) :
    Outcome String :=
  let self := { self with m_lastError := "" }
  match self.m_api with
  | none => notInitialized self ""
  | some api =>
    let cel := api.m_spCQGCEL
    let c := cel.CreateTimedBarsRequest
    let calls := [GwCall.CreateTimedBarsRequest]
    if c.1 ≠ S_OK then RETURN_CEL_OBJ_RESULT env self calls IFace.ICQGCEL c.1 ""
    else
    match c.2 with
    | none => crash self calls
    | some spRequest =>
    let symbol := barsRequest.symbol
    let calls := calls ++ [GwCall.Request_put_Symbol symbol]
    if spRequest.put_Symbol symbol ≠ S_OK then
      RETURN_CEL_OBJ_RESULT env self calls IFace.ICQGTimedBarsRequest (spRequest.put_Symbol symbol) ""
    else
    let rangeStart := VARIANT.date barsRequest.rangeStart.m_dt
    let calls := calls ++ [GwCall.Request_put_RangeStart rangeStart]
    if spRequest.put_RangeStart rangeStart ≠ S_OK then
      RETURN_CEL_OBJ_RESULT env self calls IFace.ICQGTimedBarsRequest
        (spRequest.put_RangeStart rangeStart) ""
    else
    let rangeEnd := VARIANT.date barsRequest.rangeEnd.m_dt
    let calls := calls ++ [GwCall.Request_put_RangeEnd rangeEnd]
    if spRequest.put_RangeEnd rangeEnd ≠ S_OK then
      RETURN_CEL_OBJ_RESULT env self calls IFace.ICQGTimedBarsRequest
        (spRequest.put_RangeEnd rangeEnd) ""
    else
    let period := barsRequest.intradayPeriodInMinutes
    let calls := calls ++ [GwCall.Request_put_IntradayPeriod period]
    if spRequest.put_IntradayPeriod period ≠ S_OK then
      RETURN_CEL_OBJ_RESULT env self calls IFace.ICQGTimedBarsRequest
        (spRequest.put_IntradayPeriod period) ""
    else
    let request : SubmittedBarsRequest :=
      { symbol := symbol, rangeStart := rangeStart, rangeEnd := rangeEnd, intradayPeriod := period }
    let t := cel.RequestTimedBars request
    let calls := calls ++ [GwCall.RequestTimedBars request]
    if t.1 ≠ S_OK then RETURN_CEL_OBJ_RESULT env self calls IFace.ICQGCEL t.1 ""
    else
    match t.2 with
    | none => crash self calls
    | some spTimedBars => { result := .ok spTimedBars.id, facade := self, calls := calls }

/-- `virtual bool LogonToGateway(const CString& user, const CString& password)`. -/
def LogonToGateway (env : ComEnv) (self : IAPIFacadeImpl) (user password : String) :
    Outcome Bool :=
  let self := { self with m_lastError := "" }
  match self.m_api with
  | none => notInitialized self false
  | some api =>
    RETURN_CEL_RESULT env self [GwCall.GWLogon user password]
      (api.m_spCQGCEL.GWLogon user password)

/-- The local `invalidTime` of `GetLineTime`: `COleDateTime invalidTime;
invalidTime.SetStatus(COleDateTime::invalid);`. -/
def GetLineTime.invalidTime : COleDateTime := { m_status := DateTimeStatus.invalid }

/-- `virtual COleDateTime GetLineTime()`.  The function does not begin with
`CHECK_CEL_INIT`: its first statement after the two for `invalidTime` calls through
`m_api`. -/
def GetLineTime (env : ComEnv) (self : IAPIFacadeImpl) : Outcome COleDateTime :=
  let invalidTime := GetLineTime.invalidTime
  match self.m_api with
  | none => crash self []
  | some api =>
    let e := api.m_spCQGCEL.get_Environment
    let calls := [GwCall.get_Environment]
    if e.1 ≠ S_OK then RETURN_CEL_OBJ_RESULT env self calls IFace.ICQGCEL e.1 invalidTime
    else
    match e.2 with
    | none => crash self calls
    | some spEnvironment =>
    let t := spEnvironment.get_LineTime
    let calls := calls ++ [GwCall.Environment_get_LineTime]
    if t.1 ≠ S_OK then RETURN_CEL_OBJ_RESULT env self calls IFace.ICQGEnvironment t.1 invalidTime
    else if t.2 = 0.0 then { result := .ok invalidTime, facade := self, calls := calls }
    else { result := .ok (COleDateTime.ofDATE t.2), facade := self, calls := calls }

/-- The loop of `GetAccounts`: `n` iterations are left, starting at index `i`. -/
def GetAccounts.loop (env : ComEnv) (self : IAPIFacadeImpl) (spAccounts : ICQGAccounts) :
    Nat → Int → Accounts → List GwCall → Outcome (Bool × Accounts)
  | 0, _, accounts, calls => { result := .ok (true, accounts), facade := self, calls := calls }
  | n + 1, i, accounts, calls =>
    let r := spAccounts.get_ItemByIndex i
    let calls := calls ++ [GwCall.Accounts_get_ItemByIndex i]
    if r.1 ≠ S_OK then RETURN_CEL_OBJ_RESULT env self calls IFace.ICQGAccounts r.1 (false, accounts)
    else
      let spAcc := r.2
      -- `if(spAcc) { hr = spAcc->get_Summary(&spAccSum); CHECK... }`: without an
      -- account no call is made, `hr` keeps its value and `spAccSum` stays null
      let s : HRESULT × Option ICQGAccountSummary :=
        match spAcc with
        | some acc => acc.get_Summary
        | none => (r.1, none)
      let calls :=
        match spAcc with
        | some acc => calls ++ [GwCall.Account_get_Summary acc.gwAccountID]
        | none => calls
      if s.1 ≠ S_OK then RETURN_CEL_OBJ_RESULT env self calls IFace.ICQGAccount s.1 (false, accounts)
      else
        match GetAccountInfo spAcc s.2 (AccountInfo.uninitialized (env.stackAccountInfo i)) with
        | .error f => { result := .error f, facade := self, calls := calls }
        | .ok account => GetAccounts.loop env self spAccounts n (i + 1) (accounts ++ [account]) calls

/-- `virtual bool GetAccounts(Accounts& accounts)`: the return value and the
content of `accounts` afterwards. -/
def GetAccounts (env : ComEnv) (self : IAPIFacadeImpl) (accounts : Accounts) :
    Outcome (Bool × Accounts) :=
  let accounts := clear accounts
  let self := { self with m_lastError := "" }
  match self.m_api with
  | none => notInitialized self (false, accounts)
  | some api =>
    let r := api.m_spCQGCEL.get_Accounts
    let calls := [GwCall.get_Accounts]
    if r.1 ≠ S_OK then RETURN_CEL_OBJ_RESULT env self calls IFace.ICQGCEL r.1 (false, accounts)
    else
      match r.2 with
      | none => crash self calls
      | some spAccounts =>
        let c := spAccounts.get_Count
        let calls := calls ++ [GwCall.Accounts_get_Count]
        if c.1 ≠ S_OK then RETURN_CEL_OBJ_RESULT env self calls IFace.ICQGAccounts c.1 (false, accounts)
        else if c.2 < 0 then reserveNegative env self calls
        else GetAccounts.loop env self spAccounts c.2.toNat 0 accounts calls

/-- `ICQGAccountPtr getAccount(const ID& gwAccountID)`. -/
def getAccount (env : ComEnv) (self : IAPIFacadeImpl) (api : CQGCELWrapper) (gwAccountID : ID) :
    Outcome (Option ICQGAccount) :=
  let r := api.m_spCQGCEL.get_Accounts
  let calls := [GwCall.get_Accounts]
  if r.1 ≠ S_OK then RETURN_CEL_OBJ_RESULT env self calls IFace.ICQGCEL r.1 none
  else
    match r.2 with
    | none => crash self calls
    | some spAccounts =>
      let a := spAccounts.get_Item gwAccountID
      let calls := calls ++ [GwCall.Accounts_get_Item gwAccountID]
      if a.1 ≠ S_OK then RETURN_CEL_OBJ_RESULT env self calls IFace.ICQGAccounts a.1 a.2
      else { result := .ok a.2, facade := self, calls := calls }

/-- The loop of `GetPositions`: `n` iterations are left, starting at index `i`. -/
def GetPositions.loop (env : ComEnv) (self : IAPIFacadeImpl) (spPositions : ICQGPositions) :
    Nat → Int → Positions → List GwCall → Outcome (Bool × Positions)
  | 0, _, positions, calls => { result := .ok (true, positions), facade := self, calls := calls }
  | n + 1, i, positions, calls =>
    let r := spPositions.get_ItemByIndex i
    let calls := calls ++ [GwCall.Positions_get_ItemByIndex i]
    if r.1 ≠ S_OK then RETURN_CEL_OBJ_RESULT env self calls IFace.ICQGPositions r.1 (false, positions)
    else
      let position := GetPositionInfo r.2 (PositionInfo.uninitialized (env.stackPositionInfo i))
      GetPositions.loop env self spPositions n (i + 1) (positions ++ [position]) calls

/-- `virtual bool GetPositions(const ID& gwAccountID, Positions& positions)`: the
return value and the content of `positions` afterwards. -/
def GetPositions (env : ComEnv) (self : IAPIFacadeImpl) (gwAccountID : ID) (positions : Positions) :
    Outcome (Bool × Positions) :=
  let positions := clear positions
  let self := { self with m_lastError := "" }
  match self.m_api with
  | none => notInitialized self (false, positions)
  | some api =>
    let g := getAccount env self api gwAccountID
    match g.result with
    | .error f => { result := .error f, facade := g.facade, calls := g.calls }
    | .ok none => { result := .ok (false, positions), facade := g.facade, calls := g.calls }
    | .ok (some spAccount) =>
      let self := g.facade
      let r := spAccount.get_Positions
      let calls := g.calls ++ [GwCall.Account_get_Positions spAccount.gwAccountID]
      if r.1 ≠ S_OK then RETURN_CEL_OBJ_RESULT env self calls IFace.ICQGAccount r.1 (false, positions)
      else
        match r.2 with
        | none => crash self calls
        | some spPositions =>
          let c := spPositions.get_Count
          let calls := calls ++ [GwCall.Positions_get_Count]
          if c.1 ≠ S_OK then
            RETURN_CEL_OBJ_RESULT env self calls IFace.ICQGPositions c.1 (false, positions)
          else if c.2 < 0 then reserveNegative env self calls
          else GetPositions.loop env self spPositions c.2.toNat 0 positions calls

/-- The last statement of both counting operations, `return GetWorkingOrders(spOrders);`. -/
def returnWorkingOrders (env : ComEnv) (self : IAPIFacadeImpl) (calls : List GwCall)
    (spOrders : Option ICQGOrders) : Outcome Nat :=
  { result := GetWorkingOrders env spOrders, facade := self, calls := calls }

/-- `virtual int GetAllWorkingOrdersCount(const ID& gwAccountID)`. -/
def GetAllWorkingOrdersCount (env : ComEnv) (self : IAPIFacadeImpl) (gwAccountID : ID := 0) :
    Outcome Nat :=
  let self := { self with m_lastError := "" }
  match self.m_api with
  | none => notInitialized self 0
  | some api =>
    if gwAccountID = 0 then
      let r := api.m_spCQGCEL.get_Orders
      let calls := [GwCall.get_Orders]
      if r.1 ≠ S_OK then RETURN_CEL_OBJ_RESULT env self calls IFace.ICQGCEL r.1 0
      else returnWorkingOrders env self calls r.2
    else
      let g := getAccount env self api gwAccountID
      match g.result with
      | .error f => { result := .error f, facade := g.facade, calls := g.calls }
      | .ok none => { result := .ok 0, facade := g.facade, calls := g.calls }
      | .ok (some spAccount) =>
        let r := spAccount.get_Orders
        let calls := g.calls ++ [GwCall.Account_get_Orders spAccount.gwAccountID]
        if r.1 ≠ S_OK then RETURN_CEL_OBJ_RESULT env g.facade calls IFace.ICQGAccount r.1 0
        else returnWorkingOrders env g.facade calls r.2

/-- `virtual int GetInternalWorkingOrdersCount(const ID& gwAccountID)`. -/
def GetInternalWorkingOrdersCount (env : ComEnv) (self : IAPIFacadeImpl) (gwAccountID : ID := 0) :
    Outcome Nat :=
  let self := { self with m_lastError := "" }
  match self.m_api with
  | none => notInitialized self 0
  | some api =>
    if gwAccountID = 0 then
      let r := api.m_spCQGCEL.get_InternalOrders
      let calls := [GwCall.get_InternalOrders]
      if r.1 ≠ S_OK then RETURN_CEL_OBJ_RESULT env self calls IFace.ICQGCEL r.1 0
      else returnWorkingOrders env self calls r.2
    else
      let g := getAccount env self api gwAccountID
      match g.result with
      | .error f => { result := .error f, facade := g.facade, calls := g.calls }
      | .ok none => { result := .ok 0, facade := g.facade, calls := g.calls }
      | .ok (some spAccount) =>
        let r := spAccount.get_InternalOrders
        let calls := g.calls ++ [GwCall.Account_get_InternalOrders spAccount.gwAccountID]
        if r.1 ≠ S_OK then RETURN_CEL_OBJ_RESULT env g.facade calls IFace.ICQGAccount r.1 0
        else returnWorkingOrders env g.facade calls r.2

/-- Local `ordType` of `PlaceOrder`. -/
def PlaceOrder.ordType (type : OrderType) : eOrderType :=
  if type = OrderType.Limit then eOrderType.otLimit
  else if type = OrderType.Stop then eOrderType.otStop
  else if type = OrderType.StopLimit then eOrderType.otStopLimit
  else eOrderType.otMarket

/-- Local `limitPrice` of `PlaceOrder`. -/
def PlaceOrder.limitPrice (type : OrderType) (price stopLimitPrice : OrderPrice) : OrderPrice :=
  if type = OrderType.Limit then price
  else if type = OrderType.StopLimit then stopLimitPrice
  else OrderPrice.default

/-- Local `stopPrice` of `PlaceOrder`. -/
def PlaceOrder.stopPrice (type : OrderType) (price : OrderPrice) : OrderPrice :=
  if type = OrderType.Stop ∨ type = OrderType.StopLimit then price else OrderPrice.default

/-- The argument expression `p.initialized() ? p.price() : 0.0` of the `CreateOrder` call. -/
def PlaceOrder.priceArg (p : OrderPrice) : Price :=
  if p.initialized then p.price else 0.0

/-- `virtual CString PlaceOrder(type, gwAccountID, symbolFullName, buy, quantity,
description, price, stopLimitPrice)`. -/
def PlaceOrder (env : ComEnv) (self : IAPIFacadeImpl) (type : OrderType) (gwAccountID : ID)
    (symbolFullName : String) (buy : Bool) (quantity : Quantity) (description : String)
    (price : OrderPrice := OrderPrice.default) (stopLimitPrice : OrderPrice := OrderPrice.default) :
    Outcome String :=
  let self := { self with m_lastError := "" }
  match self.m_api with
  | none => notInitialized self ""
  | some api =>
    let cel := api.m_spCQGCEL
    let a := cel.get_Accounts
    let calls := [GwCall.get_Accounts]
    if a.1 ≠ S_OK then RETURN_CEL_OBJ_RESULT env self calls IFace.ICQGCEL a.1 ""
    else
    match a.2 with
    | none => crash self calls
    | some spAccounts =>
    let acc := spAccounts.get_Item gwAccountID
    let calls := calls ++ [GwCall.Accounts_get_Item gwAccountID]
    if acc.1 ≠ S_OK then RETURN_CEL_OBJ_RESULT env self calls IFace.ICQGAccounts acc.1 ""
    else
    let spAccount := acc.2
    let ins := cel.get_Instruments
    let calls := calls ++ [GwCall.get_Instruments]
    if ins.1 ≠ S_OK then RETURN_CEL_OBJ_RESULT env self calls IFace.ICQGCEL ins.1 ""
    else
    match ins.2 with
    | none => crash self calls
    | some spInstruments =>
    -- `spInstruments->get_Item(..., &spInstrument);` its result code is not stored in `hr`
    let spInstrument := (spInstruments.get_Item symbolFullName).2
    let calls := calls ++ [GwCall.Instruments_get_Item symbolFullName]
    -- `CHECK_CEL_OBJ_RESULT(spInstruments, hr, ...)`: `hr` still holds the code of `get_Instruments`
    if ins.1 ≠ S_OK then RETURN_CEL_OBJ_RESULT env self calls IFace.ICQGInstruments ins.1 ""
    else
    let ordType := PlaceOrder.ordType type
    let limitPrice := PlaceOrder.limitPrice type price stopLimitPrice
    let stopPrice := PlaceOrder.stopPrice type price
    let side := if buy then eOrderSide.osdBuy else eOrderSide.osdSell
    let o := cel.CreateOrder ordType spInstrument spAccount quantity side
      (PlaceOrder.priceArg limitPrice) (PlaceOrder.priceArg stopPrice)
    let calls := calls ++ [GwCall.CreateOrder ordType (spInstrument.map (·.fullName))
      (spAccount.map (·.gwAccountID)) quantity side
      (PlaceOrder.priceArg limitPrice) (PlaceOrder.priceArg stopPrice)]
    if o.1 ≠ S_OK then RETURN_CEL_OBJ_RESULT env self calls IFace.ICQGCEL o.1 ""
    else
    match o.2 with
    | none => crash self calls
    | some spOrder =>
    let calls := calls ++ [GwCall.Order_put_Description spOrder.guid description]
    if spOrder.put_DescriptionHr ≠ S_OK then
      RETURN_CEL_OBJ_RESULT env self calls IFace.ICQGOrder spOrder.put_DescriptionHr ""
    else
    let calls := calls ++ [GwCall.Order_Place spOrder.guid]
    if spOrder.placeHr ≠ S_OK then
      RETURN_CEL_OBJ_RESULT env self calls IFace.ICQGOrder spOrder.placeHr ""
    else { result := .ok spOrder.guid, facade := self, calls := calls }

/-- `virtual bool CancelOrder(const CString& orderGuid)`. -/
def CancelOrder (env : ComEnv) (self : IAPIFacadeImpl) (orderGuid : String) : Outcome Bool :=
  let self := { self with m_lastError := "" }
  match self.m_api with
  | none => notInitialized self false
  | some api =>
    let r := api.m_spCQGCEL.get_Orders
    let calls := [GwCall.get_Orders]
    if r.1 ≠ S_OK then RETURN_CEL_OBJ_RESULT env self calls IFace.ICQGCEL r.1 false
    else
    match r.2 with
    | none => crash self calls
    | some spOrders =>
    let o := spOrders.get_ItemByGuid orderGuid
    let calls := calls ++ [GwCall.Orders_get_ItemByGuid orderGuid]
    if o.1 = S_FALSE then
      { result := .ok false, facade := { self with m_lastError := "Order with given guid not found." },
        calls := calls }
    else
    if o.1 ≠ S_OK then RETURN_CEL_OBJ_RESULT env self calls IFace.ICQGOrders o.1 false
    else
    match o.2 with
    | none =>
      { result := .ok false, facade := { self with m_lastError := "CQGOrder object is NULL." },
        calls := calls }
    | some spOrder =>
    if spOrder.canBeCanceled = VARIANT_FALSE then
      { result := .ok false, facade := { self with m_lastError := "Order cannot be cancelled." },
        calls := calls }
    else
    let calls := calls ++ [GwCall.Order_Cancel spOrder.guid]
    if spOrder.cancelHr ≠ S_OK then
      RETURN_CEL_OBJ_RESULT env self calls IFace.ICQGOrder spOrder.cancelHr false
    else { result := .ok true, facade := self, calls := calls }

/-- The block `if(gwAccountID) { ... }` of `CancelAllOrders`: the early exit taken, or
the content of `spAccount` and the calls made. -/
def CancelAllOrders.accountBlock (env : ComEnv) (self : IAPIFacadeImpl) (cel : ICQGCEL)
    (gwAccountID : ID) : Except (Outcome Bool) (Option ICQGAccount × List GwCall) :=
  if gwAccountID ≠ 0 then
    let a := cel.get_Accounts
    if a.1 ≠ S_OK then
      .error (RETURN_CEL_OBJ_RESULT env self [GwCall.get_Accounts] IFace.ICQGCEL a.1 false)
    else
      match a.2 with
      | none => .error (crash self [GwCall.get_Accounts])
      | some spAccounts =>
        let acc := spAccounts.get_Item gwAccountID
        let calls := [GwCall.get_Accounts, GwCall.Accounts_get_Item gwAccountID]
        if acc.1 ≠ S_OK then
          .error (RETURN_CEL_OBJ_RESULT env self calls IFace.ICQGAccounts acc.1 false)
        else .ok (acc.2, calls)
  else .ok (none, [])

/-- The block `if(!symbolFullName.IsEmpty()) { ... }` of `CancelAllOrders`, entered after
the calls `calls`: the early exit taken, or the content of `spInstrument` and the calls
made so far. -/
def CancelAllOrders.instrumentBlock (env : ComEnv) (self : IAPIFacadeImpl) (cel : ICQGCEL)
    (symbolFullName : String) (calls : List GwCall) :
    Except (Outcome Bool) (Option ICQGInstrument × List GwCall) :=
  if symbolFullName ≠ "" then
    let ins := cel.get_Instruments
    let calls := calls ++ [GwCall.get_Instruments]
    if ins.1 ≠ S_OK then .error (RETURN_CEL_OBJ_RESULT env self calls IFace.ICQGCEL ins.1 false)
    else
      match ins.2 with
      | none => .error (crash self calls)
      | some spInstruments =>
        -- `spInstruments->get_Item(..., &spInstrument);` its result code is not stored in `hr`
        let spInstrument := (spInstruments.get_Item symbolFullName).2
        let calls := calls ++ [GwCall.Instruments_get_Item symbolFullName]
        -- `CHECK_CEL_OBJ_RESULT(spInstruments, hr, false)`: `hr` still holds the code of
        -- `get_Instruments`
        if ins.1 ≠ S_OK then
          .error (RETURN_CEL_OBJ_RESULT env self calls IFace.ICQGInstruments ins.1 false)
        else .ok (spInstrument, calls)
  else .ok (none, calls)

/-- `virtual bool CancelAllOrders(const ID& gwAccountID, const CString& symbolFullName)`. -/
def CancelAllOrders (env : ComEnv) (self : IAPIFacadeImpl) (gwAccountID : ID := 0)
    (symbolFullName : String := "") : Outcome Bool :=
  let self := { self with m_lastError := "" }
  match self.m_api with
  | none => notInitialized self false
  | some api =>
    let cel := api.m_spCQGCEL
    match CancelAllOrders.accountBlock env self cel gwAccountID with
    | .error out => out
    | .ok (spAccount, calls) =>
    match CancelAllOrders.instrumentBlock env self cel symbolFullName calls with
    | .error out => out
    | .ok (spInstrument, calls) =>
    let hr := cel.CancelAllOrders spAccount spInstrument
    let calls := calls ++ [GwCall.CancelAllOrders (spAccount.map (·.gwAccountID))
      (spInstrument.map (·.fullName))]
    if hr ≠ S_OK then RETURN_CEL_OBJ_RESULT env self calls IFace.ICQGCEL hr false
    else { result := .ok true, facade := self, calls := calls }

end IAPIFacadeImpl

/-! ## Observations on traces and the specification's price table -/

/-- The limit price and the stop price of every order creation in a trace, in order. -/
def createOrderPrices (calls : List GwCall) : List (Price × Price) :=
  calls.filterMap fun c =>
    match c with
    | GwCall.CreateOrder _ _ _ _ _ limitPrice stopPrice => some (limitPrice, stopPrice)
    | _ => none

/-- Whether a call submits a cancel request for one order. -/
def GwCall.isCancel : GwCall → Bool
  | GwCall.Order_Cancel _ => true
  | _ => false

/-- Price-role table as the specification words it (section 4.4): for each order type
the limit price used and the stop price used, `none` where the table says none. -/
def Spec.priceRoles (type : OrderType) (price stopLimitPrice : Price) :
    Option Price × Option Price :=
  match type with
  | OrderType.Market => (none, none)
  | OrderType.Limit => (some price, none)
  | OrderType.Stop => (none, some price)
  | OrderType.StopLimit => (some stopLimitPrice, some price)

/-! ## A sample gateway for the concrete scenarios -/

def sampleOrder : ICQGOrder := { guid := "order-guid-1" }

def sampleAccount : ICQGAccount := { gwAccountID := 1, gwAccountName := "acc" }

def sampleInstrument : ICQGInstrument := { fullName := "X" }

def sampleAccounts : ICQGAccounts :=
  { get_Item := fun id => if id = 1 then (S_OK, some sampleAccount) else (S_FALSE, none) }

def sampleInstruments : ICQGInstruments :=
  { get_Item := fun s => if s = "X" then (S_OK, some sampleInstrument) else (E_FAIL, none) }

/-- An order that is final and cannot be cancelled any more. -/
def sampleFinalOrder : ICQGOrder :=
  { guid := "order-guid-2", isFinal := VARIANT_TRUE, canBeCanceled := VARIANT_FALSE }

/-- The entries of the sample order collection: five orders, two of them final. -/
def sampleOrderList : List ICQGOrder :=
  [sampleOrder, sampleFinalOrder, { guid := "order-guid-3" },
    { guid := "order-guid-4", isFinal := VARIANT_TRUE, canBeCanceled := VARIANT_FALSE },
    { guid := "order-guid-5" }]

/-- The live order set of the sample gateway. -/
def sampleOrders : ICQGOrders :=
  { toCollection := { newEnum := some { script := sampleOrderList.map fun o => (S_OK, some o) } }
    get_ItemByGuid := fun guid =>
      match sampleOrderList.find? fun o => o.guid == guid with
      | some o => (S_OK, some o)
      | none => (S_FALSE, none) }

/-- A resolved bar series with two bars. -/
def sampleTimedBars : ICQGTimedBars :=
  { id := "bars-1"
    count := 2
    get_Item := fun i =>
      if i = 0 then some { timestamp := 42000, «open» := 60.1, high := 60.9, low := 59.8, close := 60.5 }
      else if i = 1 then
        some { timestamp := 42001, «open» := 60.5, high := 61.2, low := 60.3, close := 61.0 }
      else none }

/-- A connector that knows account 1 and instrument "X", creates an order for
whatever instrument and account it is given, holds the five sample orders, and answers
every bars request with the sample series. -/
def sampleCEL : ICQGCEL :=
  { get_Accounts := (S_OK, some sampleAccounts)
    get_Instruments := (S_OK, some sampleInstruments)
    get_Orders := (S_OK, some sampleOrders)
    get_InternalOrders := (S_OK, some sampleOrders)
    CreateOrder := fun _ _ _ _ _ _ _ => (S_OK, some sampleOrder)
    RequestTimedBars := fun _ => (S_OK, some sampleTimedBars) }

def sampleApi : CQGCELWrapper := { m_spCQGCEL := sampleCEL, m_events := some 0 }

/-- An initialized facade on the sample connector. -/
def sampleFacade : IAPIFacadeImpl := { m_api := some sampleApi, m_lastError := "" }

/-- The request built by `CCQGAPIFacadeTestDlg::requestBars("EP", 48)`. -/
def sampleBarsRequest : BarsRequest :=
  { symbol := "EP"
    useIndexRange := true
    startDate := {}
    endDate := {}
    startIndex := 0
    endIndex := -48
    intradayPeriodInMinutes := 30
    sessionsFilter := BarsRequest.UseAllSessions }

/-! ## How a foreign collection enumerates -/

/-- The collection hands out an enumerator, the enumerator resets, and its successive
`Next` calls yield exactly `items`, each with `S_OK`, before the end of the sequence. -/
def ComCollection.enumerates {α : Type} (c : ComCollection α) (items : List α) : Prop :=
  SUCCEEDED c.newEnumHr = true ∧
    ∃ e, c.newEnum = some e ∧ SUCCEEDED e.resetHr = true ∧
      e.script = items.map fun o => (S_OK, some o)

/-- The collection hands out an enumerator, the enumerator resets, its `Next` calls
yield `items`, each with `S_OK`, and the following `Next` call answers `hr`. -/
def ComCollection.failsAfter {α : Type} (c : ComCollection α) (items : List α) (hr : HRESULT) :
    Prop :=
  SUCCEEDED c.newEnumHr = true ∧
    ∃ e, c.newEnum = some e ∧ SUCCEEDED e.resetHr = true ∧
      ∃ v tail, e.script = (items.map fun o => (S_OK, some o)) ++ (hr, v) :: tail

/-- A working order: the `final` flag read by `get_IsFinal` is `VARIANT_FALSE`. -/
def ICQGOrder.working (o : ICQGOrder) : Bool := decide (o.isFinal = VARIANT_FALSE)

/-- An order collection whose enumerator yields one working order and then fails. -/
def failingOrders : ICQGOrders :=
  { toCollection := { newEnum := some { script := [(S_OK, some sampleOrder), (E_FAIL, none)] } } }

/-- A connector whose order collections fail in mid-enumeration. -/
def failingCEL : ICQGCEL :=
  { get_Orders := (S_OK, some failingOrders)
    get_InternalOrders := (S_OK, some failingOrders) }

def failingApi : CQGCELWrapper := { m_spCQGCEL := failingCEL, m_events := some 0 }

/-- An initialized facade on the connector whose enumerations fail. -/
def failingFacade : IAPIFacadeImpl := { m_api := some failingApi, m_lastError := "" }

/-! ## Sequences of host calls -/

/-- A call of the host on the facade with its arguments; for `Initialize` also the
answer `CoCreateInstance` gives during that call. -/
inductive HostCall where
  | IsValid
  | GetLastError
  | Initialize (coCreate : HRESULT × Option ICQGCEL) (events : IAPIEventsPtr)
  | RequestSymbol (symbol : String)
  | RequestBars (barsRequest : BarsRequest)
  | LogonToGateway (user password : String)
  | GetAccounts (accounts : Accounts)
  | GetPositions (gwAccountID : ID) (positions : Positions)
  | GetAllWorkingOrdersCount (gwAccountID : ID)
  | GetInternalWorkingOrdersCount (gwAccountID : ID)
  | PlaceOrder (type : OrderType) (gwAccountID : ID) (symbolFullName : String) (buy : Bool)
      (quantity : Quantity) (description : String) (price stopLimitPrice : OrderPrice)
  | CancelOrder (orderGuid : String)
  | CancelAllOrders (gwAccountID : ID) (symbolFullName : String)

/-- The facade after one host call made in the environment `env`. -/
def HostCall.after (env : ComEnv) (self : IAPIFacadeImpl) : HostCall → IAPIFacadeImpl
  | HostCall.IsValid => self
  | HostCall.GetLastError => self
  | HostCall.Initialize coCreate events => (IAPIFacadeImpl.Initialize env coCreate self events).facade
  | HostCall.RequestSymbol symbol => (IAPIFacadeImpl.RequestSymbol env self symbol).facade
  | HostCall.RequestBars barsRequest => (IAPIFacadeImpl.RequestBars env self barsRequest).facade
  | HostCall.LogonToGateway user password =>
    (IAPIFacadeImpl.LogonToGateway env self user password).facade
  | HostCall.GetAccounts accounts => (IAPIFacadeImpl.GetAccounts env self accounts).facade
  | HostCall.GetPositions gwAccountID positions =>
    (IAPIFacadeImpl.GetPositions env self gwAccountID positions).facade
  | HostCall.GetAllWorkingOrdersCount gwAccountID =>
    (IAPIFacadeImpl.GetAllWorkingOrdersCount env self gwAccountID).facade
  | HostCall.GetInternalWorkingOrdersCount gwAccountID =>
    (IAPIFacadeImpl.GetInternalWorkingOrdersCount env self gwAccountID).facade
  | HostCall.PlaceOrder type gwAccountID symbolFullName buy quantity description price
      stopLimitPrice =>
    (IAPIFacadeImpl.PlaceOrder env self type gwAccountID symbolFullName buy quantity description
      price stopLimitPrice).facade
  | HostCall.CancelOrder orderGuid => (IAPIFacadeImpl.CancelOrder env self orderGuid).facade
  | HostCall.CancelAllOrders gwAccountID symbolFullName =>
    (IAPIFacadeImpl.CancelAllOrders env self gwAccountID symbolFullName).facade

/-- The facade after a sequence of host calls, each made in its own environment. -/
def afterCalls (self : IAPIFacadeImpl) (calls : List (ComEnv × HostCall)) : IAPIFacadeImpl :=
  calls.foldl (fun s c => c.2.after c.1 s) self

/-- Whether what escaped a function is a C++ exception (and not a call through a
null pointer). -/
def Fault.isException : Fault → Bool
  | Fault.runtime_error _ => true
  | Fault.length_error _ => true
  | Fault.unknownException => true
  | Fault.nullDeref => false

/-- Whether a host call is a call of `Initialize`. -/
def HostCall.isInitialize : HostCall → Bool
  | HostCall.Initialize _ _ => true
  | _ => false

/-- A valid error object with a non-empty description accompanies a notification:
`checkValid(cqgerr)` holds and `get_Description` gives a non-empty text. -/
def describesError (cqgerr : Option ICQGError) : Prop :=
  ∃ e, cqgerr = some e ∧ e.isValid = VARIANT_TRUE ∧ e.description ≠ ""

/-- A series that holds the two sample bars although its request is not reported
successful. -/
def partialTimedBars : ICQGTimedBars := { sampleTimedBars with status := eRequestStatus.other 2 }

/-- A valid error object whose description is empty. -/
def silentError : ICQGError := { isValid := VARIANT_TRUE, description := "" }

/-- The properties `RequestBars` has stored in the gateway request when it submits it:
the symbol, both range bounds as dates, and the intraday period. -/
def RequestBars.request (r : BarsRequest) : SubmittedBarsRequest :=
  { symbol := r.symbol
    rangeStart := VARIANT.date r.rangeStart.m_dt
    rangeEnd := VARIANT.date r.rangeEnd.m_dt
    intradayPeriod := r.intradayPeriodInMinutes }

/-! ## Sequences of order-changed notifications -/

/-- The objects the gateway passes with one order-changed notification. -/
structure OrderChange where
  order : Option ICQGOrder
  fill : Option ICQGFill := none
  cqgerr : Option ICQGError := none

/-- The callbacks delivered for a sequence of order-changed notifications, handled one
after the other; a notification whose handler does not return ends the sequence. -/
def deliverOrderChanges (env : ComEnv) (w : CQGCELWrapper) : List OrderChange → List HostEvent
  | [] => []
  | n :: ns =>
    match (w.OnOrderChanged env n.order n.fill n.cqgerr).result with
    | .ok _ => (w.OnOrderChanged env n.order n.fill n.cqgerr).events ++ deliverOrderChanges env w ns
    | .error _ => (w.OnOrderChanged env n.order n.fill n.cqgerr).events

/-- The `final` values delivered to the host for one order guid, in order of delivery. -/
def deliveredFinals (orderGuid : String) (events : List HostEvent) : List Bool :=
  events.filterMap fun e =>
    match e with
    | HostEvent.OnOrderChanged info => if info.orderGuid = orderGuid then some info.final else none
    | _ => none

/-- The final flags the gateway reports for one order guid over a sequence of
notifications (true for `VARIANT_TRUE`), in order. -/
def reportedFinals (orderGuid : String) (changes : List OrderChange) : List Bool :=
  changes.filterMap fun n =>
    match n.order with
    | some order =>
      if order.guid = orderGuid then some (decide (order.isFinal = VARIANT_TRUE)) else none
    | none => none

/-- Monotone non-decreasing with false = 0 and true = 1: no true is followed, at any
distance, by a false. -/
def neverReverts (finals : List Bool) : Prop :=
  finals.Pairwise fun earlier later => earlier = true → later = true

/-- Two notifications for one order: final first, then working again. -/
def revertingChanges : List OrderChange :=
  [{ order := some { guid := "order-guid-9", isFinal := VARIANT_TRUE } },
    { order := some { guid := "order-guid-9", isFinal := VARIANT_FALSE } }]

/-- Three notifications for one order, the last one final. -/
def settlingChanges : List OrderChange :=
  [{ order := some { guid := "order-guid-9", isFinal := VARIANT_FALSE } },
    { order := some { guid := "order-guid-9", isFinal := VARIANT_FALSE } },
    { order := some { guid := "order-guid-9", isFinal := VARIANT_TRUE } }]

/-- A fill of two legs whose batch was busted. -/
def bustedFill : ICQGFill :=
  { isValid := VARIANT_TRUE, legCount := 2, status := eFillStatus.fsBusted,
    instrumentName := fun i => if i = 0 then "F.US.EPH5" else "F.US.EPM5",
    price := fun i => if i = 0 then 1200.25 else 1201.5,
    quantity := fun i => if i = 0 then 3 else 4 }

/-! ## Quote materialization -/

/-- The collection hands out an enumerator, the enumerator resets, and its successive
`Next` calls store exactly the variants `items` (`none` for a variant without a quote
object), each with `S_OK`, before the end of the sequence. -/
def ComCollection.yields {α : Type} (c : ComCollection α) (items : List (Option α)) : Prop :=
  SUCCEEDED c.newEnumHr = true ∧
    ∃ e, c.newEnum = some e ∧ SUCCEEDED e.resetHr = true ∧
      e.script = items.map fun v => (S_OK, v)

/-- Follows the spec's words: the six recognised raw types and the type each maps to. -/
def Spec.mappedType : eQuoteType → Option QuoteInfoType
  | eQuoteType.qtAsk => some QuoteInfoType.Ask
  | eQuoteType.qtBid => some QuoteInfoType.Bid
  | eQuoteType.qtTrade => some QuoteInfoType.Trade
  | eQuoteType.qtYesterdaySettlement => some QuoteInfoType.Close
  | eQuoteType.qtDayHigh => some QuoteInfoType.High
  | eQuoteType.qtDayLow => some QuoteInfoType.Low
  | eQuoteType.other _ => none

/-- Follows the spec's words: an input quote that is reported invalid or whose raw type
is not recognised is dropped; any other is kept with its mapped type, price and volume. -/
def Spec.materialize (quote : Option ICQGQuote) : Option QuoteInfo :=
  match quote with
  | none => none
  | some q =>
    if q.isValid = VARIANT_FALSE then none
    else (Spec.mappedType q.type).map fun t => { type := t, price := q.price, volume := q.volume }

/-- Five variants of a quotes collection: an ask, an invalid bid, a quote of a raw type
the facade does not know, a variant without a quote object and yesterday's settlement. -/
def sampleQuoteList : List (Option ICQGQuote) :=
  [some { type := eQuoteType.qtAsk, price := 1200.5, volume := 7 },
    some { isValid := VARIANT_FALSE, type := eQuoteType.qtBid, price := 1200.25, volume := 9 },
    some { type := eQuoteType.other 11, price := 1199, volume := 1 },
    none,
    some { type := eQuoteType.qtYesterdaySettlement, price := 1198.75, volume := 0 }]

def sampleQuotes : ICQGQuotes :=
  { newEnum := some { script := sampleQuoteList.map fun v => (S_OK, v) } }

/-- The changed quotes of one instrument-changed notification: a single trade. -/
def changedQuoteList : List (Option ICQGQuote) :=
  [some { type := eQuoteType.qtTrade, price := 1201, volume := 2 }]

def changedQuotes : ICQGQuotes :=
  { newEnum := some { script := changedQuoteList.map fun v => (S_OK, v) } }

/-- The instrument the symbol "EP" resolves to. -/
def epInstrument : ICQGInstrument :=
  { fullName := "F.US.EPH5", get_Quotes := (S_OK, some sampleQuotes) }

/-! ## Account notifications -/

/-- Follows the spec's words: the `AccountInfo` re-derived from an account and its
summary, the account's identification and the three money fields, each the value its
query stored and 0 when the query failed. -/
def Spec.accountInfo (acc : ICQGAccount) (accSum : ICQGAccountSummary) : AccountInfo :=
  { fcmID := acc.fcmID
    fcmAccountID := acc.fcmAccountID
    gwAccountID := acc.gwAccountID
    gwAccountName := acc.gwAccountName
    currency := acc.reportingCurrency
    balance := accSum.Balance.getD 0.0
    ote := accSum.OTE.getD 0.0
    profitLoss := accSum.ProfitLoss.getD 0.0 }

/-- An account with a balance, whose OTE and profit/loss queries fail. -/
def fundedAccount : ICQGAccount :=
  { gwAccountID := 1, gwAccountName := "acc", reportingCurrency := "USD",
    get_Summary := (S_OK, some { Balance := some 2500.5 }) }

/-- A long position of three contracts. -/
def samplePosition : ICQGPosition :=
  { instrumentName := "F.US.EPH5", side := eOrderSide.osdBuy, quantity := 3,
    averagePrice := some 1200.25, ote := some 12.5 }

/-! ## Line time -/

/-- An initialized facade whose gateway holds exactly the account `acc`. -/
def oneAccountFacade (acc : ICQGAccount) : IAPIFacadeImpl :=
  { m_api := some
      { m_spCQGCEL :=
          { get_Accounts := (S_OK, some
              { get_Count := (S_OK, 1)
                get_ItemByIndex := fun _ => (S_OK, some acc)
                get_Item := fun id => if id = acc.gwAccountID then (S_OK, some acc)
                  else (S_FALSE, none) }) }
        m_events := some 0 }
    m_lastError := "" }

/-- An account for which `get_Summary` answers S_OK and stores no summary object. -/
def accountWithoutSummary : ICQGAccount :=
  { gwAccountID := 5, gwAccountName := "five", get_Summary := (S_OK, none) }

/-- An account whose `get_Summary` fails. -/
def accountSummaryFails : ICQGAccount :=
  { gwAccountID := 5, gwAccountName := "five", get_Summary := (E_FAIL, none) }

/-- An account whose summary is there and whose balance, OTE and profit/loss queries
all fail. -/
def accountQueriesFail : ICQGAccount :=
  { gwAccountID := 5, gwAccountName := "five",
    get_Summary := (S_OK, some { Balance := none, OTE := none, ProfitLoss := none }) }

/-- Follows the spec's words: one `PositionInfo` per gateway position of the account, in
index order; entry `i` is what `GetPositionInfo` derives from the object
`get_ItemByIndex(i)` stored, for the `count` positions of `spPositions`. -/
def Spec.positionsOf (env : ComEnv) (spPositions : ICQGPositions) (count : Nat) : Positions :=
  (List.range count).map fun (i : Nat) =>
    GetPositionInfo (spPositions.get_ItemByIndex (i : Int)).2
      (PositionInfo.uninitialized (env.stackPositionInfo (i : Int)))

/-- A short position of one contract whose price and money queries fail. -/
def shortPosition : ICQGPosition :=
  { instrumentName := "F.US.CLEH5", side := eOrderSide.osdSell, quantity := 1 }

/-- An account with two positions. -/
def accountWithPositions : ICQGAccount :=
  { gwAccountID := 1
    get_Positions := (S_OK, some
      { get_Count := (S_OK, 2)
        get_ItemByIndex := fun i =>
          if i = 0 then (S_OK, some samplePosition) else (S_OK, some shortPosition) }) }

/-! ## Iterating with the adapter -/

/-- The iteration idiom of the adapter's consumers (`GetWorkingOrders`, `GetAllQuotes`),
`while(!q.IsEnd()) { v = q.GetNext(); if(q.IsEnd()) break; ... }`: the variants that
reach the loop body, in order, and the adapter afterwards.  `fuel` bounds the number of
iterations. -/
def CComCollection.iterate {α : Type} (env : ComEnv) :
    Nat → CComCollection α → List (Option α) → Except Fault (List (Option α) × CComCollection α)
  | 0, q, seen => .ok (seen, q)
  | fuel + 1, q, seen =>
    if q.IsEnd then .ok (seen, q)
    else
      match q.GetNext env with
      | .error f => .error f
      | .ok (v, q) =>
        if q.IsEnd then .ok (seen, q)
        else CComCollection.iterate env fuel q (seen ++ [v])

/-- A collection of three orders whose enumerator fails at the third `Next`. -/
def brokenOrders : ComCollection ICQGOrder :=
  { newEnum := some
      { script := [(S_OK, some sampleOrder), (S_OK, some sampleFinalOrder), (E_FAIL, none)] } }

/-- A collection without entries: its enumerator answers the first `Next` with S_FALSE. -/
def emptyOrders : ComCollection ICQGOrder := { newEnum := some {} }

/-! ## Error translator scenarios -/

/-- A COM runtime in which no error object is pending: `GetErrorInfo` answers S_FALSE
and stores none. -/
def noPendingError : ComEnv := { getErrorInfoHr := S_FALSE, errorInfo := none }

/-- A COM runtime in which the source object answers `InterfaceSupportsErrorInfo` with
S_FALSE (the interface does not support rich error information) while an error object
left by another call is pending. -/
def unsupportedWithPendingError : ComEnv :=
  { supportsErrorInfoHr := fun _ => S_FALSE
    errorInfo := some { description := "left by another call" }
    formatMessage := fun _ => some "Unspecified error" }

/-! # Properties -/

/-! ## Lemmas on the macros -/

open IAPIFacadeImpl

@[simp] theorem RETURN_CEL_OBJ_RESULT_calls {α : Type} (env : ComEnv) (self : IAPIFacadeImpl)
    (calls : List GwCall) (obj : IFace) (hr : HRESULT) (res : α) :
    (RETURN_CEL_OBJ_RESULT env self calls obj hr res).calls = calls := by
  unfold RETURN_CEL_OBJ_RESULT
  split <;> rfl

@[simp] theorem RETURN_CEL_OBJ_RESULT_api {α : Type} (env : ComEnv) (self : IAPIFacadeImpl)
    (calls : List GwCall) (obj : IFace) (hr : HRESULT) (res : α) :
    (RETURN_CEL_OBJ_RESULT env self calls obj hr res).facade.m_api = self.m_api := by
  unfold RETURN_CEL_OBJ_RESULT
  split <;> rfl

theorem RETURN_CEL_OBJ_RESULT_result {α : Type} (env : ComEnv) (self : IAPIFacadeImpl)
    (calls : List GwCall) (obj : IFace) (hr : HRESULT) (res : α) :
    (RETURN_CEL_OBJ_RESULT env self calls obj hr res).result = .ok res ∨
      ∃ f, (RETURN_CEL_OBJ_RESULT env self calls obj hr res).result = .error f := by
  unfold RETURN_CEL_OBJ_RESULT
  split
  · exact Or.inr ⟨_, rfl⟩
  · exact Or.inl rfl

/-! ## PlaceOrder: price routing -/

theorem PlaceOrder_createOrderPrices (env : ComEnv) (self : IAPIFacadeImpl) (type : OrderType)
    (gwAccountID : ID) (symbolFullName : String) (buy : Bool) (quantity : Quantity)
    (description : String) (price stopLimitPrice : OrderPrice) :
    createOrderPrices
        (PlaceOrder env self type gwAccountID symbolFullName buy quantity description price
          stopLimitPrice).calls = [] ∨
      createOrderPrices
        (PlaceOrder env self type gwAccountID symbolFullName buy quantity description price
          stopLimitPrice).calls =
        [(PlaceOrder.priceArg (PlaceOrder.limitPrice type price stopLimitPrice),
          PlaceOrder.priceArg (PlaceOrder.stopPrice type price))] := by
  simp only [PlaceOrder]
  repeat' split
  all_goals simp [createOrderPrices, crash, notInitialized]

theorem PlaceOrder_reaches_CreateOrder (env : ComEnv) (self : IAPIFacadeImpl) (type : OrderType)
    (gwAccountID : ID) (symbolFullName : String) (buy : Bool) (quantity : Quantity)
    (description : String) (price stopLimitPrice : OrderPrice)
    (api : CQGCELWrapper) (spAccounts : ICQGAccounts) (spInstruments : ICQGInstruments)
    (hinit : self.m_api = some api)
    (haccs : api.m_spCQGCEL.get_Accounts = (S_OK, some spAccounts))
    (hacc : (spAccounts.get_Item gwAccountID).1 = S_OK)
    (hins : api.m_spCQGCEL.get_Instruments = (S_OK, some spInstruments)) :
    createOrderPrices
        (PlaceOrder env self type gwAccountID symbolFullName buy quantity description price
          stopLimitPrice).calls =
        [(PlaceOrder.priceArg (PlaceOrder.limitPrice type price stopLimitPrice),
          PlaceOrder.priceArg (PlaceOrder.stopPrice type price))] := by
  simp only [PlaceOrder, hinit, haccs, hacc, hins]
  repeat' split
  all_goals simp_all [createOrderPrices, crash, notInitialized]

theorem priceArg_routed (type : OrderType) (price stopLimitPrice : Price) :
    PlaceOrder.priceArg
        (PlaceOrder.limitPrice type (OrderPrice.ofPrice price) (OrderPrice.ofPrice stopLimitPrice)) =
        (Spec.priceRoles type price stopLimitPrice).1.getD 0.0 ∧
      PlaceOrder.priceArg (PlaceOrder.stopPrice type (OrderPrice.ofPrice price)) =
        (Spec.priceRoles type price stopLimitPrice).2.getD 0.0 := by
  cases type <;>
    simp [PlaceOrder.priceArg, PlaceOrder.limitPrice, PlaceOrder.stopPrice, Spec.priceRoles,
      OrderPrice.ofPrice, OrderPrice.default, OrderPrice.initialized, OrderPrice.price]

/-- C1. For every order type and every pair of supplied prices, the price roles
PlaceOrder selects are those of the table of section 4.4 (Market: none, none; Limit:
price, none; Stop: none, price; StopLimit: stopLimitPrice, price), a role the table
leaves empty being an unset OrderPrice; every order creation PlaceOrder performs at
the gateway passes these prices as its limit and stop price (0.0 for none); and the
order creation is performed whenever the facade is initialized and the account and
instrument collections are obtained with the account lookup answering S_OK. -/
theorem PlaceOrder_price_routing (env : ComEnv) (self : IAPIFacadeImpl) (type : OrderType)
    (gwAccountID : ID) (symbolFullName : String) (buy : Bool) (quantity : Quantity)
    (description : String) (price stopLimitPrice : Price) :
    PlaceOrder.limitPrice type (OrderPrice.ofPrice price) (OrderPrice.ofPrice stopLimitPrice) =
        (Spec.priceRoles type price stopLimitPrice).1.elim OrderPrice.default OrderPrice.ofPrice ∧
      PlaceOrder.stopPrice type (OrderPrice.ofPrice price) =
        (Spec.priceRoles type price stopLimitPrice).2.elim OrderPrice.default OrderPrice.ofPrice ∧
      (∀ limitArg stopArg,
        (limitArg, stopArg) ∈ createOrderPrices
            (PlaceOrder env self type gwAccountID symbolFullName buy quantity description
              (OrderPrice.ofPrice price) (OrderPrice.ofPrice stopLimitPrice)).calls →
          limitArg = (Spec.priceRoles type price stopLimitPrice).1.getD 0.0 ∧
            stopArg = (Spec.priceRoles type price stopLimitPrice).2.getD 0.0) ∧
      (∀ (api : CQGCELWrapper) (spAccounts : ICQGAccounts) (spInstruments : ICQGInstruments),
        self.m_api = some api →
        api.m_spCQGCEL.get_Accounts = (S_OK, some spAccounts) →
        (spAccounts.get_Item gwAccountID).1 = S_OK →
        api.m_spCQGCEL.get_Instruments = (S_OK, some spInstruments) →
          createOrderPrices
              (PlaceOrder env self type gwAccountID symbolFullName buy quantity description
                (OrderPrice.ofPrice price) (OrderPrice.ofPrice stopLimitPrice)).calls =
            [((Spec.priceRoles type price stopLimitPrice).1.getD 0.0,
              (Spec.priceRoles type price stopLimitPrice).2.getD 0.0)]) := by
  have hr := priceArg_routed type price stopLimitPrice
  refine ⟨?_, ?_, ?_, ?_⟩
  · cases type <;> simp [PlaceOrder.limitPrice, Spec.priceRoles]
  · cases type <;> simp [PlaceOrder.stopPrice, Spec.priceRoles]
  · intro limitArg stopArg hmem
    rcases PlaceOrder_createOrderPrices env self type gwAccountID symbolFullName buy quantity
        description (OrderPrice.ofPrice price) (OrderPrice.ofPrice stopLimitPrice) with h | h
    · rw [h] at hmem
      cases hmem
    · rw [h, List.mem_singleton, Prod.mk.injEq] at hmem
      exact ⟨hmem.1.trans hr.1, hmem.2.trans hr.2⟩
  · intro api spAccounts spInstruments hinit haccs hacc hins
    rw [PlaceOrder_reaches_CreateOrder env self type gwAccountID symbolFullName buy quantity
      description _ _ api spAccounts spInstruments hinit haccs hacc hins, hr.1, hr.2]

/-- The scenario of C1: PlaceOrder(StopLimit, 1, "X", buy, 1, "desc", 60.54, 60.50) on
the sample gateway creates exactly one order, with limit price 60.50 and stop price 60.54. -/
theorem PlaceOrder_price_routing_witness :
    createOrderPrices
        (PlaceOrder {} sampleFacade OrderType.StopLimit 1 "X" true 1 "desc"
          (OrderPrice.ofPrice 60.54) (OrderPrice.ofPrice 60.50)).calls = [(60.50, 60.54)] :=
  (PlaceOrder_price_routing {} sampleFacade OrderType.StopLimit 1 "X" true 1 "desc"
    60.54 60.50).2.2.2 sampleApi sampleAccounts sampleInstruments rfl rfl rfl rfl

/-- C2. At every order creation PlaceOrder performs, a price role the order type
does not use is passed as exactly 0.0 (the limit price for Market and Stop, the stop
price for Market and Limit, so both for Market whatever prices were supplied), and so
is a role whose routed OrderPrice is unset (price for the limit role of Limit and the
stop role of Stop and StopLimit, stopLimitPrice for the limit role of StopLimit); an
OrderPrice built from a Price p is initialized with price() = p, a default-constructed
one is not initialized. -/
theorem PlaceOrder_unset_price_is_zero (env : ComEnv) (self : IAPIFacadeImpl) (type : OrderType)
    (gwAccountID : ID) (symbolFullName : String) (buy : Bool) (quantity : Quantity)
    (description : String) (price stopLimitPrice : OrderPrice) (limitArg stopArg : Price)
    (hcall : (limitArg, stopArg) ∈ createOrderPrices
      (PlaceOrder env self type gwAccountID symbolFullName buy quantity description price
        stopLimitPrice).calls) :
    (type = OrderType.Market ∨ type = OrderType.Stop → limitArg = 0.0) ∧
      (type = OrderType.Market ∨ type = OrderType.Limit → stopArg = 0.0) ∧
      (type = OrderType.Limit → price.initialized = false → limitArg = 0.0) ∧
      (type = OrderType.StopLimit → stopLimitPrice.initialized = false → limitArg = 0.0) ∧
      (type = OrderType.Stop ∨ type = OrderType.StopLimit → price.initialized = false →
        stopArg = 0.0) ∧
      (∀ p : Price, (OrderPrice.ofPrice p).initialized = true ∧ (OrderPrice.ofPrice p).price = p) ∧
      OrderPrice.default.initialized = false := by
  have hargs : limitArg = PlaceOrder.priceArg (PlaceOrder.limitPrice type price stopLimitPrice) ∧
      stopArg = PlaceOrder.priceArg (PlaceOrder.stopPrice type price) := by
    rcases PlaceOrder_createOrderPrices env self type gwAccountID symbolFullName buy quantity
        description price stopLimitPrice with h | h
    · rw [h] at hcall
      cases hcall
    · rw [h, List.mem_singleton, Prod.mk.injEq] at hcall
      exact hcall
  obtain ⟨hl, hs⟩ := hargs
  subst hl hs
  refine ⟨?_, ?_, ?_, ?_, ?_, ?_, ?_⟩
  · rintro (h | h) <;> subst h <;>
      simp [PlaceOrder.priceArg, PlaceOrder.limitPrice, OrderPrice.default, OrderPrice.initialized]
  · rintro (h | h) <;> subst h <;>
      simp [PlaceOrder.priceArg, PlaceOrder.stopPrice, OrderPrice.default, OrderPrice.initialized]
  · intro h hp
    subst h
    simp [PlaceOrder.priceArg, PlaceOrder.limitPrice, hp]
  · intro h hp
    subst h
    simp [PlaceOrder.priceArg, PlaceOrder.limitPrice, hp]
  · rintro (h | h) hp <;> subst h <;> simp [PlaceOrder.priceArg, PlaceOrder.stopPrice, hp]
  · intro p
    exact ⟨rfl, rfl⟩
  · rfl

/-- The Market scenario of C2: a Market order given the prices 51.90 and 60.50 is
created on the sample gateway with limit price 0.0 and stop price 0.0. -/
theorem PlaceOrder_unset_price_is_zero_witness :
    createOrderPrices
        (PlaceOrder {} sampleFacade OrderType.Market 1 "X" true 1 "desc"
          (OrderPrice.ofPrice 51.90) (OrderPrice.ofPrice 60.50)).calls = [(0.0, 0.0)] ∧
      ((0.0 : Price) = 0.0 ∧ (0.0 : Price) = 0.0) :=
  ⟨rfl,
    ⟨(PlaceOrder_unset_price_is_zero {} sampleFacade OrderType.Market 1 "X" true 1 "desc"
        (OrderPrice.ofPrice 51.90) (OrderPrice.ofPrice 60.50) 0.0 0.0
        (List.mem_singleton.mpr rfl)).1 (Or.inl rfl),
      (PlaceOrder_unset_price_is_zero {} sampleFacade OrderType.Market 1 "X" true 1 "desc"
        (OrderPrice.ofPrice 51.90) (OrderPrice.ofPrice 60.50) 0.0 0.0
        (List.mem_singleton.mpr rfl)).2.1 (Or.inl rfl)⟩⟩

/-! ## PlaceOrder: lookup failures -/

/-- C3, the code at two failing lookups on the sample gateway.  The instrument lookup
of "NOPE" answers E_FAIL and stores no instrument: its result code is not kept, the
order is created with a null instrument and placed, and PlaceOrder returns the order
guid.  The account lookup of account 2 answers S_FALSE (not found): PlaceOrder
returns the empty identifier and creates no order, but the last error is empty. -/
theorem PlaceOrder_lookup_failure_evaluated :
    (sampleInstruments.get_Item "NOPE" = (E_FAIL, none) ∧
      (PlaceOrder {} sampleFacade OrderType.Market 1 "NOPE" true 1 "desc").result =
        .ok "order-guid-1" ∧
      (PlaceOrder {} sampleFacade OrderType.Market 1 "NOPE" true 1 "desc").calls =
        [GwCall.get_Accounts, GwCall.Accounts_get_Item 1, GwCall.get_Instruments,
          GwCall.Instruments_get_Item "NOPE",
          GwCall.CreateOrder eOrderType.otMarket none (some 1) 1 eOrderSide.osdBuy 0.0 0.0,
          GwCall.Order_put_Description "order-guid-1" "desc",
          GwCall.Order_Place "order-guid-1"]) ∧
    (sampleAccounts.get_Item 2 = (S_FALSE, none) ∧
      (PlaceOrder {} sampleFacade OrderType.Market 2 "X" true 1 "desc").result = .ok "" ∧
      (PlaceOrder {} sampleFacade OrderType.Market 2 "X" true 1 "desc").calls =
        [GwCall.get_Accounts, GwCall.Accounts_get_Item 2] ∧
      GetLastError (PlaceOrder {} sampleFacade OrderType.Market 2 "X" true 1 "desc").facade = "") :=
  ⟨⟨rfl, rfl, rfl⟩, ⟨rfl, rfl, rfl, rfl⟩⟩

/-! ## CancelOrder -/

theorem RETURN_CEL_OBJ_RESULT_ne_true (env : ComEnv) (self : IAPIFacadeImpl)
    (calls : List GwCall) (obj : IFace) (hr : HRESULT) :
    (RETURN_CEL_OBJ_RESULT env self calls obj hr false).result ≠ .ok true := by
  rcases RETURN_CEL_OBJ_RESULT_result env self calls obj hr false with h | ⟨f, h⟩ <;>
    rw [h] <;> simp

/-- C4. On an initialized facade whose gateway hands out its live order set, when the
lookup of orderGuid in that set answers S_FALSE (the guid is not there) CancelOrder
returns false, GetLastError() is "Order with given guid not found.", which is not
what the error translator makes of that result code (the empty string), and the only
gateway calls are the two lookups: no cancel request is submitted. -/
theorem CancelOrder_not_found (env : ComEnv) (self : IAPIFacadeImpl) (api : CQGCELWrapper)
    (spOrders : ICQGOrders) (orderGuid : String)
    (hinit : self.m_api = some api)
    (horders : api.m_spCQGCEL.get_Orders = (S_OK, some spOrders))
    (hnotfound : (spOrders.get_ItemByGuid orderGuid).1 = S_FALSE) :
    (CancelOrder env self orderGuid).result = .ok false ∧
      GetLastError (CancelOrder env self orderGuid).facade = "Order with given guid not found." ∧
      GetCOMError env IFace.ICQGOrders (spOrders.get_ItemByGuid orderGuid).1 = .ok "" ∧
      (CancelOrder env self orderGuid).calls =
        [GwCall.get_Orders, GwCall.Orders_get_ItemByGuid orderGuid] ∧
      (∀ c ∈ (CancelOrder env self orderGuid).calls, c.isCancel = false) := by
  have hcalls : (CancelOrder env self orderGuid).calls =
      [GwCall.get_Orders, GwCall.Orders_get_ItemByGuid orderGuid] := by
    simp [CancelOrder, hinit, horders, hnotfound]
  refine ⟨?_, ?_, ?_, hcalls, ?_⟩
  · simp [CancelOrder, hinit, horders, hnotfound]
  · simp [CancelOrder, GetLastError, hinit, horders, hnotfound]
  · rw [hnotfound]
    rfl
  · intro c hc
    rw [hcalls] at hc
    simp only [List.mem_cons, List.mem_singleton, List.not_mem_nil, or_false] at hc
    rcases hc with h | h <;> subst h <;> rfl

/-- The scenario of C4: CancelOrder("unknown-guid") on the sample gateway. -/
theorem CancelOrder_not_found_witness :
    (sampleOrderList.find? fun o => o.guid == "unknown-guid") = none ∧
      (CancelOrder {} sampleFacade "unknown-guid").result = .ok false ∧
      GetLastError (CancelOrder {} sampleFacade "unknown-guid").facade =
        "Order with given guid not found." ∧
      (CancelOrder {} sampleFacade "unknown-guid").calls =
        [GwCall.get_Orders, GwCall.Orders_get_ItemByGuid "unknown-guid"] :=
  have h := CancelOrder_not_found {} sampleFacade sampleApi sampleOrders "unknown-guid" rfl rfl rfl
  ⟨rfl, h.1, h.2.1, h.2.2.2.1⟩

/-- C5. On an initialized facade, when the order is found by its guid (the lookup
answers S_OK with an order) but reports that it cannot be cancelled, CancelOrder
returns false, GetLastError() is "Order cannot be cancelled.", a message different
from the not-found one, and no cancel request is submitted.  And whenever CancelOrder
returns true, the facade was initialized, the order was found, it was cancellable and
the gateway answered the cancel request, the last call made, with S_OK. -/
theorem CancelOrder_not_cancellable (env : ComEnv) (self : IAPIFacadeImpl) (orderGuid : String) :
    (∀ (api : CQGCELWrapper) (spOrders : ICQGOrders) (spOrder : ICQGOrder),
      self.m_api = some api →
      api.m_spCQGCEL.get_Orders = (S_OK, some spOrders) →
      spOrders.get_ItemByGuid orderGuid = (S_OK, some spOrder) →
      spOrder.canBeCanceled = VARIANT_FALSE →
        (CancelOrder env self orderGuid).result = .ok false ∧
        GetLastError (CancelOrder env self orderGuid).facade = "Order cannot be cancelled." ∧
        "Order cannot be cancelled." ≠ "Order with given guid not found." ∧
        (∀ c ∈ (CancelOrder env self orderGuid).calls, c.isCancel = false)) ∧
    ((CancelOrder env self orderGuid).result = .ok true →
      ∃ (api : CQGCELWrapper) (spOrders : ICQGOrders) (spOrder : ICQGOrder),
        self.m_api = some api ∧
        api.m_spCQGCEL.get_Orders = (S_OK, some spOrders) ∧
        spOrders.get_ItemByGuid orderGuid = (S_OK, some spOrder) ∧
        spOrder.canBeCanceled ≠ VARIANT_FALSE ∧
        spOrder.cancelHr = S_OK ∧
        (CancelOrder env self orderGuid).calls =
          [GwCall.get_Orders, GwCall.Orders_get_ItemByGuid orderGuid,
            GwCall.Order_Cancel spOrder.guid]) := by
  constructor
  · intro api spOrders spOrder hinit horders hfound hcannot
    have hne : (S_OK : HRESULT) ≠ S_FALSE := by decide
    refine ⟨?_, ?_, by decide, ?_⟩
    · simp [CancelOrder, hinit, horders, hfound, hcannot, hne]
    · simp [CancelOrder, GetLastError, hinit, horders, hfound, hcannot, hne]
    · have hcalls : (CancelOrder env self orderGuid).calls =
          [GwCall.get_Orders, GwCall.Orders_get_ItemByGuid orderGuid] := by
        simp [CancelOrder, hinit, horders, hfound, hcannot, hne]
      intro c hc
      rw [hcalls] at hc
      simp only [List.mem_cons, List.mem_singleton, List.not_mem_nil, or_false] at hc
      rcases hc with h | h <;> subst h <;> rfl
  · intro htrue
    cases hapi : self.m_api with
    | none => simp [CancelOrder, hapi, notInitialized] at htrue
    | some api =>
      rcases hord : api.m_spCQGCEL.get_Orders with ⟨hr, sp⟩
      by_cases h1 : hr = S_OK
      · subst h1
        cases sp with
        | none => simp [CancelOrder, hapi, hord, crash] at htrue
        | some spOrders =>
          rcases hitem : spOrders.get_ItemByGuid orderGuid with ⟨hr2, so⟩
          by_cases h2 : hr2 = S_FALSE
          · simp [CancelOrder, hapi, hord, hitem, h2] at htrue
          by_cases h3 : hr2 = S_OK
          · subst h3
            cases so with
            | none => simp [CancelOrder, hapi, hord, hitem, h2] at htrue
            | some spOrder =>
              by_cases h4 : spOrder.canBeCanceled = VARIANT_FALSE
              · simp [CancelOrder, hapi, hord, hitem, h2, h4] at htrue
              by_cases h5 : spOrder.cancelHr = S_OK
              · refine ⟨api, spOrders, spOrder, rfl, hord, hitem, h4, h5, ?_⟩
                simp [CancelOrder, hapi, hord, hitem, h2, h4, h5]
              · simp [CancelOrder, hapi, hord, hitem, h2, h4, h5,
                  RETURN_CEL_OBJ_RESULT_ne_true] at htrue
          · simp [CancelOrder, hapi, hord, hitem, h2, h3, RETURN_CEL_OBJ_RESULT_ne_true] at htrue
      · simp [CancelOrder, hapi, hord, h1, RETURN_CEL_OBJ_RESULT_ne_true] at htrue

/-- The scenario of C5: the final order "order-guid-2" of the sample gateway cannot
be cancelled. -/
theorem CancelOrder_not_cancellable_witness :
    (CancelOrder {} sampleFacade "order-guid-2").result = .ok false ∧
      GetLastError (CancelOrder {} sampleFacade "order-guid-2").facade =
        "Order cannot be cancelled." :=
  have h := (CancelOrder_not_cancellable {} sampleFacade "order-guid-2").1 sampleApi sampleOrders
    sampleFinalOrder rfl rfl rfl rfl
  ⟨h.1, h.2.1⟩

/-! ## CancelAllOrders -/

/-- C6. On an initialized facade, CancelAllOrders with no account filter
(gwAccountID = 0) and no symbol filter (empty symbolFullName), which is also what the
default arguments give, makes exactly one gateway call: the bulk-cancel with a null
account and a null instrument, hence no account or instrument lookup; and it returns
true if and only if the gateway answers that call with S_OK. -/
theorem CancelAllOrders_unfiltered (env : ComEnv) (self : IAPIFacadeImpl) (api : CQGCELWrapper)
    (hinit : self.m_api = some api) :
    CancelAllOrders env self = CancelAllOrders env self 0 "" ∧
      (CancelAllOrders env self 0 "").calls = [GwCall.CancelAllOrders none none] ∧
      ((CancelAllOrders env self 0 "").result = .ok true ↔
        api.m_spCQGCEL.CancelAllOrders none none = S_OK) := by
  refine ⟨rfl, ?_, ?_⟩
  · by_cases h : api.m_spCQGCEL.CancelAllOrders none none = S_OK <;>
      simp [CancelAllOrders, CancelAllOrders.accountBlock, CancelAllOrders.instrumentBlock,
        hinit, h]
  · by_cases h : api.m_spCQGCEL.CancelAllOrders none none = S_OK <;>
      simp [CancelAllOrders, CancelAllOrders.accountBlock, CancelAllOrders.instrumentBlock,
        hinit, h, RETURN_CEL_OBJ_RESULT_ne_true]

/-- The scenario of C6: CancelAllOrders() on the sample gateway, which accepts it. -/
theorem CancelAllOrders_unfiltered_witness :
    (CancelAllOrders {} sampleFacade).calls = [GwCall.CancelAllOrders none none] ∧
      (CancelAllOrders {} sampleFacade).result = .ok true :=
  have h := CancelAllOrders_unfiltered {} sampleFacade sampleApi rfl
  ⟨h.2.1, h.2.2.mpr rfl⟩

/-! ## Working-order counts -/

theorem CheckCOMError_succeeded (env : ComEnv) (iface : IFace) (hr : HRESULT)
    (h : SUCCEEDED hr = true) : CheckCOMError env iface hr = .ok () := by
  simp [CheckCOMError, h]

theorem CheckCOMError_failed (env : ComEnv) (iface : IFace) (hr : HRESULT) (h : hr < 0) :
    ∃ f, CheckCOMError env iface hr = .error f := by
  have hs : SUCCEEDED hr = false := by
    simp only [SUCCEEDED, decide_eq_false_iff_not, not_le]
    exact h
  unfold CheckCOMError
  rw [hs]
  cases GetCOMError env iface hr with
  | error e => exact ⟨e, rfl⟩
  | ok what => exact ⟨Fault.runtime_error what, rfl⟩

theorem GetWorkingOrders_loop_fuel (env : ComEnv) :
    ∀ (fuel1 fuel2 : Nat) (q : CComCollection ICQGOrder) (count : Nat),
      q.remaining < fuel1 → q.remaining < fuel2 →
        GetWorkingOrders.loop env fuel1 q count = GetWorkingOrders.loop env fuel2 q count := by
  intro fuel1
  induction fuel1 with
  | zero => intro fuel2 q count h1; exact absurd h1 (Nat.not_lt_zero _)
  | succ f1 ih =>
    intro fuel2 q count h1 h2
    obtain ⟨f2, rfl⟩ : ∃ k, fuel2 = k + 1 := ⟨fuel2 - 1, by omega⟩
    rcases q with ⟨isEnd, coll⟩
    cases coll with
    | none =>
      cases isEnd <;>
        simp [GetWorkingOrders.loop, CComCollection.IsEnd, CComCollection.GetNext]
    | some e =>
      rcases e with ⟨resetHr, script, rest⟩
      cases rest with
      | nil =>
        cases isEnd <;>
          simp [GetWorkingOrders.loop, CComCollection.IsEnd, CComCollection.GetNext,
            IEnumVARIANT.Next, CheckCOMError, SUCCEEDED, S_FALSE]
      | cons step rest =>
        rcases step with ⟨hr, v⟩
        have h1' : rest.length < f1 := by
          simp [CComCollection.remaining] at h1
          omega
        have h2' : rest.length < f2 := by
          simp [CComCollection.remaining] at h2
          omega
        cases isEnd with
        | true => simp [GetWorkingOrders.loop, CComCollection.IsEnd]
        | false =>
          simp only [GetWorkingOrders.loop, CComCollection.IsEnd, CComCollection.GetNext,
            IEnumVARIANT.Next, Bool.false_eq_true, if_false]
          cases CheckCOMError env IFace.IEnumVARIANT hr with
          | error f => rfl
          | ok u =>
            by_cases hend : hr = S_FALSE
            · simp [hend]
            · cases v with
              | none => simp [hend]
              | some o =>
                simp only [hend, decide_False, Bool.false_eq_true, if_false]
                exact ih f2 _ _ h1' h2'

theorem GetWorkingOrders_loop_items (env : ComEnv) (resetHr : HRESULT)
    (script : List (HRESULT × Option ICQGOrder)) (items : List ICQGOrder) :
    ∀ (fuel count : Nat), items.length < fuel →
      GetWorkingOrders.loop env fuel
          { m_isEnd := false,
            m_collection := some
              { resetHr := resetHr, script := script,
                rest := items.map fun o => (S_OK, some o) } } count =
        .ok (count + items.countP ICQGOrder.working) := by
  induction items with
  | nil =>
    intro fuel count hfuel
    obtain ⟨f, rfl⟩ : ∃ f, fuel = f + 1 := ⟨fuel - 1, by simp at hfuel; omega⟩
    simp [GetWorkingOrders.loop, CComCollection.IsEnd, CComCollection.GetNext,
      IEnumVARIANT.Next, CheckCOMError, SUCCEEDED, S_FALSE]
  | cons o os ih =>
    intro fuel count hfuel
    obtain ⟨f, rfl⟩ : ∃ f, fuel = f + 1 := ⟨fuel - 1, by simp at hfuel; omega⟩
    have hf : os.length < f := by simp at hfuel; omega
    have hne : (S_OK : HRESULT) ≠ S_FALSE := by decide
    simp only [GetWorkingOrders.loop, CComCollection.IsEnd, CComCollection.GetNext,
      IEnumVARIANT.Next, List.map_cons, CheckCOMError_succeeded env _ S_OK rfl, hne,
      decide_False, Bool.false_eq_true, if_false]
    rw [ih f _ hf]
    by_cases hw : o.isFinal = VARIANT_FALSE
    · simp [List.countP_cons, ICQGOrder.working, hw]
      omega
    · simp [List.countP_cons, ICQGOrder.working, hw]

theorem GetWorkingOrders_loop_fails (env : ComEnv) (resetHr : HRESULT)
    (script : List (HRESULT × Option ICQGOrder)) (hr : HRESULT) (v : Option ICQGOrder)
    (tail : List (HRESULT × Option ICQGOrder)) (f : Fault)
    (hf : CheckCOMError env IFace.IEnumVARIANT hr = .error f) (items : List ICQGOrder) :
    ∀ (fuel count : Nat), items.length < fuel →
      GetWorkingOrders.loop env fuel
          { m_isEnd := false,
            m_collection := some
              { resetHr := resetHr, script := script,
                rest := (items.map fun o => (S_OK, some o)) ++ (hr, v) :: tail } } count =
        .error f := by
  induction items with
  | nil =>
    intro fuel count hfuel
    obtain ⟨k, rfl⟩ : ∃ k, fuel = k + 1 := ⟨fuel - 1, by simp at hfuel; omega⟩
    simp [GetWorkingOrders.loop, CComCollection.IsEnd, CComCollection.GetNext,
      IEnumVARIANT.Next, hf]
  | cons o os ih =>
    intro fuel count hfuel
    obtain ⟨k, rfl⟩ : ∃ k, fuel = k + 1 := ⟨fuel - 1, by simp at hfuel; omega⟩
    have hk : os.length < k := by simp at hfuel; omega
    have hne : (S_OK : HRESULT) ≠ S_FALSE := by decide
    simp only [GetWorkingOrders.loop, CComCollection.IsEnd, CComCollection.GetNext,
      IEnumVARIANT.Next, List.map_cons, List.cons_append, CheckCOMError_succeeded env _ S_OK rfl,
      hne, decide_False, Bool.false_eq_true, if_false]
    exact ih k _ hk

theorem GetWorkingOrders_of_enumerates (env : ComEnv) (orders : ICQGOrders)
    (items : List ICQGOrder) (henum : orders.toCollection.enumerates items) :
    GetWorkingOrders env (some orders) = .ok (items.countP ICQGOrder.working) := by
  obtain ⟨hnew, e, he, hreset, hscript⟩ := henum
  simp only [GetWorkingOrders, CComCollection.new, CComCollection.Reset, IEnumVARIANT.Reset, he,
    CheckCOMError_succeeded env _ _ hnew, CheckCOMError_succeeded env _ _ hreset,
    CComCollection.remaining, hscript]
  have h := GetWorkingOrders_loop_items env e.resetHr (items.map fun o => (S_OK, some o)) items
    (items.length + 1) 0 (Nat.lt_succ_self _)
  simpa using h

theorem GetWorkingOrders_of_failsAfter (env : ComEnv) (orders : ICQGOrders)
    (items : List ICQGOrder) (hr : HRESULT) (f : Fault)
    (hfail : orders.toCollection.failsAfter items hr)
    (hf : CheckCOMError env IFace.IEnumVARIANT hr = .error f) :
    GetWorkingOrders env (some orders) = .error f := by
  obtain ⟨hnew, e, he, hreset, v, tail, hscript⟩ := hfail
  simp only [GetWorkingOrders, CComCollection.new, CComCollection.Reset, IEnumVARIANT.Reset, he,
    CheckCOMError_succeeded env _ _ hnew, CheckCOMError_succeeded env _ _ hreset,
    CComCollection.remaining, hscript]
  exact GetWorkingOrders_loop_fails env e.resetHr _ hr v tail f hf items _ 0
    (by simp; omega)

theorem GetAllWorkingOrdersCount_all_accounts (env : ComEnv) (self : IAPIFacadeImpl)
    (api : CQGCELWrapper) (spOrders : Option ICQGOrders) (hinit : self.m_api = some api)
    (horders : api.m_spCQGCEL.get_Orders = (S_OK, spOrders)) :
    (GetAllWorkingOrdersCount env self 0).result = GetWorkingOrders env spOrders := by
  simp [GetAllWorkingOrdersCount, hinit, horders, returnWorkingOrders]

theorem GetInternalWorkingOrdersCount_all_accounts (env : ComEnv) (self : IAPIFacadeImpl)
    (api : CQGCELWrapper) (spOrders : Option ICQGOrders) (hinit : self.m_api = some api)
    (horders : api.m_spCQGCEL.get_InternalOrders = (S_OK, spOrders)) :
    (GetInternalWorkingOrdersCount env self 0).result = GetWorkingOrders env spOrders := by
  simp [GetInternalWorkingOrdersCount, hinit, horders, returnWorkingOrders]

theorem getAccount_found (env : ComEnv) (self : IAPIFacadeImpl) (api : CQGCELWrapper)
    (gwAccountID : ID) (spAccounts : ICQGAccounts) (spAccount : ICQGAccount)
    (haccs : api.m_spCQGCEL.get_Accounts = (S_OK, some spAccounts))
    (hacc : spAccounts.get_Item gwAccountID = (S_OK, some spAccount)) :
    getAccount env self api gwAccountID =
      { result := .ok (some spAccount), facade := self,
        calls := [GwCall.get_Accounts, GwCall.Accounts_get_Item gwAccountID] } := by
  simp [getAccount, haccs, hacc]

theorem GetAllWorkingOrdersCount_one_account (env : ComEnv) (self : IAPIFacadeImpl)
    (api : CQGCELWrapper) (gwAccountID : ID) (spAccounts : ICQGAccounts)
    (spAccount : ICQGAccount) (spOrders : Option ICQGOrders) (hinit : self.m_api = some api)
    (hid : gwAccountID ≠ 0)
    (haccs : api.m_spCQGCEL.get_Accounts = (S_OK, some spAccounts))
    (hacc : spAccounts.get_Item gwAccountID = (S_OK, some spAccount))
    (horders : spAccount.get_Orders = (S_OK, spOrders)) :
    (GetAllWorkingOrdersCount env self gwAccountID).result = GetWorkingOrders env spOrders := by
  simp [GetAllWorkingOrdersCount, hinit, hid, getAccount_found env _ api gwAccountID _ _ haccs hacc,
    horders, returnWorkingOrders]

theorem GetInternalWorkingOrdersCount_one_account (env : ComEnv) (self : IAPIFacadeImpl)
    (api : CQGCELWrapper) (gwAccountID : ID) (spAccounts : ICQGAccounts)
    (spAccount : ICQGAccount) (spOrders : Option ICQGOrders) (hinit : self.m_api = some api)
    (hid : gwAccountID ≠ 0)
    (haccs : api.m_spCQGCEL.get_Accounts = (S_OK, some spAccounts))
    (hacc : spAccounts.get_Item gwAccountID = (S_OK, some spAccount))
    (horders : spAccount.get_InternalOrders = (S_OK, spOrders)) :
    (GetInternalWorkingOrdersCount env self gwAccountID).result =
      GetWorkingOrders env spOrders := by
  simp [GetInternalWorkingOrdersCount, hinit, hid,
    getAccount_found env _ api gwAccountID _ _ haccs hacc, horders, returnWorkingOrders]

theorem countP_working_add_final (items : List ICQGOrder) :
    items.countP ICQGOrder.working + items.countP (fun o => !o.working) = items.length := by
  induction items with
  | nil => rfl
  | cons o os ih =>
    by_cases h : o.working = true
    · simp [List.countP_cons, h]
      omega
    · simp [List.countP_cons, h]
      omega

/-- C7. For every gateway order collection whose enumeration succeeds and yields the
entries `items`, GetWorkingOrders returns exactly the number of entries whose final
flag is false, so that this count plus the number of final entries is the size of the
collection; a null collection gives 0; and on an initialized facade
GetAllWorkingOrdersCount and GetInternalWorkingOrdersCount return that count, both for
all accounts (gwAccountID = 0, the collection coming from the connector) and for one
account (the collection coming from the account found). -/
theorem GetWorkingOrders_counts_non_final (env : ComEnv) (orders : ICQGOrders)
    (items : List ICQGOrder) (henum : orders.toCollection.enumerates items) :
    GetWorkingOrders env (some orders) = .ok (items.countP ICQGOrder.working) ∧
      items.countP ICQGOrder.working + items.countP (fun o => !o.working) = items.length ∧
      GetWorkingOrders env none = .ok 0 ∧
      (∀ (self : IAPIFacadeImpl) (api : CQGCELWrapper), self.m_api = some api →
        (api.m_spCQGCEL.get_Orders = (S_OK, some orders) →
          (GetAllWorkingOrdersCount env self 0).result = .ok (items.countP ICQGOrder.working)) ∧
        (api.m_spCQGCEL.get_InternalOrders = (S_OK, some orders) →
          (GetInternalWorkingOrdersCount env self 0).result =
            .ok (items.countP ICQGOrder.working)) ∧
        (api.m_spCQGCEL.get_Orders = (S_OK, none) →
          (GetAllWorkingOrdersCount env self 0).result = .ok 0) ∧
        (api.m_spCQGCEL.get_InternalOrders = (S_OK, none) →
          (GetInternalWorkingOrdersCount env self 0).result = .ok 0) ∧
        (∀ (gwAccountID : ID) (spAccounts : ICQGAccounts) (spAccount : ICQGAccount),
          gwAccountID ≠ 0 →
          api.m_spCQGCEL.get_Accounts = (S_OK, some spAccounts) →
          spAccounts.get_Item gwAccountID = (S_OK, some spAccount) →
            (spAccount.get_Orders = (S_OK, some orders) →
              (GetAllWorkingOrdersCount env self gwAccountID).result =
                .ok (items.countP ICQGOrder.working)) ∧
            (spAccount.get_InternalOrders = (S_OK, some orders) →
              (GetInternalWorkingOrdersCount env self gwAccountID).result =
                .ok (items.countP ICQGOrder.working)))) := by
  have hcount := GetWorkingOrders_of_enumerates env orders items henum
  refine ⟨hcount, countP_working_add_final items, rfl, ?_⟩
  intro self api hinit
  refine ⟨?_, ?_, ?_, ?_, ?_⟩
  · intro h
    rw [GetAllWorkingOrdersCount_all_accounts env self api _ hinit h, hcount]
  · intro h
    rw [GetInternalWorkingOrdersCount_all_accounts env self api _ hinit h, hcount]
  · intro h
    rw [GetAllWorkingOrdersCount_all_accounts env self api _ hinit h]
    rfl
  · intro h
    rw [GetInternalWorkingOrdersCount_all_accounts env self api _ hinit h]
    rfl
  · intro gwAccountID spAccounts spAccount hid haccs hacc
    constructor
    · intro h
      rw [GetAllWorkingOrdersCount_one_account env self api gwAccountID spAccounts spAccount _
        hinit hid haccs hacc h, hcount]
    · intro h
      rw [GetInternalWorkingOrdersCount_one_account env self api gwAccountID spAccounts spAccount _
        hinit hid haccs hacc h, hcount]

/-- The scenario of C7: the sample collection has 5 entries of which 2 are final, and
both counting operations return 3. -/
theorem GetWorkingOrders_counts_non_final_witness :
    sampleOrderList.length = 5 ∧ sampleOrderList.countP (fun o => !o.working) = 2 ∧
      (GetAllWorkingOrdersCount {} sampleFacade).result = .ok 3 ∧
      (GetInternalWorkingOrdersCount {} sampleFacade).result = .ok 3 :=
  have h := (GetWorkingOrders_counts_non_final {} sampleOrders sampleOrderList
    ⟨rfl, _, rfl, rfl, rfl⟩).2.2.2 sampleFacade sampleApi rfl
  ⟨rfl, rfl, h.1 rfl, h.2.1 rfl⟩


/-- C8 as stated fails: on a connector whose order enumeration yields one working
order and then answers E_FAIL, the two counting operations do not return the partial
count 1; the failure escapes them as a runtime error. -/
theorem GetWorkingOrders_partial_count_counterexample :
    failingOrders.toCollection.failsAfter [sampleOrder] E_FAIL ∧
      sampleOrder.working = true ∧
      (GetAllWorkingOrdersCount {} failingFacade).result =
        .error (Fault.runtime_error "COM error occurred. Description: ") ∧
      (GetInternalWorkingOrdersCount {} failingFacade).result =
        .error (Fault.runtime_error "COM error occurred. Description: ") ∧
      (GetAllWorkingOrdersCount {} failingFacade).result ≠ .ok 1 ∧
      (GetInternalWorkingOrdersCount {} failingFacade).result ≠ .ok 1 := by
  have h1 : (GetAllWorkingOrdersCount {} failingFacade).result =
      .error (Fault.runtime_error "COM error occurred. Description: ") := rfl
  have h2 : (GetInternalWorkingOrdersCount {} failingFacade).result =
      .error (Fault.runtime_error "COM error occurred. Description: ") := rfl
  refine ⟨⟨rfl, _, rfl, rfl, none, [], rfl⟩, rfl, h1, h2, ?_, ?_⟩
  · rw [h1]
    exact fun h => Except.noConfusion h
  · rw [h2]
    exact fun h => Except.noConfusion h

/-- C8, amended. If the enumeration of the working-order collection fails after the
entries `items` have been read (the next `Next` call answers a failure code `hr`),
GetWorkingOrders returns no count: the failure is raised by CheckCOMError, as a
runtime error carrying the translated text whenever the error translator yields one,
and it escapes GetAllWorkingOrdersCount and GetInternalWorkingOrdersCount, for all
accounts and for one account alike. -/
theorem GetWorkingOrders_enumeration_failure_raises (env : ComEnv) (orders : ICQGOrders)
    (items : List ICQGOrder) (hr : HRESULT) (hneg : hr < 0)
    (hfail : orders.toCollection.failsAfter items hr) :
    ∃ f : Fault,
      CheckCOMError env IFace.IEnumVARIANT hr = .error f ∧
      (∀ what, GetCOMError env IFace.IEnumVARIANT hr = .ok what → f = Fault.runtime_error what) ∧
      GetWorkingOrders env (some orders) = .error f ∧
      (∀ (self : IAPIFacadeImpl) (api : CQGCELWrapper), self.m_api = some api →
        (api.m_spCQGCEL.get_Orders = (S_OK, some orders) →
          (GetAllWorkingOrdersCount env self 0).result = .error f) ∧
        (api.m_spCQGCEL.get_InternalOrders = (S_OK, some orders) →
          (GetInternalWorkingOrdersCount env self 0).result = .error f) ∧
        (∀ (gwAccountID : ID) (spAccounts : ICQGAccounts) (spAccount : ICQGAccount),
          gwAccountID ≠ 0 →
          api.m_spCQGCEL.get_Accounts = (S_OK, some spAccounts) →
          spAccounts.get_Item gwAccountID = (S_OK, some spAccount) →
            (spAccount.get_Orders = (S_OK, some orders) →
              (GetAllWorkingOrdersCount env self gwAccountID).result = .error f) ∧
            (spAccount.get_InternalOrders = (S_OK, some orders) →
              (GetInternalWorkingOrdersCount env self gwAccountID).result = .error f))) := by
  obtain ⟨f, hf⟩ := CheckCOMError_failed env IFace.IEnumVARIANT hr hneg
  have hraise := GetWorkingOrders_of_failsAfter env orders items hr f hfail hf
  refine ⟨f, hf, ?_, hraise, ?_⟩
  · intro what hwhat
    have hs : SUCCEEDED hr = false := by
      simp only [SUCCEEDED, decide_eq_false_iff_not, not_le]
      exact hneg
    simp only [CheckCOMError, hs, hwhat, Bool.false_eq_true, if_false] at hf
    exact (Except.error.inj hf).symm
  · intro self api hinit
    refine ⟨?_, ?_, ?_⟩
    · intro h
      rw [GetAllWorkingOrdersCount_all_accounts env self api _ hinit h, hraise]
    · intro h
      rw [GetInternalWorkingOrdersCount_all_accounts env self api _ hinit h, hraise]
    · intro gwAccountID spAccounts spAccount hid haccs hacc
      constructor
      · intro h
        rw [GetAllWorkingOrdersCount_one_account env self api gwAccountID spAccounts spAccount _
          hinit hid haccs hacc h, hraise]
      · intro h
        rw [GetInternalWorkingOrdersCount_one_account env self api gwAccountID spAccounts
          spAccount _ hinit hid haccs hacc h, hraise]

/-- The amended C8 at the connector whose enumeration fails after one entry. -/
theorem GetWorkingOrders_enumeration_failure_raises_witness :
    ∃ f : Fault, GetWorkingOrders {} (some failingOrders) = .error f ∧
      (GetAllWorkingOrdersCount {} failingFacade 0).result = .error f :=
  have ⟨f, _, _, h3, h4⟩ := GetWorkingOrders_enumeration_failure_raises {} failingOrders
    [sampleOrder] E_FAIL (by decide) ⟨rfl, _, rfl, rfl, none, [], rfl⟩
  ⟨f, h3, (h4 failingFacade failingApi rfl).1 rfl⟩

/-! ## Operations on a facade that is not initialized -/

/-- C9. On a facade that is not initialized (IsValid() is false), GetAccounts and
GetPositions, the latter for every account id, return false, leave the last error
"CQGCVEL not initialized" (a non-empty text), leave the result list empty whatever
list was passed in, and make no gateway call. -/
theorem GetAccounts_GetPositions_not_initialized (env : ComEnv) (self : IAPIFacadeImpl)
    (accounts : Accounts) (gwAccountID : ID) (positions : Positions)
    (hinvalid : IsValid self = false) :
    ((GetAccounts env self accounts).result = .ok (false, []) ∧
      GetLastError (GetAccounts env self accounts).facade = "CQGCVEL not initialized" ∧
      GetLastError (GetAccounts env self accounts).facade ≠ "" ∧
      (GetAccounts env self accounts).calls = []) ∧
    ((GetPositions env self gwAccountID positions).result = .ok (false, []) ∧
      GetLastError (GetPositions env self gwAccountID positions).facade =
        "CQGCVEL not initialized" ∧
      GetLastError (GetPositions env self gwAccountID positions).facade ≠ "" ∧
      (GetPositions env self gwAccountID positions).calls = []) := by
  have hnone : self.m_api = none := by
    cases h : self.m_api with
    | none => rfl
    | some api => simp [IsValid, h] at hinvalid
  have hne : "CQGCVEL not initialized" ≠ "" := by decide
  refine ⟨⟨?_, ?_, ?_, ?_⟩, ⟨?_, ?_, ?_, ?_⟩⟩ <;>
    simp [GetAccounts, GetPositions, GetLastError, notInitialized, clear, hnone, hne]

/-- The scenario of C9: a facade never initialized, called with non-empty lists. -/
theorem GetAccounts_GetPositions_not_initialized_witness :
    (GetAccounts {} { m_api := none, m_lastError := "" } [{ gwAccountID := 7 }]).result =
        .ok (false, []) ∧
      (GetPositions {} { m_api := none, m_lastError := "" } 7 [{ symbol := "X" }]).result =
        .ok (false, []) :=
  have h := GetAccounts_GetPositions_not_initialized {} { m_api := none, m_lastError := "" }
    [{ gwAccountID := 7 }] 7 [{ symbol := "X" }] rfl
  ⟨h.1.1, h.2.1⟩

/-! ## Initialize -/

theorem Initialize_api_of_isSome (env : ComEnv) (coCreate : HRESULT × Option ICQGCEL)
    (self : IAPIFacadeImpl) (events : IAPIEventsPtr) (h : self.m_api.isSome = true) :
    (Initialize env coCreate self events).facade.m_api = self.m_api := by
  simp [Initialize, h]

theorem GetAccounts_loop_api (env : ComEnv) (self : IAPIFacadeImpl) (spAccounts : ICQGAccounts) :
    ∀ (n : Nat) (i : Int) (accounts : Accounts) (calls : List GwCall),
      (GetAccounts.loop env self spAccounts n i accounts calls).facade.m_api = self.m_api := by
  intro n
  induction n with
  | zero => intro i accounts calls; rfl
  | succ n ih =>
    intro i accounts calls
    simp only [GetAccounts.loop]
    repeat' split
    all_goals simp [ih]

theorem GetAccounts_api (env : ComEnv) (self : IAPIFacadeImpl) (accounts : Accounts) :
    (GetAccounts env self accounts).facade.m_api = self.m_api := by
  simp only [GetAccounts]
  repeat' split
  all_goals simp_all [notInitialized, crash, reserveNegative, GetAccounts_loop_api]

theorem getAccount_api (env : ComEnv) (self : IAPIFacadeImpl) (api : CQGCELWrapper)
    (gwAccountID : ID) : (getAccount env self api gwAccountID).facade.m_api = self.m_api := by
  simp only [getAccount]
  repeat' split
  all_goals simp [crash]

theorem GetPositions_loop_api (env : ComEnv) (self : IAPIFacadeImpl)
    (spPositions : ICQGPositions) :
    ∀ (n : Nat) (i : Int) (positions : Positions) (calls : List GwCall),
      (GetPositions.loop env self spPositions n i positions calls).facade.m_api = self.m_api := by
  intro n
  induction n with
  | zero => intro i positions calls; rfl
  | succ n ih =>
    intro i positions calls
    simp only [GetPositions.loop]
    repeat' split
    all_goals simp [ih]

theorem GetPositions_api (env : ComEnv) (self : IAPIFacadeImpl) (gwAccountID : ID)
    (positions : Positions) :
    (GetPositions env self gwAccountID positions).facade.m_api = self.m_api := by
  simp only [GetPositions]
  repeat' split
  all_goals simp_all [notInitialized, crash, reserveNegative, getAccount_api,
    GetPositions_loop_api]

theorem GetAllWorkingOrdersCount_api (env : ComEnv) (self : IAPIFacadeImpl) (gwAccountID : ID) :
    (GetAllWorkingOrdersCount env self gwAccountID).facade.m_api = self.m_api := by
  simp only [GetAllWorkingOrdersCount]
  repeat' split
  all_goals simp_all [notInitialized, crash, getAccount_api, returnWorkingOrders]

theorem GetInternalWorkingOrdersCount_api (env : ComEnv) (self : IAPIFacadeImpl)
    (gwAccountID : ID) :
    (GetInternalWorkingOrdersCount env self gwAccountID).facade.m_api = self.m_api := by
  simp only [GetInternalWorkingOrdersCount]
  repeat' split
  all_goals simp_all [notInitialized, crash, getAccount_api, returnWorkingOrders]

theorem PlaceOrder_api (env : ComEnv) (self : IAPIFacadeImpl) (type : OrderType)
    (gwAccountID : ID) (symbolFullName : String) (buy : Bool) (quantity : Quantity)
    (description : String) (price stopLimitPrice : OrderPrice) :
    (PlaceOrder env self type gwAccountID symbolFullName buy quantity description price
      stopLimitPrice).facade.m_api = self.m_api := by
  simp only [PlaceOrder]
  repeat' split
  all_goals simp_all [notInitialized, crash]

theorem CancelOrder_api (env : ComEnv) (self : IAPIFacadeImpl) (orderGuid : String) :
    (CancelOrder env self orderGuid).facade.m_api = self.m_api := by
  simp only [CancelOrder]
  repeat' split
  all_goals simp_all [notInitialized, crash]

theorem CancelAllOrders_accountBlock_api (env : ComEnv) (self : IAPIFacadeImpl) (cel : ICQGCEL)
    (gwAccountID : ID) (out : Outcome Bool)
    (h : CancelAllOrders.accountBlock env self cel gwAccountID = .error out) :
    out.facade.m_api = self.m_api := by
  simp only [CancelAllOrders.accountBlock] at h
  repeat' split at h
  all_goals cases h <;> simp [crash]

theorem CancelAllOrders_instrumentBlock_api (env : ComEnv) (self : IAPIFacadeImpl)
    (cel : ICQGCEL) (symbolFullName : String) (calls : List GwCall) (out : Outcome Bool)
    (h : CancelAllOrders.instrumentBlock env self cel symbolFullName calls = .error out) :
    out.facade.m_api = self.m_api := by
  simp only [CancelAllOrders.instrumentBlock] at h
  repeat' split at h
  all_goals cases h <;> simp [crash]

theorem CancelAllOrders_api (env : ComEnv) (self : IAPIFacadeImpl) (gwAccountID : ID)
    (symbolFullName : String) :
    (CancelAllOrders env self gwAccountID symbolFullName).facade.m_api = self.m_api := by
  simp only [CancelAllOrders]
  split
  · simp_all [notInitialized]
  · rename_i api hapi
    split
    · rename_i out hout
      rw [CancelAllOrders_accountBlock_api env _ _ _ out hout]
    · split
      · rename_i out hout
        rw [CancelAllOrders_instrumentBlock_api env _ _ _ _ out hout]
      · split <;> simp

@[simp] theorem RETURN_CEL_RESULT_calls (env : ComEnv) (self : IAPIFacadeImpl)
    (calls : List GwCall) (hr : HRESULT) : (RETURN_CEL_RESULT env self calls hr).calls = calls := by
  unfold RETURN_CEL_RESULT
  split <;> rfl

@[simp] theorem RETURN_CEL_RESULT_api (env : ComEnv) (self : IAPIFacadeImpl)
    (calls : List GwCall) (hr : HRESULT) :
    (RETURN_CEL_RESULT env self calls hr).facade.m_api = self.m_api := by
  unfold RETURN_CEL_RESULT
  split <;> rfl

theorem RequestSymbol_api (env : ComEnv) (self : IAPIFacadeImpl) (symbol : String) :
    (RequestSymbol env self symbol).facade.m_api = self.m_api := by
  simp only [RequestSymbol]
  split <;> simp_all [notInitialized]

theorem LogonToGateway_api (env : ComEnv) (self : IAPIFacadeImpl) (user password : String) :
    (LogonToGateway env self user password).facade.m_api = self.m_api := by
  simp only [LogonToGateway]
  split <;> simp_all [notInitialized]

theorem RequestBars_api (env : ComEnv) (self : IAPIFacadeImpl) (barsRequest : BarsRequest) :
    (RequestBars env self barsRequest).facade.m_api = self.m_api := by
  simp only [RequestBars]
  repeat' split
  all_goals simp_all [notInitialized, crash]

theorem HostCall_after_api (env : ComEnv) (self : IAPIFacadeImpl) (c : HostCall)
    (h : self.m_api.isSome = true) : (c.after env self).m_api = self.m_api := by
  cases c <;>
    simp [HostCall.after, Initialize_api_of_isSome, RequestSymbol_api, RequestBars_api,
      LogonToGateway_api, GetAccounts_api, GetPositions_api,
      GetAllWorkingOrdersCount_api, GetInternalWorkingOrdersCount_api, PlaceOrder_api,
      CancelOrder_api, CancelAllOrders_api, h]

theorem afterCalls_api (calls : List (ComEnv × HostCall)) :
    ∀ self : IAPIFacadeImpl, self.m_api.isSome = true →
      (afterCalls self calls).m_api = self.m_api := by
  induction calls with
  | nil => intro self _; rfl
  | cons c cs ih =>
    intro self h
    have hstep := HostCall_after_api c.1 self c.2 h
    have hsome : (c.2.after c.1 self).m_api.isSome = true := by rw [hstep]; exact h
    simp only [afterCalls, List.foldl_cons] at ih ⊢
    rw [ih _ hsome, hstep]

theorem initializeCQGCEL_ok (env : ComEnv) (coCreate : HRESULT × Option ICQGCEL) (cel : ICQGCEL)
    (calls : List GwCall) (h : initializeCQGCEL env coCreate = (.ok cel, calls)) :
    coCreate.2 = some cel := by
  simp only [initializeCQGCEL] at h
  repeat' split at h
  all_goals simp_all

theorem Initialize_true (env : ComEnv) (coCreate : HRESULT × Option ICQGCEL)
    (self : IAPIFacadeImpl) (events : IAPIEventsPtr)
    (h : (Initialize env coCreate self events).result = .ok true) :
    ∃ cel, coCreate.2 = some cel ∧
      (Initialize env coCreate self events).facade.m_api =
        some { m_spCQGCEL := cel, m_events := events } := by
  by_cases hs : self.m_api.isSome = true
  · simp [Initialize, hs] at h
  · rcases hinit : initializeCQGCEL env coCreate with ⟨r, calls⟩
    cases r with
    | ok cel =>
      refine ⟨cel, initializeCQGCEL_ok env coCreate cel calls hinit, ?_⟩
      simp [Initialize, hs, CQGCELWrapper.new, hinit]
    | error f =>
      cases f <;> simp [Initialize, hs, CQGCELWrapper.new, hinit, crash] at h

/-- C10. After an Initialize that returned true the facade is valid and holds the
connector just created together with the sink passed in; every sequence of further
calls of the embedded operations leaves that connector and sink in place; and on
every facade holding them (so at every later moment) an Initialize call, with any
events sink and whatever CoCreateInstance would answer, returns false with the last
error "CQGCEL already initialized", makes no gateway call (no second connector is
created), and leaves the facade valid with the same connector and sink. -/
theorem Initialize_at_most_once (env : ComEnv) (coCreate : HRESULT × Option ICQGCEL)
    (self : IAPIFacadeImpl) (events : IAPIEventsPtr)
    (hok : (Initialize env coCreate self events).result = .ok true) :
    IsValid (Initialize env coCreate self events).facade = true ∧
      ∃ cel, coCreate.2 = some cel ∧
        (Initialize env coCreate self events).facade.m_api =
          some { m_spCQGCEL := cel, m_events := events } ∧
        (∀ calls : List (ComEnv × HostCall),
          (afterCalls (Initialize env coCreate self events).facade calls).m_api =
            some { m_spCQGCEL := cel, m_events := events }) ∧
        (∀ (later : IAPIFacadeImpl) (env2 : ComEnv) (coCreate2 : HRESULT × Option ICQGCEL)
          (events2 : IAPIEventsPtr),
          later.m_api = some { m_spCQGCEL := cel, m_events := events } →
            (Initialize env2 coCreate2 later events2).result = .ok false ∧
            GetLastError (Initialize env2 coCreate2 later events2).facade =
              "CQGCEL already initialized" ∧
            (Initialize env2 coCreate2 later events2).calls = [] ∧
            (Initialize env2 coCreate2 later events2).facade.m_api =
              some { m_spCQGCEL := cel, m_events := events } ∧
            IsValid (Initialize env2 coCreate2 later events2).facade = true) := by
  obtain ⟨cel, hcel, hapi⟩ := Initialize_true env coCreate self events hok
  have hsome : (Initialize env coCreate self events).facade.m_api.isSome = true := by
    rw [hapi]
    rfl
  refine ⟨hsome, cel, hcel, hapi, ?_, ?_⟩
  · intro calls
    rw [afterCalls_api calls _ hsome, hapi]
  · intro later env2 coCreate2 events2 hlater
    simp [Initialize, GetLastError, IsValid, hlater]

/-- The scenario of C10: a facade initialized on the sample connector refuses a second
Initialize, with another sink, after an order was placed and all orders were cancelled. -/
theorem Initialize_at_most_once_witness :
    (Initialize {} (S_OK, some sampleCEL) { m_api := none, m_lastError := "" } (some 0)).result =
        .ok true ∧
      (Initialize {} (S_OK, some sampleCEL)
          (afterCalls
            (Initialize {} (S_OK, some sampleCEL) { m_api := none, m_lastError := "" }
              (some 0)).facade
            [(({} : ComEnv), HostCall.PlaceOrder OrderType.Market 1 "X" true 1 "desc"
                OrderPrice.default OrderPrice.default),
              (({} : ComEnv), HostCall.CancelAllOrders 0 "")])
          (some 1)).result = .ok false :=
  have ⟨_, _, _, _, hkeep, hrefuse⟩ := Initialize_at_most_once {} (S_OK, some sampleCEL)
    { m_api := none, m_lastError := "" } (some 0) rfl
  ⟨rfl, (hrefuse _ {} (S_OK, some sampleCEL) (some 1) (hkeep _)).1⟩

/-! ## Initialize: construction failure -/

theorem IsValid_eq_false (self : IAPIFacadeImpl) (h : IsValid self = false) : self.m_api = none := by
  cases hapi : self.m_api with
  | none => rfl
  | some api => simp [IsValid, hapi] at h

theorem HostCall_after_api_of_not_initialize (env : ComEnv) (self : IAPIFacadeImpl) (c : HostCall)
    (h : c.isInitialize = false) : (c.after env self).m_api = self.m_api := by
  cases c <;>
    simp_all [HostCall.after, HostCall.isInitialize, RequestSymbol_api, RequestBars_api,
      LogonToGateway_api, GetAccounts_api, GetPositions_api,
      GetAllWorkingOrdersCount_api, GetInternalWorkingOrdersCount_api, PlaceOrder_api,
      CancelOrder_api, CancelAllOrders_api]

theorem afterCalls_api_of_not_initialize (calls : List (ComEnv × HostCall)) :
    ∀ self : IAPIFacadeImpl, (∀ c ∈ calls, c.2.isInitialize = false) →
      (afterCalls self calls).m_api = self.m_api := by
  induction calls with
  | nil => intro self _; rfl
  | cons c cs ih =>
    intro self h
    have hstep := HostCall_after_api_of_not_initialize c.1 self c.2 (h c (List.mem_cons_self _ _))
    have hrest : ∀ d ∈ cs, d.2.isInitialize = false := fun d hd => h d (List.mem_cons_of_mem _ hd)
    simp only [afterCalls, List.foldl_cons] at ih ⊢
    rw [ih _ hrest, hstep]

theorem unable_ne_empty (what : String) : "Unable to initialize CQGCEL: " ++ what ≠ "" := by
  intro h
  have hlen := congrArg String.length h
  rw [String.length_append] at hlen
  have h29 : "Unable to initialize CQGCEL: ".length = 29 := by decide
  have h0 : "".length = 0 := by decide
  omega

/-- C11 as stated fails in its last clause: a facade whose first Initialize failed
(CoCreateInstance answered E_FAIL) is recovered in place by a second Initialize on the
same instance, after which it is valid and its operations reach the gateway. -/
theorem Initialize_no_recovery_counterexample :
    (Initialize {} (E_FAIL, none) { m_api := none, m_lastError := "" } (some 0)).result =
        .ok false ∧
      IsValid (Initialize {} (E_FAIL, none) { m_api := none, m_lastError := "" }
        (some 0)).facade = false ∧
      (Initialize {} (S_OK, some sampleCEL)
        (Initialize {} (E_FAIL, none) { m_api := none, m_lastError := "" } (some 0)).facade
        (some 0)).result = .ok true ∧
      IsValid (Initialize {} (S_OK, some sampleCEL)
        (Initialize {} (E_FAIL, none) { m_api := none, m_lastError := "" } (some 0)).facade
        (some 0)).facade = true ∧
      (CancelAllOrders {} (Initialize {} (S_OK, some sampleCEL)
        (Initialize {} (E_FAIL, none) { m_api := none, m_lastError := "" } (some 0)).facade
        (some 0)).facade).result = .ok true ∧
      (CancelAllOrders {} (Initialize {} (S_OK, some sampleCEL)
        (Initialize {} (E_FAIL, none) { m_api := none, m_lastError := "" } (some 0)).facade
        (some 0)).facade).calls = [GwCall.CancelAllOrders none none] :=
  ⟨rfl, rfl, rfl, rfl, rfl, rfl⟩

/-- C11, amended. If Initialize is called on a facade that is not initialized and the
construction of the connector wrapper raises an exception, Initialize returns false,
raising nothing, with a non-empty last error beginning "Unable to initialize CQGCEL: ",
and IsValid() is false.  The facade stays invalid through every sequence of calls of the
embedded operations other than Initialize, and on an invalid facade each of
RequestSymbol, RequestBars, LogonToGateway, GetAllWorkingOrdersCount,
GetInternalWorkingOrdersCount, PlaceOrder, CancelOrder and CancelAllOrders returns its
failure value (false, the empty string, 0) with the last error "CQGCVEL not initialized"
and makes no gateway call.  A later Initialize on the same instance constructs the
connector again, and when that construction succeeds it returns true and the facade is
valid. -/
theorem Initialize_construction_failure (env : ComEnv) (coCreate : HRESULT × Option ICQGCEL)
    (self : IAPIFacadeImpl) (events : IAPIEventsPtr) (f : Fault)
    (hnew : IsValid self = false)
    (hfail : (CQGCELWrapper.new env coCreate events).1 = .error f)
    (hexc : f.isException = true) :
    (Initialize env coCreate self events).result = .ok false ∧
      (∃ what, GetLastError (Initialize env coCreate self events).facade =
        "Unable to initialize CQGCEL: " ++ what) ∧
      GetLastError (Initialize env coCreate self events).facade ≠ "" ∧
      IsValid (Initialize env coCreate self events).facade = false ∧
      (∀ calls : List (ComEnv × HostCall), (∀ c ∈ calls, c.2.isInitialize = false) →
        IsValid (afterCalls (Initialize env coCreate self events).facade calls) = false) ∧
      (∀ (later : IAPIFacadeImpl) (env2 : ComEnv), IsValid later = false →
        (∀ symbol, (RequestSymbol env2 later symbol).result = .ok false ∧
          GetLastError (RequestSymbol env2 later symbol).facade = "CQGCVEL not initialized" ∧
          (RequestSymbol env2 later symbol).calls = []) ∧
        (∀ barsRequest, (RequestBars env2 later barsRequest).result = .ok "" ∧
          GetLastError (RequestBars env2 later barsRequest).facade = "CQGCVEL not initialized" ∧
          (RequestBars env2 later barsRequest).calls = []) ∧
        (∀ user password, (LogonToGateway env2 later user password).result = .ok false ∧
          GetLastError (LogonToGateway env2 later user password).facade =
            "CQGCVEL not initialized" ∧
          (LogonToGateway env2 later user password).calls = []) ∧
        (∀ gwAccountID, (GetAllWorkingOrdersCount env2 later gwAccountID).result = .ok 0 ∧
          GetLastError (GetAllWorkingOrdersCount env2 later gwAccountID).facade =
            "CQGCVEL not initialized" ∧
          (GetAllWorkingOrdersCount env2 later gwAccountID).calls = []) ∧
        (∀ gwAccountID, (GetInternalWorkingOrdersCount env2 later gwAccountID).result = .ok 0 ∧
          GetLastError (GetInternalWorkingOrdersCount env2 later gwAccountID).facade =
            "CQGCVEL not initialized" ∧
          (GetInternalWorkingOrdersCount env2 later gwAccountID).calls = []) ∧
        (∀ type gwAccountID symbolFullName buy quantity description price stopLimitPrice,
          (PlaceOrder env2 later type gwAccountID symbolFullName buy quantity description price
            stopLimitPrice).result = .ok "" ∧
          GetLastError (PlaceOrder env2 later type gwAccountID symbolFullName buy quantity
            description price stopLimitPrice).facade = "CQGCVEL not initialized" ∧
          (PlaceOrder env2 later type gwAccountID symbolFullName buy quantity description price
            stopLimitPrice).calls = []) ∧
        (∀ orderGuid, (CancelOrder env2 later orderGuid).result = .ok false ∧
          GetLastError (CancelOrder env2 later orderGuid).facade = "CQGCVEL not initialized" ∧
          (CancelOrder env2 later orderGuid).calls = []) ∧
        (∀ gwAccountID symbolFullName,
          (CancelAllOrders env2 later gwAccountID symbolFullName).result = .ok false ∧
          GetLastError (CancelAllOrders env2 later gwAccountID symbolFullName).facade =
            "CQGCVEL not initialized" ∧
          (CancelAllOrders env2 later gwAccountID symbolFullName).calls = [])) ∧
      (∀ (later : IAPIFacadeImpl) (env2 : ComEnv) (coCreate2 : HRESULT × Option ICQGCEL)
        (events2 : IAPIEventsPtr) (api : CQGCELWrapper), IsValid later = false →
        (CQGCELWrapper.new env2 coCreate2 events2).1 = .ok api →
          (Initialize env2 coCreate2 later events2).result = .ok true ∧
          IsValid (Initialize env2 coCreate2 later events2).facade = true) := by
  have hnone := IsValid_eq_false self hnew
  rcases hw : CQGCELWrapper.new env coCreate events with ⟨r, wcalls⟩
  rw [hw] at hfail
  simp only at hfail
  subst hfail
  have hapi : (Initialize env coCreate self events).facade.m_api = none := by
    cases f <;> simp_all [Initialize, Fault.isException]
  refine ⟨?_, ?_, ?_, ?_, ?_, ?_, ?_⟩
  · cases f <;> simp_all [Initialize, Fault.isException]
  · cases f with
    | runtime_error what => exact ⟨what, by simp [Initialize, GetLastError, hnone, hw]⟩
    | length_error what => exact ⟨what, by simp [Initialize, GetLastError, hnone, hw]⟩
    | unknownException => exact ⟨"Unknown exception", by simp [Initialize, GetLastError, hnone, hw]⟩
    | nullDeref => simp [Fault.isException] at hexc
  · cases f with
    | runtime_error what =>
      simpa [Initialize, GetLastError, hnone, hw] using unable_ne_empty what
    | length_error what =>
      simpa [Initialize, GetLastError, hnone, hw] using unable_ne_empty what
    | unknownException => simp [Initialize, GetLastError, hnone, hw]
    | nullDeref => simp [Fault.isException] at hexc
  · simp [IsValid, hapi]
  · intro calls hcalls
    simp [IsValid, afterCalls_api_of_not_initialize calls _ hcalls, hapi]
  · intro later env2 hlater
    have hl := IsValid_eq_false later hlater
    refine ⟨?_, ?_, ?_, ?_, ?_, ?_, ?_, ?_⟩ <;> intros <;>
      simp [RequestSymbol, RequestBars, LogonToGateway, GetAllWorkingOrdersCount,
        GetInternalWorkingOrdersCount, PlaceOrder, CancelOrder, CancelAllOrders, GetLastError,
        notInitialized, hl]
  · intro later env2 coCreate2 events2 api hlater hnew2
    have hl := IsValid_eq_false later hlater
    rcases hw2 : CQGCELWrapper.new env2 coCreate2 events2 with ⟨r2, calls2⟩
    rw [hw2] at hnew2
    simp only at hnew2
    subst hnew2
    simp [Initialize, IsValid, hl, hw2]

/-- The amended C11 at a facade whose construction fails because CoCreateInstance
answers E_FAIL. -/
theorem Initialize_construction_failure_witness :
    (Initialize {} (E_FAIL, none) { m_api := none, m_lastError := "" } (some 0)).result =
        .ok false ∧
      (RequestBars {} (Initialize {} (E_FAIL, none) { m_api := none, m_lastError := "" }
        (some 0)).facade { symbol := "EP" }).result = .ok "" :=
  have h := Initialize_construction_failure {} (E_FAIL, none) { m_api := none, m_lastError := "" }
    (some 0) _ rfl rfl rfl
  ⟨h.1, ((h.2.2.2.2.2.1 _ {} h.2.2.2.1).2.1 { symbol := "EP" }).1⟩

/-! ## RequestBars -/

/-- C12, the code at the request of the test application (useIndexRange = true,
startIndex = 0, endIndex = -48, default dates): both range bounds reach the gateway as
dates, the default date 0, and no index is submitted.  In general the outcome of
RequestBars depends on none of useIndexRange, startIndex and endIndex. -/
theorem RequestBars_index_range_evaluated :
    (RequestBars {} sampleFacade sampleBarsRequest).calls =
        [GwCall.CreateTimedBarsRequest, GwCall.Request_put_Symbol "EP",
          GwCall.Request_put_RangeStart (VARIANT.date 0),
          GwCall.Request_put_RangeEnd (VARIANT.date 0),
          GwCall.Request_put_IntradayPeriod 30,
          GwCall.RequestTimedBars
            { symbol := "EP", rangeStart := VARIANT.date 0, rangeEnd := VARIANT.date 0,
              intradayPeriod := 30 }] ∧
      GwCall.Request_put_RangeStart (VARIANT.i4 0) ∉
        (RequestBars {} sampleFacade sampleBarsRequest).calls ∧
      GwCall.Request_put_RangeEnd (VARIANT.i4 (-48)) ∉
        (RequestBars {} sampleFacade sampleBarsRequest).calls ∧
      (RequestBars {} sampleFacade sampleBarsRequest).calls =
        (RequestBars {} sampleFacade { sampleBarsRequest with endIndex := -96 }).calls ∧
      (∀ (env : ComEnv) (self : IAPIFacadeImpl) (r : BarsRequest) (useIndexRange : Bool)
        (startIndex endIndex : Int),
        RequestBars env self
            { r with useIndexRange := useIndexRange, startIndex := startIndex,
                     endIndex := endIndex } =
          RequestBars env self r) := by
  have hcalls : (RequestBars {} sampleFacade sampleBarsRequest).calls =
      [GwCall.CreateTimedBarsRequest, GwCall.Request_put_Symbol "EP",
        GwCall.Request_put_RangeStart (VARIANT.date 0),
        GwCall.Request_put_RangeEnd (VARIANT.date 0),
        GwCall.Request_put_IntradayPeriod 30,
        GwCall.RequestTimedBars
          { symbol := "EP", rangeStart := VARIANT.date 0, rangeEnd := VARIANT.date 0,
            intradayPeriod := 30 }] := rfl
  refine ⟨hcalls, ?_, ?_, rfl, fun _ _ _ _ _ _ => rfl⟩
  · rw [hcalls]
    simp
  · rw [hcalls]
    simp

/-- C13, the code at two requests that differ only in sessionsFilter (31, all sessions,
and 0, primary only): they make the same gateway calls and submit the same request, which
carries the symbol and the intraday period and no sessions filter.  In general the
outcome of RequestBars does not depend on sessionsFilter. -/
theorem RequestBars_sessions_filter_evaluated :
    sampleBarsRequest.sessionsFilter = 31 ∧
      (RequestBars {} sampleFacade sampleBarsRequest).calls =
        (RequestBars {} sampleFacade { sampleBarsRequest with sessionsFilter := 0 }).calls ∧
      (RequestBars {} sampleFacade sampleBarsRequest).result =
        (RequestBars {} sampleFacade { sampleBarsRequest with sessionsFilter := 0 }).result ∧
      GwCall.Request_put_Symbol "EP" ∈ (RequestBars {} sampleFacade sampleBarsRequest).calls ∧
      GwCall.Request_put_IntradayPeriod 30 ∈
        (RequestBars {} sampleFacade sampleBarsRequest).calls ∧
      (∀ (env : ComEnv) (self : IAPIFacadeImpl) (r : BarsRequest) (sessionsFilter : Int),
        RequestBars env self { r with sessionsFilter := sessionsFilter } =
          RequestBars env self r) := by
  have hcalls : (RequestBars {} sampleFacade sampleBarsRequest).calls =
      [GwCall.CreateTimedBarsRequest, GwCall.Request_put_Symbol "EP",
        GwCall.Request_put_RangeStart (VARIANT.date 0),
        GwCall.Request_put_RangeEnd (VARIANT.date 0),
        GwCall.Request_put_IntradayPeriod 30,
        GwCall.RequestTimedBars
          { symbol := "EP", rangeStart := VARIANT.date 0, rangeEnd := VARIANT.date 0,
            intradayPeriod := 30 }] := rfl
  refine ⟨rfl, rfl, rfl, ?_, ?_, fun _ _ _ _ => rfl⟩
  · rw [hcalls]
    simp
  · rw [hcalls]
    simp

/-! ## Bars results -/

theorem RETURN_CEL_OBJ_RESULT_result_map {α : Type} (env : ComEnv) (self : IAPIFacadeImpl)
    (calls : List GwCall) (obj : IFace) (hr : HRESULT) (res : α) :
    (RETURN_CEL_OBJ_RESULT env self calls obj hr res).result =
      (GetCOMError env obj hr).map fun _ => res := by
  unfold RETURN_CEL_OBJ_RESULT
  cases GetCOMError env obj hr <;> rfl

theorem OnTimedBarsResolved_loop_length (series : ICQGTimedBars) :
    ∀ (n : Nat) (i : Int) (acc out : BarInfos),
      CQGCELWrapper.OnTimedBarsResolved.loop series n i acc = some out →
        out.length = acc.length + n := by
  intro n
  induction n with
  | zero =>
    intro i acc out h
    simp only [CQGCELWrapper.OnTimedBarsResolved.loop, Option.some.injEq] at h
    subst h
    rfl
  | succ n ih =>
    intro i acc out h
    simp only [CQGCELWrapper.OnTimedBarsResolved.loop] at h
    split at h
    · cases h
    · have := ih _ _ _ h
      simp only [List.length_append, List.length_singleton] at this
      omega

theorem describedError_of_describes (cqgerr : Option ICQGError) (e : ICQGError)
    (h : cqgerr = some e) (hvalid : e.isValid = VARIANT_TRUE) :
    CQGCELWrapper.describedError cqgerr = e.description := by
  subst h
  simp [CQGCELWrapper.describedError, CQGCELWrapper.checkValid, hvalid]

theorem describedError_eq_empty_iff (cqgerr : Option ICQGError) :
    CQGCELWrapper.describedError cqgerr = "" ↔ ¬ describesError cqgerr := by
  cases cqgerr with
  | none => simp [CQGCELWrapper.describedError, describesError]
  | some e =>
    by_cases hvalid : e.isValid = VARIANT_TRUE <;>
      simp [CQGCELWrapper.describedError, CQGCELWrapper.checkValid, describesError, hvalid]

/-- What a bars-resolved notification delivers: nothing, or exactly one `OnBarsReceived`
whose members are the series id, the error text, the content the stack gave to
`requestedCount`, and the bars of the series. -/
theorem OnTimedBarsResolved_events (env : ComEnv) (w : CQGCELWrapper) (series : ICQGTimedBars)
    (cqgerr : Option ICQGError) :
    (w.OnTimedBarsResolved env (some series) cqgerr).events = [] ∨
      ∃ barInfos : BarInfos,
        0 ≤ series.count ∧
        CQGCELWrapper.OnTimedBarsResolved.loop series series.count.toNat 0 [] = some barInfos ∧
        (w.OnTimedBarsResolved env (some series) cqgerr).result = .ok S_OK ∧
        (w.OnTimedBarsResolved env (some series) cqgerr).events =
          [HostEvent.OnBarsReceived
            { requestGuid := series.id
              error := CQGCELWrapper.OnTimedBarsResolved.error cqgerr series.status
              requestedCount := env.stackRequestedCount
              bars := barInfos }] := by
  cases hsink : w.m_events with
  | none => left; simp [CQGCELWrapper.OnTimedBarsResolved, hsink]
  | some sink =>
    by_cases hneg : series.count < 0
    · left
      simp [CQGCELWrapper.OnTimedBarsResolved, hsink, hneg]
    · cases hloop : CQGCELWrapper.OnTimedBarsResolved.loop series series.count.toNat 0 [] with
      | none =>
        left
        simp [CQGCELWrapper.OnTimedBarsResolved, hsink, hneg, hloop]
      | some barInfos =>
        right
        refine ⟨barInfos, by omega, rfl, ?_, ?_⟩ <;>
          simp [CQGCELWrapper.OnTimedBarsResolved, hsink, hneg, hloop]

/-- C15 as stated fails in two clauses, both at the bars-resolved notification of a
series whose status is not Success and which holds two bars, accompanied by a valid error
object whose description is empty.  The delivered error is not the description of the
valid error object: the handler replaces the empty description by "Bars request failed,
cancelled or pending.".  And the result with this non-empty error carries both bars. -/
theorem OnTimedBarsResolved_error_or_series_counterexample :
    partialTimedBars.status ≠ eRequestStatus.rsSuccess ∧
      (CQGCELWrapper.checkValid (some silentError.isValid)).1 = true ∧
      ∃ bars, (sampleApi.OnTimedBarsResolved {} (some partialTimedBars) (some silentError)).events =
          [HostEvent.OnBarsReceived bars] ∧
        bars.error = "Bars request failed, cancelled or pending." ∧
        bars.error ≠ silentError.description ∧
        bars.error ≠ "" ∧
        bars.bars.length = 2 :=
  ⟨by decide, rfl, _, rfl, rfl, by decide, by decide, rfl⟩

/-- C15, amended. For every Bars result a bars-resolved notification delivers: its
error is empty if and only if the request status is Success and no valid error object
with a non-empty description accompanies the notification; when a valid error object
with a non-empty description is present its description is the error; when there is no
such object (none, an invalid one, or a valid one whose description is empty) and the
status is not Success the error is "Bars request failed, cancelled or pending."; and
whether or not the error is empty, the result carries the bars of the gateway series,
Count of them. -/
theorem OnTimedBarsResolved_error (env : ComEnv) (w : CQGCELWrapper) (series : ICQGTimedBars)
    (cqgerr : Option ICQGError) (bars : Bars)
    (hdelivered : HostEvent.OnBarsReceived bars ∈
      (w.OnTimedBarsResolved env (some series) cqgerr).events) :
    (bars.error = "" ↔ series.status = eRequestStatus.rsSuccess ∧ ¬ describesError cqgerr) ∧
      (∀ e, cqgerr = some e → e.isValid = VARIANT_TRUE → e.description ≠ "" →
        bars.error = e.description) ∧
      (¬ describesError cqgerr → series.status ≠ eRequestStatus.rsSuccess →
        bars.error = "Bars request failed, cancelled or pending.") ∧
      CQGCELWrapper.OnTimedBarsResolved.loop series series.count.toNat 0 [] = some bars.bars ∧
      (bars.bars.length : Int) = series.count ∧
      (∀ e, cqgerr = some e → e.description = "" →
        series.status ≠ eRequestStatus.rsSuccess →
        bars.error = "Bars request failed, cancelled or pending.") := by
  rcases OnTimedBarsResolved_events env w series cqgerr with h | ⟨barInfos, hcount, hloop, _, h⟩
  · rw [h] at hdelivered
    cases hdelivered
  · rw [h, List.mem_singleton] at hdelivered
    cases hdelivered
    have hfixed : "Bars request failed, cancelled or pending." ≠ "" := by decide
    have hlen := OnTimedBarsResolved_loop_length series _ _ _ _ hloop
    refine ⟨?_, ?_, ?_, hloop, ?_, ?_⟩
    · by_cases hd : CQGCELWrapper.describedError cqgerr = ""
      · have hnd := (describedError_eq_empty_iff cqgerr).mp hd
        by_cases hst : series.status = eRequestStatus.rsSuccess <;>
          simp [CQGCELWrapper.OnTimedBarsResolved.error, hd, hst, hnd, hfixed]
      · have hnd : ¬¬ describesError cqgerr := fun hn => hd ((describedError_eq_empty_iff cqgerr).mpr hn)
        simp [CQGCELWrapper.OnTimedBarsResolved.error, hd, hnd]
    · intro e he hvalid hdesc
      have hd := describedError_of_describes cqgerr e he hvalid
      simp [CQGCELWrapper.OnTimedBarsResolved.error, hd, hdesc]
    · intro hnd hst
      have hd := (describedError_eq_empty_iff cqgerr).mpr hnd
      simp [CQGCELWrapper.OnTimedBarsResolved.error, hd, hst]
    · simp only [List.length_nil, Nat.zero_add] at hlen
      simp only [hlen]
      omega
    · intro e he hempty hst
      have hnd : ¬ describesError cqgerr := by
        rintro ⟨e2, he2, _, hne⟩
        rw [he] at he2
        cases he2
        exact hne hempty
      have hd := (describedError_eq_empty_iff cqgerr).mpr hnd
      simp [CQGCELWrapper.OnTimedBarsResolved.error, hd, hst]

/-- The amended C15 at the series that holds two bars and is not reported successful,
accompanied by a valid error object whose description is empty: the fixed text is the
error and both bars are delivered. -/
theorem OnTimedBarsResolved_error_witness :
    ∃ bars, HostEvent.OnBarsReceived bars ∈
        (sampleApi.OnTimedBarsResolved {} (some partialTimedBars) (some silentError)).events ∧
      bars.error = "Bars request failed, cancelled or pending." ∧
      (bars.bars.length : Int) = partialTimedBars.count :=
  ⟨_, List.mem_singleton.mpr rfl,
    (OnTimedBarsResolved_error {} sampleApi partialTimedBars (some silentError) _
      (List.mem_singleton.mpr rfl)).2.2.2.2.2 silentError rfl rfl (by decide),
    (OnTimedBarsResolved_error {} sampleApi partialTimedBars (some silentError) _
      (List.mem_singleton.mpr rfl)).2.2.2.2.1⟩

/-- C16, the code at the bars-resolved notification of the series that answers the
test application's request (endIndex = -48): the delivered requestedCount is whatever
the uninitialised member of the local `Bars` holds, 0 in one run and 12345 in another,
and in general never anything else; nothing of the request or the series reaches it. -/
theorem OnTimedBarsResolved_requestedCount_evaluated :
    (RequestBars {} sampleFacade sampleBarsRequest).result = .ok sampleTimedBars.id ∧
      (∃ bars, (sampleApi.OnTimedBarsResolved { stackRequestedCount := 0 }
            (some sampleTimedBars) none).events = [HostEvent.OnBarsReceived bars] ∧
          bars.requestedCount = 0) ∧
      (∃ bars, (sampleApi.OnTimedBarsResolved { stackRequestedCount := 12345 }
            (some sampleTimedBars) none).events = [HostEvent.OnBarsReceived bars] ∧
          bars.requestedCount = 12345) ∧
      (∀ (env : ComEnv) (w : CQGCELWrapper) (series : ICQGTimedBars)
        (cqgerr : Option ICQGError) (bars : Bars),
        HostEvent.OnBarsReceived bars ∈ (w.OnTimedBarsResolved env (some series) cqgerr).events →
          bars.requestedCount = env.stackRequestedCount) := by
  refine ⟨rfl, ⟨_, rfl, rfl⟩, ⟨_, rfl, rfl⟩, ?_⟩
  intro env w series cqgerr bars hmem
  rcases OnTimedBarsResolved_events env w series cqgerr with h | ⟨barInfos, _, _, _, h⟩
  · rw [h] at hmem
    cases hmem
  · rw [h, List.mem_singleton] at hmem
    cases hmem
    rfl

/-! ## Order-changed notifications -/

/-- What an order-changed notification delivers: nothing, with the handler not
returning or no sink registered, or exactly one `OnOrderChanged`. -/
theorem OnOrderChanged_events (env : ComEnv) (w : CQGCELWrapper) (order : Option ICQGOrder)
    (fill : Option ICQGFill) (cqgerr : Option ICQGError) :
    ((w.OnOrderChanged env order fill cqgerr).events = [] ∧
        (w.m_events = none ∨ ∃ f, (w.OnOrderChanged env order fill cqgerr).result = .error f)) ∨
      ∃ (o : ICQGOrder) (info : OrderInfo),
        order = some o ∧
        (w.OnOrderChanged env order fill cqgerr).result = .ok S_OK ∧
        (w.OnOrderChanged env order fill cqgerr).events = [HostEvent.OnOrderChanged info] ∧
        info.orderGuid = o.guid ∧
        info.final = decide (o.isFinal = VARIANT_TRUE) ∧
        info.error = CQGCELWrapper.describedError cqgerr ∧
        (∀ f, fill = some f → f.isValid = VARIANT_TRUE →
          0 ≤ f.legCount ∧ info.orderFills = CQGCELWrapper.OnOrderChanged.fills f f.legCount) ∧
        (∀ f, fill = some f → f.isValid ≠ VARIANT_TRUE → info.orderFills = []) ∧
        (fill = none → info.orderFills = []) := by
  cases hsink : w.m_events with
  | none => left; simp [CQGCELWrapper.OnOrderChanged, hsink]
  | some sink =>
    cases order with
    | none => left; simp [CQGCELWrapper.OnOrderChanged, hsink]
    | some o =>
      cases hacc : o.account with
      | none => left; simp [CQGCELWrapper.OnOrderChanged, hsink, hacc]
      | some gwAccountID =>
        cases fill with
        | none =>
          right
          refine ⟨o, ?info, rfl, ?res, ?ev, ?g, ?fin, ?err, ?f1, ?f2, ?f3⟩
          case info =>
            exact
              { orderGuid := o.guid, symbol := o.instrumentName, gwAccountID := gwAccountID,
                buy := decide (o.side = eOrderSide.osdBuy),
                final := decide (o.isFinal = VARIANT_TRUE), quantity := toUnsigned o.quantity,
                filledQty := toUnsigned o.filledQuantity, description := o.description,
                gwOrderID := o.originalOrderID, orderFills := [],
                error := CQGCELWrapper.describedError cqgerr }
          case ev => simp [CQGCELWrapper.OnOrderChanged, hsink, hacc]
          case res => simp [CQGCELWrapper.OnOrderChanged, hsink, hacc]
          case g => rfl
          case fin => rfl
          case err => rfl
          case f1 => intro f hf; cases hf
          case f2 => intro f hf; cases hf
          case f3 => intro _; rfl
        | some f =>
          by_cases hvalid : f.isValid = VARIANT_TRUE
          · by_cases hneg : f.legCount < 0
            · left
              simp [CQGCELWrapper.OnOrderChanged, CQGCELWrapper.checkValid, hsink, hacc, hvalid, hneg]
            · right
              refine ⟨o, ?info, rfl, ?res, ?ev, ?g, ?fin, ?err, ?f1, ?f2, ?f3⟩
              case info =>
                exact
                  { orderGuid := o.guid, symbol := o.instrumentName, gwAccountID := gwAccountID,
                    buy := decide (o.side = eOrderSide.osdBuy),
                    final := decide (o.isFinal = VARIANT_TRUE), quantity := toUnsigned o.quantity,
                    filledQty := toUnsigned o.filledQuantity, description := o.description,
                    gwOrderID := o.originalOrderID,
                    orderFills := CQGCELWrapper.OnOrderChanged.fills f f.legCount,
                    error := CQGCELWrapper.describedError cqgerr }
              case ev =>
                simp [CQGCELWrapper.OnOrderChanged, CQGCELWrapper.checkValid, hsink, hacc, hvalid,
                  hneg]
              case res =>
                simp [CQGCELWrapper.OnOrderChanged, CQGCELWrapper.checkValid, hsink, hacc, hvalid,
                  hneg]
              case g => rfl
              case fin => rfl
              case err => rfl
              case f1 =>
                intro f2 hf _
                cases hf
                exact ⟨by omega, rfl⟩
              case f2 =>
                intro f2 hf hnv
                cases hf
                exact absurd hvalid hnv
              case f3 => intro hf; cases hf
          · right
            refine ⟨o, ?info, rfl, ?res, ?ev, ?g, ?fin, ?err, ?f1, ?f2, ?f3⟩
            case info =>
              exact
                { orderGuid := o.guid, symbol := o.instrumentName, gwAccountID := gwAccountID,
                  buy := decide (o.side = eOrderSide.osdBuy),
                  final := decide (o.isFinal = VARIANT_TRUE), quantity := toUnsigned o.quantity,
                  filledQty := toUnsigned o.filledQuantity, description := o.description,
                  gwOrderID := o.originalOrderID, orderFills := [],
                  error := CQGCELWrapper.describedError cqgerr }
            case ev =>
              simp [CQGCELWrapper.OnOrderChanged, CQGCELWrapper.checkValid, hsink, hacc, hvalid]
            case res =>
              simp [CQGCELWrapper.OnOrderChanged, CQGCELWrapper.checkValid, hsink, hacc, hvalid]
            case g => rfl
            case fin => rfl
            case err => rfl
            case f1 =>
              intro f2 hf hv
              cases hf
              exact absurd hv hvalid
            case f2 => intro f2 hf _; rfl
            case f3 => intro hf; cases hf

/-- Without a registered sink no sequence of notifications delivers anything. -/
theorem deliverOrderChanges_no_sink (env : ComEnv) (w : CQGCELWrapper) (hsink : w.m_events = none)
    (changes : List OrderChange) : deliverOrderChanges env w changes = [] := by
  induction changes with
  | nil => rfl
  | cons n ns ih => simp [deliverOrderChanges, CQGCELWrapper.OnOrderChanged, hsink, ih]

/-- The final flags one notification contributes for a guid, as a one-element sequence. -/
theorem reportedFinals_cons (orderGuid : String) (n : OrderChange) (ns : List OrderChange) :
    reportedFinals orderGuid (n :: ns) = reportedFinals orderGuid [n] ++ reportedFinals orderGuid ns := by
  simp only [reportedFinals, List.filterMap_cons, List.filterMap_nil]
  split <;> simp

/-- What is delivered for a guid is a prefix of what the gateway reported for it, and all
of it when a sink is registered and every handler returned. -/
theorem deliveredFinals_relayed (env : ComEnv) (w : CQGCELWrapper) (orderGuid : String)
    (changes : List OrderChange) :
    deliveredFinals orderGuid (deliverOrderChanges env w changes) <+:
        reportedFinals orderGuid changes ∧
      (w.m_events ≠ none →
        (∀ n ∈ changes, ∃ hr, (w.OnOrderChanged env n.order n.fill n.cqgerr).result = .ok hr) →
        deliveredFinals orderGuid (deliverOrderChanges env w changes) =
          reportedFinals orderGuid changes) := by
  cases hsink : w.m_events with
  | none =>
    rw [deliverOrderChanges_no_sink env w hsink]
    exact ⟨List.nil_prefix, fun h => absurd rfl h⟩
  | some sink =>
    induction changes with
    | nil => exact ⟨List.prefix_refl _, fun _ _ => rfl⟩
    | cons n ns ih =>
      rw [reportedFinals_cons]
      rcases OnOrderChanged_events env w n.order n.fill n.cqgerr with
        ⟨hev, hwhy⟩ | ⟨o, info, ho, hres, hev, hguid, hfinal, _⟩
      · rcases hwhy with hnone | ⟨f, hf⟩
        · rw [hsink] at hnone
          cases hnone
        · refine ⟨?_, ?_⟩
          · simp only [deliverOrderChanges, hf, hev, deliveredFinals, List.filterMap_nil]
            exact List.nil_prefix
          · intro _ hall
            obtain ⟨hr, hok⟩ := hall n (List.mem_cons_self _ _)
            rw [hf] at hok
            cases hok
      · have hone : deliveredFinals orderGuid [HostEvent.OnOrderChanged info] =
            reportedFinals orderGuid [n] := by
          simp only [deliveredFinals, reportedFinals, List.filterMap_cons, List.filterMap_nil, ho,
            hguid, hfinal]
        have hsplit : deliveredFinals orderGuid (deliverOrderChanges env w (n :: ns)) =
            reportedFinals orderGuid [n] ++
              deliveredFinals orderGuid (deliverOrderChanges env w ns) := by
          rw [← hone]
          simp only [deliverOrderChanges, hres, hev, deliveredFinals, List.filterMap_append]
        rw [hsplit]
        refine ⟨(List.prefix_append_right_inj _).mpr ih.1, ?_⟩
        intro hs hall
        rw [ih.2 hs fun m hm => hall m (List.mem_cons_of_mem _ hm)]

/-- C17 as stated fails: the handler keeps no record of an order and relays the
IsFinal flag of each notification. For two notifications of the order "order-guid-9", the
first reporting it final and the second not, the host receives final = true and then
final = false. -/
theorem OnOrderChanged_final_monotone_counterexample :
    deliveredFinals "order-guid-9" (deliverOrderChanges {} sampleApi revertingChanges) =
        [true, false] ∧
      ¬ neverReverts
        (deliveredFinals "order-guid-9" (deliverOrderChanges {} sampleApi revertingChanges)) := by
  have h : deliveredFinals "order-guid-9" (deliverOrderChanges {} sampleApi revertingChanges) =
      [true, false] := by
    simp [deliveredFinals, deliverOrderChanges, revertingChanges, CQGCELWrapper.OnOrderChanged,
      sampleApi, VARIANT_TRUE, VARIANT_FALSE]
  refine ⟨h, ?_⟩
  rw [h]
  simp [neverReverts]

/-- C17, amended. For every orderGuid and every sequence of order-changed notifications,
the final values delivered to the host for that orderGuid are, in order, the IsFinal flags
the gateway reported for it, up to the first notification whose handler does not return
(all of them when a sink is registered and every handler returns). Hence whenever the
flags the gateway reports for the orderGuid never revert from final to not final, the
delivered final values are monotone non-decreasing. -/
theorem OnOrderChanged_final_relayed (env : ComEnv) (w : CQGCELWrapper) (orderGuid : String)
    (changes : List OrderChange)
    (hreported : neverReverts (reportedFinals orderGuid changes)) :
    neverReverts (deliveredFinals orderGuid (deliverOrderChanges env w changes)) ∧
      deliveredFinals orderGuid (deliverOrderChanges env w changes) <+:
        reportedFinals orderGuid changes ∧
      (w.m_events ≠ none →
        (∀ n ∈ changes, ∃ hr, (w.OnOrderChanged env n.order n.fill n.cqgerr).result = .ok hr) →
        deliveredFinals orderGuid (deliverOrderChanges env w changes) =
          reportedFinals orderGuid changes) :=
  ⟨List.Pairwise.sublist (deliveredFinals_relayed env w orderGuid changes).1.sublist hreported,
    deliveredFinals_relayed env w orderGuid changes⟩

/-- C17, amended, at three notifications of one order of which the last reports it
final: the host receives false, false, true. -/
theorem OnOrderChanged_final_relayed_witness :
    neverReverts (reportedFinals "order-guid-9" settlingChanges) ∧
      deliveredFinals "order-guid-9" (deliverOrderChanges {} sampleApi settlingChanges) =
        [false, false, true] ∧
      neverReverts
        (deliveredFinals "order-guid-9" (deliverOrderChanges {} sampleApi settlingChanges)) :=
  have h : neverReverts (reportedFinals "order-guid-9" settlingChanges) := by
    simp [neverReverts, reportedFinals, settlingChanges, VARIANT_TRUE, VARIANT_FALSE]
  ⟨h, by
      simp [deliveredFinals, deliverOrderChanges, settlingChanges, CQGCELWrapper.OnOrderChanged,
        sampleApi, VARIANT_TRUE, VARIANT_FALSE],
    (OnOrderChanged_final_relayed {} sampleApi "order-guid-9" settlingChanges h).1⟩

/-- The fills stored for a fill object of `legCount` legs: one per leg, in leg order. -/
theorem OnOrderChanged_fills_getElem (f : ICQGFill) (i : Nat) (hi : (i : Int) < f.legCount) :
    (CQGCELWrapper.OnOrderChanged.fills f f.legCount)[i]? =
      some
        { canceled :=
            decide (f.status = eFillStatus.fsCanceled) || decide (f.status = eFillStatus.fsBusted)
          symbol := f.instrumentName i
          fillPrice := f.price i
          fillQty := f.quantity i } := by
  have hlt : i < f.legCount.toNat := by omega
  simp [CQGCELWrapper.OnOrderChanged.fills, List.getElem?_range hlt]

/-- C18. For every order-changed notification and every OrderInfo it delivers (it
delivers at most one, and exactly one when a sink is registered, the order names its
account and a valid fill has no negative LegCount): when a valid fill object accompanies
the notification, orderFills has exactly LegCount entries, entry i holding the symbol,
price and quantity of leg i, and every entry carries the same canceled flag, true if and
only if the fill status is Canceled or Busted; when no fill object or an invalid one
accompanies it, orderFills is empty. -/
theorem OnOrderChanged_orderFills (env : ComEnv) (w : CQGCELWrapper) (order : Option ICQGOrder)
    (fill : Option ICQGFill) (cqgerr : Option ICQGError) :
    (∀ info, HostEvent.OnOrderChanged info ∈ (w.OnOrderChanged env order fill cqgerr).events →
        (w.OnOrderChanged env order fill cqgerr).events = [HostEvent.OnOrderChanged info] ∧
        (∀ f, fill = some f → f.isValid = VARIANT_TRUE →
          (info.orderFills.length : Int) = f.legCount ∧
          (∀ i : Nat, (i : Int) < f.legCount →
            info.orderFills[i]? =
              some
                { canceled :=
                    decide (f.status = eFillStatus.fsCanceled) ||
                      decide (f.status = eFillStatus.fsBusted)
                  symbol := f.instrumentName i
                  fillPrice := f.price i
                  fillQty := f.quantity i }) ∧
          ∀ x ∈ info.orderFills,
            (x.canceled = true ↔
              f.status = eFillStatus.fsCanceled ∨ f.status = eFillStatus.fsBusted)) ∧
        (fill = none → info.orderFills = []) ∧
        (∀ f, fill = some f → f.isValid ≠ VARIANT_TRUE → info.orderFills = [])) ∧
      (∀ o, order = some o → w.m_events ≠ none → o.account ≠ none →
        (∀ f, fill = some f → f.isValid = VARIANT_TRUE → 0 ≤ f.legCount) →
        ∃ info, (w.OnOrderChanged env order fill cqgerr).events =
          [HostEvent.OnOrderChanged info]) := by
  refine ⟨?_, ?_⟩
  · intro info hmem
    rcases OnOrderChanged_events env w order fill cqgerr with
      ⟨hev, _⟩ | ⟨o, info2, _, _, hev, _, _, _, hvalid, hinvalid, hnone⟩
    · rw [hev] at hmem
      cases hmem
    · rw [hev] at hmem
      have hinfo : info = info2 := by simpa using hmem
      subst hinfo
      refine ⟨hev, ?_, hnone, hinvalid⟩
      intro f hf hv
      obtain ⟨hleg, hfills⟩ := hvalid f hf hv
      rw [hfills]
      refine ⟨?_, fun i hi => OnOrderChanged_fills_getElem f i hi, ?_⟩
      · simp [CQGCELWrapper.OnOrderChanged.fills, hleg]
      · intro x hx
        simp only [CQGCELWrapper.OnOrderChanged.fills, List.mem_map] at hx
        obtain ⟨i, _, rfl⟩ := hx
        simp
  · intro o ho hsink hacc hleg
    subst ho
    rcases OnOrderChanged_events env w (some o) fill cqgerr with
      ⟨_, hwhy⟩ | ⟨_, info, _, _, hev, _⟩
    · exfalso
      rcases hwhy with hnone | ⟨flt, hflt⟩
      · exact hsink hnone
      · cases hs : w.m_events with
        | none => exact hsink hs
        | some sink =>
          cases ha : o.account with
          | none => exact hacc ha
          | some gwAccountID =>
            cases fill with
            | none => simp [CQGCELWrapper.OnOrderChanged, hs, ha] at hflt
            | some f =>
              by_cases hv : f.isValid = VARIANT_TRUE
              · have := hleg f rfl hv
                have hnn : ¬ f.legCount < 0 := by omega
                simp [CQGCELWrapper.OnOrderChanged, CQGCELWrapper.checkValid, hs, ha, hv, hnn] at hflt
              · simp [CQGCELWrapper.OnOrderChanged, CQGCELWrapper.checkValid, hs, ha, hv] at hflt
    · exact ⟨info, hev⟩

/-- C18 at a notification of a busted two-leg fill: the host receives two fills, both
canceled, leg 0 first. -/
theorem OnOrderChanged_orderFills_witness :
    ∃ info,
      (sampleApi.OnOrderChanged {} (some sampleOrder) (some bustedFill) none).events =
          [HostEvent.OnOrderChanged info] ∧
        info.orderFills =
          [{ canceled := true, symbol := "F.US.EPH5", fillPrice := 1200.25, fillQty := 3 },
            { canceled := true, symbol := "F.US.EPM5", fillPrice := 1201.5, fillQty := 4 }] ∧
        (info.orderFills.length : Int) = bustedFill.legCount :=
  have h := (OnOrderChanged_orderFills {} sampleApi (some sampleOrder) (some bustedFill) none).1
  ⟨_, rfl, rfl, ((h _ (List.mem_singleton.mpr rfl)).2.1 bustedFill rfl rfl).1⟩

/-! ## Quote materialization -/

/-- `GetQuote` returns true exactly for the quotes the spec keeps, and then stores the
materialized quote. -/
theorem GetQuote_materialize (quote : Option ICQGQuote) (quoteInfo : QuoteInfo) :
    (GetQuote quote quoteInfo).1 = (Spec.materialize quote).isSome ∧
      ∀ q, Spec.materialize quote = some q → (GetQuote quote quoteInfo).2 = q := by
  cases quote with
  | none => simp [GetQuote, Spec.materialize]
  | some x =>
    by_cases hv : x.isValid = VARIANT_FALSE
    · simp [GetQuote, Spec.materialize, hv]
    · cases ht : x.type <;> simp [GetQuote, Spec.materialize, Spec.mappedType, hv, ht]

theorem materialize_ne_Unknown (quote : Option ICQGQuote) (q : QuoteInfo)
    (h : Spec.materialize quote = some q) : q.type ≠ QuoteInfoType.Unknown := by
  cases quote with
  | none => simp [Spec.materialize] at h
  | some x =>
    by_cases hv : x.isValid = VARIANT_FALSE
    · simp [Spec.materialize, hv] at h
    · cases ht : x.type <;> simp [Spec.materialize, Spec.mappedType, hv, ht] at h <;>
        (subst h; simp)

/-- One step of the loop of `GetAllQuotes` on the variant `v`. -/
theorem GetAllQuotes_step (v : Option ICQGQuote) (symInfo : SymbolInfo) :
    (if (GetQuote v {}).1 then
        { symInfo with lastQuotes := symInfo.lastQuotes ++ [(GetQuote v {}).2] }
      else symInfo) =
      { symInfo with lastQuotes := symInfo.lastQuotes ++ (Spec.materialize v).toList } := by
  obtain ⟨h1, h2⟩ := GetQuote_materialize v {}
  cases hm : Spec.materialize v with
  | none => simp [h1, hm]
  | some q => simp [h1, hm, h2 q hm]

/-- Whatever the enumerator answers, a loop of `GetAllQuotes` that returns has kept the
full name and has only appended quotes of a known type. -/
theorem GetAllQuotes_loop_inv (env : ComEnv) :
    ∀ (fuel : Nat) (q : CComCollection ICQGQuote) (symInfo out : SymbolInfo),
      GetAllQuotes.loop env fuel q symInfo = .ok out →
      out.fullName = symInfo.fullName ∧
        ∃ added, out.lastQuotes = symInfo.lastQuotes ++ added ∧
          ∀ x ∈ added, x.type ≠ QuoteInfoType.Unknown := by
  intro fuel
  induction fuel with
  | zero =>
    intro q symInfo out h
    simp only [GetAllQuotes.loop, Except.ok.injEq] at h
    subst h
    exact ⟨rfl, [], by simp, by simp⟩
  | succ n ih =>
    intro q symInfo out h
    simp only [GetAllQuotes.loop] at h
    split at h
    · simp only [Except.ok.injEq] at h
      subst h
      exact ⟨rfl, [], by simp, by simp⟩
    · split at h
      · cases h
      · split at h
        · simp only [Except.ok.injEq] at h
          subst h
          exact ⟨rfl, [], by simp, by simp⟩
        · rename_i v q2 _ _
          rw [GetAllQuotes_step] at h
          obtain ⟨hname, added, hadded, hknown⟩ := ih _ _ _ h
          refine ⟨hname, (Spec.materialize v).toList ++ added, by simp [hadded], ?_⟩
          intro x hx
          rcases List.mem_append.mp hx with hx | hx
          · exact materialize_ne_Unknown v x (by simpa using hx)
          · exact hknown x hx

theorem GetAllQuotes_inv (env : ComEnv) (quotes : Option ICQGQuotes) (symInfo out : SymbolInfo)
    (h : GetAllQuotes env quotes symInfo = .ok out) :
    out.fullName = symInfo.fullName ∧
      ∃ added, out.lastQuotes = symInfo.lastQuotes ++ added ∧
        ∀ x ∈ added, x.type ≠ QuoteInfoType.Unknown := by
  cases quotes with
  | none =>
    simp only [GetAllQuotes, Except.ok.injEq] at h
    subst h
    exact ⟨rfl, [], by simp, by simp⟩
  | some c =>
    simp only [GetAllQuotes] at h
    split at h
    · cases h
    · exact GetAllQuotes_loop_inv env _ _ _ _ h

theorem GetAllQuotes_loop_yields (env : ComEnv) (resetHr : HRESULT)
    (script : List (HRESULT × Option ICQGQuote)) (items : List (Option ICQGQuote)) :
    ∀ (fuel : Nat) (symInfo : SymbolInfo), items.length < fuel →
      GetAllQuotes.loop env fuel
          { m_isEnd := false,
            m_collection := some
              { resetHr := resetHr, script := script,
                rest := items.map fun v => (S_OK, v) } } symInfo =
        .ok { symInfo with lastQuotes := symInfo.lastQuotes ++ items.filterMap Spec.materialize } := by
  induction items with
  | nil =>
    intro fuel symInfo hfuel
    obtain ⟨f, rfl⟩ : ∃ f, fuel = f + 1 := ⟨fuel - 1, by simp at hfuel; omega⟩
    simp [GetAllQuotes.loop, CComCollection.IsEnd, CComCollection.GetNext,
      IEnumVARIANT.Next, CheckCOMError, SUCCEEDED, S_FALSE]
  | cons v vs ih =>
    intro fuel symInfo hfuel
    obtain ⟨f, rfl⟩ : ∃ f, fuel = f + 1 := ⟨fuel - 1, by simp at hfuel; omega⟩
    have hf : vs.length < f := by simp at hfuel; omega
    have hne : (S_OK : HRESULT) ≠ S_FALSE := by decide
    simp only [GetAllQuotes.loop, CComCollection.IsEnd, CComCollection.GetNext,
      IEnumVARIANT.Next, List.map_cons, CheckCOMError_succeeded env _ S_OK rfl, hne,
      decide_False, Bool.false_eq_true, if_false]
    rw [GetAllQuotes_step, ih f _ hf]
    cases hm : Spec.materialize v <;> simp [List.filterMap_cons, hm]

theorem GetAllQuotes_of_yields (env : ComEnv) (quotes : ICQGQuotes)
    (items : List (Option ICQGQuote)) (symInfo : SymbolInfo)
    (hyields : ComCollection.yields quotes items) :
    GetAllQuotes env (some quotes) symInfo =
      .ok { symInfo with lastQuotes := symInfo.lastQuotes ++ items.filterMap Spec.materialize } := by
  obtain ⟨hnew, e, he, hreset, hscript⟩ := hyields
  simp only [GetAllQuotes, CComCollection.new, CComCollection.Reset, IEnumVARIANT.Reset, he,
    CheckCOMError_succeeded env _ _ hnew, CheckCOMError_succeeded env _ _ hreset,
    CComCollection.remaining, hscript]
  have h := GetAllQuotes_loop_yields env e.resetHr (items.map fun v => (S_OK, v)) items
    (items.length + 1) symInfo (Nat.lt_succ_self _)
  simpa using h

/-- C19. For every gateway quotes collection: whatever the enumerator answers, a
materialization that returns has appended to lastQuotes only quotes of a known type,
none of type Unknown; and when the enumerator yields the variants `items`, the
materialization returns and lastQuotes is extended by the order-preserving filter-map of
`items` that drops a variant without a quote object, a quote reported invalid and a quote
whose raw type is not Ask, Bid, Trade, yesterday's settlement, day high or day low, and
keeps every other quote with its mapped type, price and volume. -/
theorem GetAllQuotes_filter_map (env : ComEnv) (quotes : Option ICQGQuotes)
    (symInfo : SymbolInfo) :
    (∀ out, GetAllQuotes env quotes symInfo = .ok out →
        ∃ added, out.lastQuotes = symInfo.lastQuotes ++ added ∧
          ∀ x ∈ added, x.type ≠ QuoteInfoType.Unknown) ∧
      (∀ c items, quotes = some c → ComCollection.yields c items →
        GetAllQuotes env quotes symInfo =
          .ok { symInfo with
            lastQuotes := symInfo.lastQuotes ++ items.filterMap Spec.materialize }) ∧
      (quotes = none → GetAllQuotes env quotes symInfo = .ok symInfo) := by
  refine ⟨fun out h => (GetAllQuotes_inv env quotes symInfo out h).2, ?_, ?_⟩
  · intro c items hc hyields
    subst hc
    exact GetAllQuotes_of_yields env c items symInfo hyields
  · intro hnone
    subst hnone
    rfl

/-- C19 at a collection of five variants: the ask and yesterday's settlement are
materialized, in this order; the invalid bid, the quote of an unknown raw type and the
variant without a quote object are dropped. -/
theorem GetAllQuotes_filter_map_witness :
    GetAllQuotes {} (some sampleQuotes) { fullName := "F.US.EPH5" } =
      .ok
        { fullName := "F.US.EPH5"
          lastQuotes :=
            [{ type := QuoteInfoType.Ask, price := 1200.5, volume := 7 },
              { type := QuoteInfoType.Close, price := 1198.75, volume := 0 }] } :=
  (GetAllQuotes_filter_map {} (some sampleQuotes) { fullName := "F.US.EPH5" }).2.1 sampleQuotes
    sampleQuoteList rfl ⟨rfl, _, rfl, rfl, rfl⟩

/-! ## Instrument notifications -/

/-- What an instrument-subscribed notification delivers, by the outcome of its steps. -/
theorem OnInstrumentSubscribed_events (env : ComEnv) (w : CQGCELWrapper) (symbol : String)
    (instrument : ICQGInstrument) :
    ((w.OnInstrumentSubscribed env symbol (some instrument)).events = [] ∧
        (w.m_events = none ∨
          (∃ f, CheckCOMError env IFace.ICQGInstrument instrument.get_FullNameHr = .error f) ∨
          (∃ f, CheckCOMError env IFace.ICQGInstrument instrument.get_Quotes.1 = .error f) ∨
          ∃ f, GetAllQuotes env instrument.get_Quotes.2 { fullName := instrument.fullName } =
            .error f)) ∨
      ∃ info,
        GetAllQuotes env instrument.get_Quotes.2 { fullName := instrument.fullName } = .ok info ∧
        (w.OnInstrumentSubscribed env symbol (some instrument)).events =
          [HostEvent.OnSymbolSubscribed symbol info] := by
  cases hs : w.m_events with
  | none => left; simp [CQGCELWrapper.OnInstrumentSubscribed, hs]
  | some sink =>
    cases h1 : CheckCOMError env IFace.ICQGInstrument instrument.get_FullNameHr with
    | error f => left; simp [CQGCELWrapper.OnInstrumentSubscribed, hs, h1]
    | ok _ =>
      cases h2 : CheckCOMError env IFace.ICQGInstrument instrument.get_Quotes.1 with
      | error f => left; simp [CQGCELWrapper.OnInstrumentSubscribed, hs, h1, h2]
      | ok _ =>
        cases h3 : GetAllQuotes env instrument.get_Quotes.2 { fullName := instrument.fullName } with
        | error f => left; simp [CQGCELWrapper.OnInstrumentSubscribed, hs, h1, h2, h3]
        | ok info => right; exact ⟨info, rfl, by simp [CQGCELWrapper.OnInstrumentSubscribed, hs, h1, h2, h3]⟩

/-- What an instrument-changed notification delivers, by the outcome of its steps. -/
theorem OnInstrumentChanged_events (env : ComEnv) (w : CQGCELWrapper)
    (instrument : ICQGInstrument) (quotes : Option ICQGQuotes) :
    ((w.OnInstrumentChanged env (some instrument) quotes).events = [] ∧
        (w.m_events = none ∨
          (∃ f, CheckCOMError env IFace.ICQGInstrument instrument.get_FullNameHr = .error f) ∨
          ∃ f, GetAllQuotes env quotes { fullName := instrument.fullName } = .error f)) ∨
      ∃ info,
        GetAllQuotes env quotes { fullName := instrument.fullName } = .ok info ∧
        (w.OnInstrumentChanged env (some instrument) quotes).events =
          [HostEvent.OnSymbolQuote info] := by
  cases hs : w.m_events with
  | none => left; simp [CQGCELWrapper.OnInstrumentChanged, hs]
  | some sink =>
    cases h1 : CheckCOMError env IFace.ICQGInstrument instrument.get_FullNameHr with
    | error f => left; simp [CQGCELWrapper.OnInstrumentChanged, hs, h1]
    | ok _ =>
      cases h3 : GetAllQuotes env quotes { fullName := instrument.fullName } with
      | error f => left; simp [CQGCELWrapper.OnInstrumentChanged, hs, h1, h3]
      | ok info => right; exact ⟨info, rfl, by simp [CQGCELWrapper.OnInstrumentChanged, hs, h1, h3]⟩

/-- C20. For every instrument-subscribed notification with requested symbol r and an
instrument of full name f, the host receives at most one callback, and what it receives
is OnSymbolSubscribed(r, info) with info.fullName = f, r passed on unchanged; it receives
exactly this one callback when a sink is registered, get_FullName and get_Quotes succeed
and the quotes enumerate (or no quotes object is stored), lastQuotes being the
materialized quotes of the instrument. For every instrument-changed notification the host
receives at most one callback, and what it receives is OnSymbolQuote(info) with
info.fullName the full name of the changed instrument and info the materialization of the
changed-quotes collection of the notification alone; it receives exactly this one
callback when a sink is registered, get_FullName succeeds and the changed quotes
enumerate (or none are passed). -/
theorem OnInstrumentSubscribed_OnInstrumentChanged_delivery (env : ComEnv) (w : CQGCELWrapper)
    (r : String) (instrument changed : ICQGInstrument) (quotes : Option ICQGQuotes) :
    (∀ e ∈ (w.OnInstrumentSubscribed env r (some instrument)).events,
        (w.OnInstrumentSubscribed env r (some instrument)).events = [e] ∧
        ∃ info, e = HostEvent.OnSymbolSubscribed r info ∧ info.fullName = instrument.fullName) ∧
      (w.m_events ≠ none → SUCCEEDED instrument.get_FullNameHr = true →
        SUCCEEDED instrument.get_Quotes.1 = true →
        (∀ c items, instrument.get_Quotes.2 = some c → ComCollection.yields c items →
          (w.OnInstrumentSubscribed env r (some instrument)).events =
            [HostEvent.OnSymbolSubscribed r
              { fullName := instrument.fullName
                lastQuotes := items.filterMap Spec.materialize }]) ∧
        (instrument.get_Quotes.2 = none →
          (w.OnInstrumentSubscribed env r (some instrument)).events =
            [HostEvent.OnSymbolSubscribed r { fullName := instrument.fullName }])) ∧
      (∀ e ∈ (w.OnInstrumentChanged env (some changed) quotes).events,
        (w.OnInstrumentChanged env (some changed) quotes).events = [e] ∧
        ∃ info, e = HostEvent.OnSymbolQuote info ∧ info.fullName = changed.fullName ∧
          GetAllQuotes env quotes { fullName := changed.fullName } = .ok info) ∧
      (w.m_events ≠ none → SUCCEEDED changed.get_FullNameHr = true →
        (∀ c items, quotes = some c → ComCollection.yields c items →
          (w.OnInstrumentChanged env (some changed) quotes).events =
            [HostEvent.OnSymbolQuote
              { fullName := changed.fullName
                lastQuotes := items.filterMap Spec.materialize }]) ∧
        (quotes = none →
          (w.OnInstrumentChanged env (some changed) quotes).events =
            [HostEvent.OnSymbolQuote { fullName := changed.fullName }])) := by
  refine ⟨?_, ?_, ?_, ?_⟩
  · intro e he
    rcases OnInstrumentSubscribed_events env w r instrument with ⟨hev, _⟩ | ⟨info, hq, hev⟩
    · rw [hev] at he
      cases he
    · rw [hev] at he ⊢
      have hinfo : e = HostEvent.OnSymbolSubscribed r info := by simpa using he
      subst hinfo
      exact ⟨rfl, info, rfl, (GetAllQuotes_inv env _ _ _ hq).1⟩
  · intro hsink hname hquotes
    obtain ⟨sink, hs⟩ := Option.ne_none_iff_exists'.mp hsink
    refine ⟨?_, ?_⟩
    · intro c items hc hyields
      have hq := GetAllQuotes_of_yields env c items { fullName := instrument.fullName } hyields
      simp [CQGCELWrapper.OnInstrumentSubscribed, hs, CheckCOMError_succeeded env _ _ hname,
        CheckCOMError_succeeded env _ _ hquotes, hc, hq]
    · intro hnone
      simp [CQGCELWrapper.OnInstrumentSubscribed, hs, CheckCOMError_succeeded env _ _ hname,
        CheckCOMError_succeeded env _ _ hquotes, hnone, GetAllQuotes]
  · intro e he
    rcases OnInstrumentChanged_events env w changed quotes with ⟨hev, _⟩ | ⟨info, hq, hev⟩
    · rw [hev] at he
      cases he
    · rw [hev] at he ⊢
      have hinfo : e = HostEvent.OnSymbolQuote info := by simpa using he
      subst hinfo
      exact ⟨rfl, info, rfl, (GetAllQuotes_inv env _ _ _ hq).1, hq⟩
  · intro hsink hname
    obtain ⟨sink, hs⟩ := Option.ne_none_iff_exists'.mp hsink
    refine ⟨?_, ?_⟩
    · intro c items hc hyields
      subst hc
      have hq := GetAllQuotes_of_yields env c items { fullName := changed.fullName } hyields
      simp [CQGCELWrapper.OnInstrumentChanged, hs, CheckCOMError_succeeded env _ _ hname, hq]
    · intro hnone
      subst hnone
      simp [CQGCELWrapper.OnInstrumentChanged, hs, CheckCOMError_succeeded env _ _ hname,
        GetAllQuotes]

/-- C20 at the symbol "EP" resolving to the instrument "F.US.EPH5": the host receives
OnSymbolSubscribed("EP", info) with info.fullName = "F.US.EPH5" and the two materialized
quotes of the instrument, and for a later instrument-changed notification of one trade
it receives one OnSymbolQuote under the name "F.US.EPH5" with that trade alone. -/
theorem OnInstrumentSubscribed_OnInstrumentChanged_delivery_witness :
    (sampleApi.OnInstrumentSubscribed {} "EP" (some epInstrument)).events =
        [HostEvent.OnSymbolSubscribed "EP"
          { fullName := "F.US.EPH5"
            lastQuotes :=
              [{ type := QuoteInfoType.Ask, price := 1200.5, volume := 7 },
                { type := QuoteInfoType.Close, price := 1198.75, volume := 0 }] }] ∧
      (sampleApi.OnInstrumentChanged {} (some epInstrument) (some changedQuotes)).events =
        [HostEvent.OnSymbolQuote
          { fullName := "F.US.EPH5"
            lastQuotes := [{ type := QuoteInfoType.Trade, price := 1201, volume := 2 }] }] :=
  have h := OnInstrumentSubscribed_OnInstrumentChanged_delivery {} sampleApi "EP" epInstrument
    epInstrument (some changedQuotes)
  ⟨(h.2.1 (by decide) rfl rfl).1 sampleQuotes sampleQuoteList rfl ⟨rfl, _, rfl, rfl, rfl⟩,
    (h.2.2.2 (by decide) rfl).1 changedQuotes changedQuoteList rfl ⟨rfl, _, rfl, rfl, rfl⟩⟩

/-! ## Account notifications -/

theorem GetAccountInfo_some (acc : ICQGAccount) (accSum : ICQGAccountSummary)
    (account : AccountInfo) :
    GetAccountInfo (some acc) (some accSum) account = .ok (Spec.accountInfo acc accSum) := rfl

/-- What the incremental branch of `OnAccountChanged` delivers. -/
theorem OnAccountChanged_incremental_events (env : ComEnv) (change : eAccountChangeType)
    (account : Option ICQGAccount) (position : Option ICQGPosition) :
    ((CQGCELWrapper.OnAccountChanged.incremental env change account position).events = [] ∧
        ∃ f, (CQGCELWrapper.OnAccountChanged.incremental env change account position).result =
          .error f) ∨
      ∃ acc accSum, account = some acc ∧ acc.get_Summary.2 = some accSum ∧
        (CQGCELWrapper.OnAccountChanged.incremental env change account position).result =
          .ok S_OK ∧
        (CQGCELWrapper.OnAccountChanged.incremental env change account position).events =
          [if change = eAccountChangeType.actAccountChanged then
              HostEvent.OnAccountChanged (Spec.accountInfo acc accSum)
            else
              HostEvent.OnPositionChanged (Spec.accountInfo acc accSum)
                (GetPositionInfo position (PositionInfo.uninitialized (env.stackPositionInfo 0)))
                (decide (change = eAccountChangeType.actPositionAdded))] := by
  cases account with
  | none => left; exact ⟨rfl, _, rfl⟩
  | some acc =>
    cases hc : CheckCOMError env IFace.ICQGAccount acc.get_Summary.1 with
    | error f =>
      left
      simp [CQGCELWrapper.OnAccountChanged.incremental, hc]
    | ok _ =>
      cases hs : acc.get_Summary.2 with
      | none =>
        left
        simp [CQGCELWrapper.OnAccountChanged.incremental, hc, hs, GetAccountInfo]
      | some accSum =>
        right
        refine ⟨acc, accSum, rfl, hs, ?_, ?_⟩
        · simp only [CQGCELWrapper.OnAccountChanged.incremental, hc, hs, GetAccountInfo_some]
          split <;> rfl
        · simp only [CQGCELWrapper.OnAccountChanged.incremental, hc, hs, GetAccountInfo_some]
          split <;> rfl

/-- C21. Every account-change notification delivers at most one host callback, and
which one is fixed by the change type alone: accounts-reloaded gives OnAccountsReloaded()
and positions-reloaded gives OnPositionsReloaded(), both without payload and always
delivered when a sink is registered; account-changed gives OnAccountChanged(account)
only; position-added and position-changed give OnPositionChanged(account, position,
newPosition) with newPosition = true exactly for position-added, the account re-derived
from the account and its summary and the position from the position object; any other
change type gives no callback.  The callback of the three incremental types is delivered
when a sink is registered, the account is passed and its summary is obtained. -/
theorem OnAccountChanged_dispatch (env : ComEnv) (w : CQGCELWrapper)
    (change : eAccountChangeType) (account : Option ICQGAccount)
    (position : Option ICQGPosition) :
    (w.OnAccountChanged env change account position).events.length ≤ 1 ∧
      (∀ e ∈ (w.OnAccountChanged env change account position).events,
        (change = eAccountChangeType.actAccountsReloaded ∧ e = HostEvent.OnAccountsReloaded) ∨
        (change = eAccountChangeType.actPositionsReloaded ∧ e = HostEvent.OnPositionsReloaded) ∨
        (change = eAccountChangeType.actAccountChanged ∧
          ∃ info, e = HostEvent.OnAccountChanged info) ∨
        (change = eAccountChangeType.actPositionAdded ∧
          ∃ info pos, e = HostEvent.OnPositionChanged info pos true) ∨
        (change = eAccountChangeType.actPositionChanged ∧
          ∃ info pos, e = HostEvent.OnPositionChanged info pos false)) ∧
      (w.m_events ≠ none →
        (change = eAccountChangeType.actAccountsReloaded →
          (w.OnAccountChanged env change account position).events =
            [HostEvent.OnAccountsReloaded]) ∧
        (change = eAccountChangeType.actPositionsReloaded →
          (w.OnAccountChanged env change account position).events =
            [HostEvent.OnPositionsReloaded]) ∧
        (∀ acc accSum, account = some acc → SUCCEEDED acc.get_Summary.1 = true →
          acc.get_Summary.2 = some accSum →
          (change = eAccountChangeType.actAccountChanged →
            (w.OnAccountChanged env change account position).events =
              [HostEvent.OnAccountChanged (Spec.accountInfo acc accSum)]) ∧
          (change = eAccountChangeType.actPositionAdded →
            (w.OnAccountChanged env change account position).events =
              [HostEvent.OnPositionChanged (Spec.accountInfo acc accSum)
                (GetPositionInfo position (PositionInfo.uninitialized (env.stackPositionInfo 0)))
                true]) ∧
          (change = eAccountChangeType.actPositionChanged →
            (w.OnAccountChanged env change account position).events =
              [HostEvent.OnPositionChanged (Spec.accountInfo acc accSum)
                (GetPositionInfo position (PositionInfo.uninitialized (env.stackPositionInfo 0)))
                false])) ∧
        (∀ raw, change = eAccountChangeType.other raw →
          (w.OnAccountChanged env change account position).events = [])) := by
  cases hs : w.m_events with
  | none =>
    refine ⟨by simp [CQGCELWrapper.OnAccountChanged, hs], ?_, fun h => absurd rfl h⟩
    intro e he
    simp [CQGCELWrapper.OnAccountChanged, hs] at he
  | some sink =>
    have hinc := OnAccountChanged_incremental_events env change account position
    refine ⟨?_, ?_, fun _ => ⟨?_, ?_, ?_, ?_⟩⟩
    · cases change <;> simp [CQGCELWrapper.OnAccountChanged, hs] <;>
        (rcases hinc with ⟨h, _⟩ | ⟨_, _, _, _, _, h⟩ <;> simp [h])
    · intro e he
      cases change with
      | actAccountsReloaded =>
        simp [CQGCELWrapper.OnAccountChanged, hs] at he
        simp [he]
      | actPositionsReloaded =>
        simp [CQGCELWrapper.OnAccountChanged, hs] at he
        simp [he]
      | other raw => simp [CQGCELWrapper.OnAccountChanged, hs] at he
      | actAccountChanged =>
        simp only [CQGCELWrapper.OnAccountChanged, hs] at he
        rcases hinc with ⟨h, _⟩ | ⟨_, _, _, _, _, h⟩ <;> simp [h] at he
        simp [he]
      | actPositionAdded =>
        simp only [CQGCELWrapper.OnAccountChanged, hs] at he
        rcases hinc with ⟨h, _⟩ | ⟨_, _, _, _, _, h⟩ <;> simp [h] at he
        simp [he]
      | actPositionChanged =>
        simp only [CQGCELWrapper.OnAccountChanged, hs] at he
        rcases hinc with ⟨h, _⟩ | ⟨_, _, _, _, _, h⟩ <;> simp [h] at he
        simp [he]
    · intro hc
      subst hc
      simp [CQGCELWrapper.OnAccountChanged, hs]
    · intro hc
      subst hc
      simp [CQGCELWrapper.OnAccountChanged, hs]
    · intro acc accSum hacc hok hsum
      subst hacc
      have hcheck := CheckCOMError_succeeded env IFace.ICQGAccount _ hok
      refine ⟨?_, ?_, ?_⟩ <;> intro hc <;> subst hc <;>
        simp [CQGCELWrapper.OnAccountChanged, CQGCELWrapper.OnAccountChanged.incremental, hs,
          hcheck, hsum, GetAccountInfo_some]
    · intro raw hc
      subst hc
      simp [CQGCELWrapper.OnAccountChanged, hs]

/-- C21 at a position-added notification of a funded account: the host receives one
OnPositionChanged with the account (OTE and profit/loss 0, their queries having failed),
the position and newPosition = true. -/
theorem OnAccountChanged_dispatch_witness :
    (sampleApi.OnAccountChanged {} eAccountChangeType.actPositionAdded (some fundedAccount)
        (some samplePosition)).events =
      [HostEvent.OnPositionChanged
        { gwAccountID := 1, gwAccountName := "acc", currency := "USD", balance := 2500.5,
          ote := 0.0, profitLoss := 0.0 }
        { symbol := "F.US.EPH5", longPosition := true, quantity := 3, averagePrice := 1200.25,
          ote := 12.5, profitLoss := 0.0 }
        true] :=
  (((OnAccountChanged_dispatch {} sampleApi eAccountChangeType.actPositionAdded
    (some fundedAccount) (some samplePosition)).2.2 (by decide)).2.2.1
      fundedAccount _ rfl rfl rfl).2.1 rfl

/-! ## Connection status notifications -/

/-- C24. For every trading-connection status notification: when the new status is
connection-up the handler sets the account subscription level to
account-updates-and-orders, whether or not a sink is registered and before anything is
delivered (when the call fails the handler raises and delivers nothing); it delivers
OnTradingConnection(true), and only that, when the call succeeds and a sink is
registered.  For every other status it makes no gateway call and delivers
OnTradingConnection(false) to a registered sink.  A market-data status notification
makes no gateway call and delivers OnMarketDataConnection(connected) to a registered
sink, connected being true exactly for connection-up. -/
theorem connection_status_notifications (env : ComEnv) (w : CQGCELWrapper)
    (newStatus : eConnectionStatus) :
    (newStatus = eConnectionStatus.csConnectionUp →
        (w.OnGWConnectionStatusChanged env newStatus).calls =
          [GwCall.put_AccountSubscriptionLevel
            eAccountSubscriptionLevel.aslAccountUpdatesAndOrders] ∧
        (SUCCEEDED (w.m_spCQGCEL.put_AccountSubscriptionLevel
            eAccountSubscriptionLevel.aslAccountUpdatesAndOrders) = true →
          (w.OnGWConnectionStatusChanged env newStatus).result = .ok S_OK ∧
          (w.m_events ≠ none → (w.OnGWConnectionStatusChanged env newStatus).events =
            [HostEvent.OnTradingConnection true]) ∧
          (w.m_events = none → (w.OnGWConnectionStatusChanged env newStatus).events = [])) ∧
        (w.m_spCQGCEL.put_AccountSubscriptionLevel
            eAccountSubscriptionLevel.aslAccountUpdatesAndOrders < 0 →
          (w.OnGWConnectionStatusChanged env newStatus).events = [] ∧
          ∃ f, (w.OnGWConnectionStatusChanged env newStatus).result = .error f)) ∧
      (newStatus ≠ eConnectionStatus.csConnectionUp →
        (w.OnGWConnectionStatusChanged env newStatus).calls = [] ∧
        (w.OnGWConnectionStatusChanged env newStatus).result = .ok S_OK ∧
        (w.m_events ≠ none → (w.OnGWConnectionStatusChanged env newStatus).events =
          [HostEvent.OnTradingConnection false]) ∧
        (w.m_events = none → (w.OnGWConnectionStatusChanged env newStatus).events = [])) ∧
      (w.OnDataConnectionStatusChanged newStatus).calls = [] ∧
      (w.OnDataConnectionStatusChanged newStatus).result = .ok S_OK ∧
      (w.m_events ≠ none → (w.OnDataConnectionStatusChanged newStatus).events =
        [HostEvent.OnMarketDataConnection
          (decide (newStatus = eConnectionStatus.csConnectionUp))]) ∧
      (w.m_events = none → (w.OnDataConnectionStatusChanged newStatus).events = []) := by
  refine ⟨?_, ?_, ?_, ?_, ?_, ?_⟩
  · intro hup
    subst hup
    refine ⟨?_, ?_, ?_⟩
    · simp only [CQGCELWrapper.OnGWConnectionStatusChanged]
      split <;> [skip; split] <;> simp
    · intro hok
      have hcheck := CheckCOMError_succeeded env IFace.ICQGCEL _ hok
      cases hs : w.m_events <;>
        simp [CQGCELWrapper.OnGWConnectionStatusChanged, hcheck, hs]
    · intro hfail
      obtain ⟨f, hf⟩ := CheckCOMError_failed env IFace.ICQGCEL _ hfail
      simp [CQGCELWrapper.OnGWConnectionStatusChanged, hf]
  · intro hdown
    cases hs : w.m_events <;>
      simp [CQGCELWrapper.OnGWConnectionStatusChanged, hdown, hs]
  · cases hs : w.m_events <;> simp [CQGCELWrapper.OnDataConnectionStatusChanged, hs]
  · cases hs : w.m_events <;> simp [CQGCELWrapper.OnDataConnectionStatusChanged, hs]
  · cases hs : w.m_events <;> simp [CQGCELWrapper.OnDataConnectionStatusChanged, hs]
  · cases hs : w.m_events <;> simp [CQGCELWrapper.OnDataConnectionStatusChanged, hs]

/-- C24 at the sample connector with a registered sink: connection-up subscribes and
notifies the host of a trading connection; another status makes no call and notifies it
of none; the market-data notifications make no call. -/
theorem connection_status_notifications_witness :
    ((sampleApi.OnGWConnectionStatusChanged {} eConnectionStatus.csConnectionUp).calls =
        [GwCall.put_AccountSubscriptionLevel
          eAccountSubscriptionLevel.aslAccountUpdatesAndOrders] ∧
      (sampleApi.OnGWConnectionStatusChanged {} eConnectionStatus.csConnectionUp).events =
        [HostEvent.OnTradingConnection true]) ∧
      ((sampleApi.OnGWConnectionStatusChanged {} (eConnectionStatus.other 1)).calls = [] ∧
        (sampleApi.OnGWConnectionStatusChanged {} (eConnectionStatus.other 1)).events =
          [HostEvent.OnTradingConnection false]) ∧
      (sampleApi.OnDataConnectionStatusChanged eConnectionStatus.csConnectionUp).events =
        [HostEvent.OnMarketDataConnection true] :=
  have hup := (connection_status_notifications {} sampleApi eConnectionStatus.csConnectionUp).1 rfl
  have hdown :=
    (connection_status_notifications {} sampleApi (eConnectionStatus.other 1)).2.1 (by decide)
  ⟨⟨hup.1, (hup.2.1 rfl).2.1 (by decide)⟩, ⟨hdown.1, hdown.2.2.1 (by decide)⟩,
    (connection_status_notifications {} sampleApi eConnectionStatus.csConnectionUp).2.2.2.2.1
      (by decide)⟩

/-! ## Line time -/

/-- C26, the code on a facade that was never initialized: GetLineTime calls through
the null `m_api` instead of returning the invalid date/time; it makes no gateway call,
returns nothing and sets no last error.  The same holds on every facade that is not
initialized. -/
theorem GetLineTime_not_initialized_evaluated :
    IsValid { m_api := none, m_lastError := "" } = false ∧
      (GetLineTime {} { m_api := none, m_lastError := "" }).result = .error Fault.nullDeref ∧
      (GetLineTime {} { m_api := none, m_lastError := "" }).result ≠
        .ok GetLineTime.invalidTime ∧
      (GetLineTime {} { m_api := none, m_lastError := "" }).facade.m_lastError = "" ∧
      (∀ (env : ComEnv) (self : IAPIFacadeImpl), IsValid self = false →
        (GetLineTime env self).result = .error Fault.nullDeref) := by
  refine ⟨rfl, rfl, fun h => Except.noConfusion h, rfl, ?_⟩
  intro env self hinvalid
  have hnone := IsValid_eq_false self hinvalid
  simp [GetLineTime, hnone, crash]

/-! ## Accounts and positions -/

/-- C22, the code at three gateways that each hold the one account 5.  When get_Summary
answers S_OK and stores no summary object, GetAccounts calls through the null summary
and returns nothing.  When get_Summary fails, GetAccounts returns false, the account is
not in the list and the last error is set.  Only when the summary object is there and
its balance, OTE and profit/loss queries fail is the account included with the three
money fields 0. -/
theorem GetAccounts_summary_unavailable_evaluated :
    (GetAccounts {} (oneAccountFacade accountWithoutSummary) []).result =
        .error Fault.nullDeref ∧
      (GetAccounts {} (oneAccountFacade accountSummaryFails) []).result = .ok (false, []) ∧
      GetLastError (GetAccounts {} (oneAccountFacade accountSummaryFails) []).facade =
        "COM error occurred. Description: " ∧
      (GetAccounts {} (oneAccountFacade accountQueriesFail) []).result =
        .ok (true,
          [{ gwAccountID := 5, gwAccountName := "five", balance := 0.0, ote := 0.0,
             profitLoss := 0.0 }]) ∧
      (∀ (env : ComEnv) (acc : ICQGAccount) (accounts : Accounts),
        acc.get_Summary = (S_OK, none) →
        (GetAccounts env (oneAccountFacade acc) accounts).result = .error Fault.nullDeref) ∧
      (∀ (env : ComEnv) (acc : ICQGAccount) (accounts : Accounts),
        acc.get_Summary.1 < 0 →
        ∀ out, (GetAccounts env (oneAccountFacade acc) accounts).result = .ok out →
          out = (false, [])) := by
  refine ⟨rfl, rfl, rfl, rfl, ?_, ?_⟩
  · intro env acc accounts hsum
    simp [GetAccounts, oneAccountFacade, GetAccounts.loop, GetAccountInfo, hsum, clear]
  · intro env acc accounts hfail out hout
    have hne : acc.get_Summary.1 ≠ S_OK := by
      intro h
      rw [h] at hfail
      exact absurd hfail (by decide)
    simp only [GetAccounts, oneAccountFacade, GetAccounts.loop, clear] at hout
    simp only [RETURN_CEL_OBJ_RESULT_result_map, hne, ne_eq, not_false_eq_true, not_true_eq_false,
      if_true, if_false, reduceCtorEq, Nat.cast_ofNat, Int.reduceLT, Int.reduceToNat] at hout
    cases hg : GetCOMError env IFace.ICQGAccount acc.get_Summary.1 with
    | error f => simp [hg, Except.map] at hout
    | ok msg =>
      simp [hg, Except.map] at hout
      exact hout.symm

theorem RETURN_CEL_OBJ_RESULT_ne_ok_true {α : Type} (env : ComEnv) (self : IAPIFacadeImpl)
    (calls : List GwCall) (obj : IFace) (hr : HRESULT) (res out : α) :
    (RETURN_CEL_OBJ_RESULT env self calls obj hr (false, res)).result ≠ .ok (true, out) := by
  rw [RETURN_CEL_OBJ_RESULT_result_map]
  cases GetCOMError env obj hr <;> simp [Except.map]

/-- A loop of `GetPositions` that ends with true has appended one `PositionInfo` per
index, in index order. -/
theorem GetPositions_loop_true (env : ComEnv) (self : IAPIFacadeImpl)
    (spPositions : ICQGPositions) :
    ∀ (n : Nat) (i : Int) (positions : Positions) (calls : List GwCall) (out : Positions),
      (GetPositions.loop env self spPositions n i positions calls).result = .ok (true, out) →
      out = positions ++ (List.range n).map fun (k : Nat) =>
        GetPositionInfo (spPositions.get_ItemByIndex (i + k)).2
          (PositionInfo.uninitialized (env.stackPositionInfo (i + k))) := by
  intro n
  induction n with
  | zero =>
    intro i positions calls out h
    simp only [GetPositions.loop, Except.ok.injEq, Prod.mk.injEq, true_and] at h
    simp [h]
  | succ n ih =>
    intro i positions calls out h
    simp only [GetPositions.loop] at h
    split at h
    · exact absurd h (RETURN_CEL_OBJ_RESULT_ne_ok_true _ _ _ _ _ _ _)
    · rw [ih _ _ _ _ h, List.range_succ_eq_map]
      simp only [List.map_cons, List.map_map, List.append_assoc, List.singleton_append,
        Nat.cast_zero, add_zero]
      congr 2
      apply List.map_congr_left
      intro k _
      simp only [Function.comp, Nat.cast_succ]
      rw [show i + 1 + (k : Int) = i + ((k : Int) + 1) by ring]

/-- When `getAccount` returns an account, the accounts collection was obtained and the
lookup stored that account. -/
theorem getAccount_some (env : ComEnv) (self : IAPIFacadeImpl) (api : CQGCELWrapper)
    (gwAccountID : ID) (spAccount : ICQGAccount)
    (h : (getAccount env self api gwAccountID).result = .ok (some spAccount)) :
    ∃ spAccounts, api.m_spCQGCEL.get_Accounts = (S_OK, some spAccounts) ∧
      (spAccounts.get_Item gwAccountID).2 = some spAccount := by
  cases hacc : api.m_spCQGCEL.get_Accounts with
  | mk hr1 accs =>
    simp only [getAccount, hacc] at h
    split at h
    · rw [RETURN_CEL_OBJ_RESULT_result_map] at h
      cases hg : GetCOMError env IFace.ICQGCEL hr1 <;> simp [hg, Except.map] at h
    · rename_i hr1ok
      have hr1eq : hr1 = S_OK := by simpa using hr1ok
      subst hr1eq
      cases accs with
      | none => simp [crash] at h
      | some spAccounts =>
        refine ⟨spAccounts, rfl, ?_⟩
        simp only at h
        split at h
        · rw [RETURN_CEL_OBJ_RESULT_result_map] at h
          cases hg : GetCOMError env IFace.ICQGAccounts (spAccounts.get_Item gwAccountID).1 <;>
            simp [hg, Except.map] at h
          exact h
        · simpa using h

/-- When `GetPositions` returns true, the account was found, its positions collection
was obtained and counted, and the list holds one `PositionInfo` per index below the
count, in index order. -/
theorem GetPositions_true (env : ComEnv) (self : IAPIFacadeImpl) (gwAccountID : ID)
    (positions out : Positions)
    (h : (GetPositions env self gwAccountID positions).result = .ok (true, out)) :
    ∃ api spAccounts spAccount spPositions,
      self.m_api = some api ∧
      api.m_spCQGCEL.get_Accounts = (S_OK, some spAccounts) ∧
      (spAccounts.get_Item gwAccountID).2 = some spAccount ∧
      spAccount.get_Positions = (S_OK, some spPositions) ∧
      spPositions.get_Count.1 = S_OK ∧
      out = Spec.positionsOf env spPositions spPositions.get_Count.2.toNat := by
  simp only [GetPositions, clear] at h
  split at h
  · simp [notInitialized] at h
  · rename_i api hapi
    split at h
    · simp at h
    · simp at h
    · rename_i spAccount hfound
      obtain ⟨spAccounts, haccs, hitem⟩ := getAccount_some env _ api gwAccountID spAccount hfound
      cases hpos : spAccount.get_Positions with
      | mk hr3 ps =>
        simp only [hpos] at h
        split at h
        · exact absurd h (RETURN_CEL_OBJ_RESULT_ne_ok_true _ _ _ _ _ _ _)
        · rename_i hr3ok
          have hr3eq : hr3 = S_OK := by simpa using hr3ok
          subst hr3eq
          cases ps with
          | none => simp [crash] at h
          | some spPositions =>
            simp only at h
            split at h
            · exact absurd h (RETURN_CEL_OBJ_RESULT_ne_ok_true _ _ _ _ _ _ _)
            · rename_i hcok
              have hc : spPositions.get_Count.1 = S_OK := by simpa using hcok
              split at h
              · simp [reserveNegative] at h
              · have hout := GetPositions_loop_true env _ spPositions _ _ _ _ _ h
                refine ⟨api, spAccounts, spAccount, spPositions, hapi, haccs, hitem, hpos, hc, ?_⟩
                rw [hout]
                simp [Spec.positionsOf]

/-- C23, the code at an account id the sample gateway does not know (its lookup
answers S_FALSE and stores no account): GetPositions returns false with an empty list,
and the last error is empty, not a description of the failure.  The same holds whenever
the lookup answers a success code and stores no account.  When GetPositions returns true
the list holds exactly one PositionInfo per position of the account, in index order. -/
theorem GetPositions_unknown_account_evaluated :
    sampleAccounts.get_Item 7 = (S_FALSE, none) ∧
      (GetPositions {} sampleFacade 7 []).result = .ok (false, []) ∧
      GetLastError (GetPositions {} sampleFacade 7 []).facade = "" ∧
      (∀ (env : ComEnv) (self : IAPIFacadeImpl) (api : CQGCELWrapper)
        (spAccounts : ICQGAccounts) (gwAccountID : ID) (positions : Positions),
        self.m_api = some api →
        api.m_spCQGCEL.get_Accounts = (S_OK, some spAccounts) →
        0 ≤ (spAccounts.get_Item gwAccountID).1 →
        (spAccounts.get_Item gwAccountID).2 = none →
        (GetPositions env self gwAccountID positions).result = .ok (false, []) ∧
          GetLastError (GetPositions env self gwAccountID positions).facade = "") ∧
      (GetPositions {} (oneAccountFacade accountWithPositions) 1 []).result =
        .ok (true,
          [{ symbol := "F.US.EPH5", longPosition := true, quantity := 3,
             averagePrice := 1200.25, ote := 12.5, profitLoss := 0.0 },
           { symbol := "F.US.CLEH5", longPosition := false, quantity := 1,
             averagePrice := InvalidPrice, ote := 0.0, profitLoss := 0.0 }]) ∧
      (∀ (env : ComEnv) (self : IAPIFacadeImpl) (gwAccountID : ID) (positions out : Positions),
        (GetPositions env self gwAccountID positions).result = .ok (true, out) →
        ∃ api spAccounts spAccount spPositions,
          self.m_api = some api ∧
          api.m_spCQGCEL.get_Accounts = (S_OK, some spAccounts) ∧
          (spAccounts.get_Item gwAccountID).2 = some spAccount ∧
          spAccount.get_Positions = (S_OK, some spPositions) ∧
          spPositions.get_Count.1 = S_OK ∧
          out = Spec.positionsOf env spPositions spPositions.get_Count.2.toNat) := by
  refine ⟨rfl, rfl, rfl, ?_, rfl, GetPositions_true⟩
  intro env self api spAccounts gwAccountID positions hapi haccs hsucc hnone
  have hmsg : GetCOMError env IFace.ICQGAccounts (spAccounts.get_Item gwAccountID).1 = .ok "" := by
    simp [GetCOMError, SUCCEEDED, hsucc]
  by_cases hok : (spAccounts.get_Item gwAccountID).1 = S_OK
  · simp [GetPositions, getAccount, hapi, haccs, hnone, hok, clear, GetLastError]
  · simp [GetPositions, getAccount, hapi, haccs, hnone, hok, clear, GetLastError,
      RETURN_CEL_OBJ_RESULT, hmsg]

/-! ## CancelAllOrders: lookup failures -/

/-- C27, the code at CancelAllOrders with the symbol filter "NOPE" on the sample
gateway, whose instrument lookup of "NOPE" answers E_FAIL and stores no instrument: the
result code of the lookup is not kept, the bulk-cancel is submitted with a null account
and a null instrument (all symbols of all accounts) and CancelAllOrders returns true.
With the account filter 1 the same lookup failure cancels every order of account 1.
A failing account lookup, whose result code is kept, does end the operation: it returns
false and submits no bulk-cancel. -/
theorem CancelAllOrders_lookup_failure_evaluated :
    sampleInstruments.get_Item "NOPE" = (E_FAIL, none) ∧
      (CancelAllOrders {} sampleFacade 0 "NOPE").result = .ok true ∧
      (CancelAllOrders {} sampleFacade 0 "NOPE").calls =
        [GwCall.get_Instruments, GwCall.Instruments_get_Item "NOPE",
          GwCall.CancelAllOrders none none] ∧
      (CancelAllOrders {} sampleFacade 1 "NOPE").calls =
        [GwCall.get_Accounts, GwCall.Accounts_get_Item 1, GwCall.get_Instruments,
          GwCall.Instruments_get_Item "NOPE", GwCall.CancelAllOrders (some 1) none] ∧
      (CancelAllOrders {} sampleFacade 7 "X").result = .ok false ∧
      (CancelAllOrders {} sampleFacade 7 "X").calls =
        [GwCall.get_Accounts, GwCall.Accounts_get_Item 7] ∧
      (∀ (env : ComEnv) (self : IAPIFacadeImpl) (api : CQGCELWrapper)
        (spAccounts : ICQGAccounts) (gwAccountID : ID) (symbolFullName : String),
        self.m_api = some api → gwAccountID ≠ 0 →
        api.m_spCQGCEL.get_Accounts = (S_OK, some spAccounts) →
        (spAccounts.get_Item gwAccountID).1 ≠ S_OK →
        (CancelAllOrders env self gwAccountID symbolFullName).result ≠ .ok true ∧
          (CancelAllOrders env self gwAccountID symbolFullName).calls =
            [GwCall.get_Accounts, GwCall.Accounts_get_Item gwAccountID]) := by
  refine ⟨rfl, rfl, rfl, rfl, rfl, rfl, ?_⟩
  intro env self api spAccounts gwAccountID symbolFullName hinit hid haccs hfail
  simp [CancelAllOrders, CancelAllOrders.accountBlock, hinit, hid, haccs, hfail,
    RETURN_CEL_OBJ_RESULT_ne_true]

/-! ## Collection Iterator Adapter -/

/-- A failure code makes `CheckCOMError` throw: a `std::runtime_error` with the
translated text, once the translator has produced it. -/
theorem CheckCOMError_raises (env : ComEnv) (iface : IFace) (hr : HRESULT) (h : hr < 0) :
    ∃ f, CheckCOMError env iface hr = .error f ∧
      ∀ what, GetCOMError env iface hr = .ok what → f = Fault.runtime_error what := by
  have hs : SUCCEEDED hr = false := by
    simp only [SUCCEEDED, decide_eq_false_iff_not, not_le]
    exact h
  unfold CheckCOMError
  rw [hs]
  cases GetCOMError env iface hr with
  | error e => exact ⟨e, rfl, fun _ hw => Except.noConfusion hw⟩
  | ok what =>
    refine ⟨Fault.runtime_error what, rfl, ?_⟩
    intro w hw
    cases hw
    rfl

theorem iterate_yields {α : Type} (env : ComEnv) (resetHr : HRESULT)
    (script : List (HRESULT × Option α)) (items : List (Option α)) :
    ∀ (fuel : Nat) (seen : List (Option α)), items.length < fuel →
      CComCollection.iterate env fuel
          { m_isEnd := false,
            m_collection := some
              { resetHr := resetHr, script := script, rest := items.map fun v => (S_OK, v) } }
          seen =
        .ok (seen ++ items,
          { m_isEnd := true,
            m_collection := some { resetHr := resetHr, script := script, rest := [] } }) := by
  induction items with
  | nil =>
    intro fuel seen hfuel
    obtain ⟨f, rfl⟩ : ∃ f, fuel = f + 1 := ⟨fuel - 1, by simp at hfuel; omega⟩
    simp [CComCollection.iterate, CComCollection.IsEnd, CComCollection.GetNext,
      IEnumVARIANT.Next, CheckCOMError, SUCCEEDED, S_FALSE]
  | cons v vs ih =>
    intro fuel seen hfuel
    obtain ⟨f, rfl⟩ : ∃ f, fuel = f + 1 := ⟨fuel - 1, by simp at hfuel; omega⟩
    have hf : vs.length < f := by simp at hfuel; omega
    have hne : (S_OK : HRESULT) ≠ S_FALSE := by decide
    simp only [CComCollection.iterate, CComCollection.IsEnd, CComCollection.GetNext,
      IEnumVARIANT.Next, List.map_cons, CheckCOMError_succeeded env _ S_OK rfl, hne,
      decide_False, Bool.false_eq_true, if_false]
    rw [ih f _ hf]
    simp

theorem iterate_fails {α : Type} (env : ComEnv) (resetHr : HRESULT)
    (script : List (HRESULT × Option α)) (hr : HRESULT) (v : Option α)
    (tail : List (HRESULT × Option α)) (f : Fault)
    (hf : CheckCOMError env IFace.IEnumVARIANT hr = .error f) (items : List (Option α)) :
    ∀ (fuel : Nat) (seen : List (Option α)), items.length < fuel →
      CComCollection.iterate env fuel
          { m_isEnd := false,
            m_collection := some
              { resetHr := resetHr, script := script,
                rest := (items.map fun v => (S_OK, v)) ++ (hr, v) :: tail } }
          seen = .error f := by
  induction items with
  | nil =>
    intro fuel seen hfuel
    obtain ⟨k, rfl⟩ : ∃ k, fuel = k + 1 := ⟨fuel - 1, by simp at hfuel; omega⟩
    simp [CComCollection.iterate, CComCollection.IsEnd, CComCollection.GetNext,
      IEnumVARIANT.Next, hf]
  | cons w ws ih =>
    intro fuel seen hfuel
    obtain ⟨k, rfl⟩ : ∃ k, fuel = k + 1 := ⟨fuel - 1, by simp at hfuel; omega⟩
    have hk : ws.length < k := by simp at hfuel; omega
    have hne : (S_OK : HRESULT) ≠ S_FALSE := by decide
    simp only [CComCollection.iterate, CComCollection.IsEnd, CComCollection.GetNext,
      IEnumVARIANT.Next, List.map_cons, List.cons_append,
      CheckCOMError_succeeded env _ S_OK rfl, hne, decide_False, Bool.false_eq_true, if_false]
    exact ih k _ hk

/-- The adapter right after a construction in which no step fails. -/
theorem CComCollection_new_ok {α : Type} (env : ComEnv) (iface : IFace) (c : ComCollection α)
    (e : IEnumVARIANT α) (hnew : SUCCEEDED c.newEnumHr = true) (he : c.newEnum = some e)
    (hreset : SUCCEEDED e.resetHr = true) :
    CComCollection.new env iface (some c) =
      .ok { m_isEnd := false, m_collection := some { e with rest := e.script } } := by
  simp only [CComCollection.new, CComCollection.Reset, IEnumVARIANT.Reset, he,
    CheckCOMError_succeeded env _ _ hnew, CheckCOMError_succeeded env _ _ hreset]

/-- C28. For every foreign collection: when get__NewEnum, the enumerator's Reset or a
Next call answers a failure code, the constructor, Reset or GetNext of the adapter
raises (a std::runtime_error carrying the translated text, once the translator has
produced it) and does not return; iterating a collection whose enumerator yields `items`
and then fails raises too, so no shortened sequence is ever returned.  When no step
fails, iterating with IsEnd / GetNext yields exactly the collection's items, once each
and in order, and IsEnd() is true afterwards. -/
theorem CComCollection_failure_raises {α : Type} (env : ComEnv) (iface : IFace)
    (c : ComCollection α) :
    (c.newEnumHr < 0 →
        ∃ f, CComCollection.new env iface (some c) = .error f ∧
          ∀ what, GetCOMError env iface c.newEnumHr = .ok what →
            f = Fault.runtime_error what) ∧
      (∀ e, SUCCEEDED c.newEnumHr = true → c.newEnum = some e → e.resetHr < 0 →
        ∃ f, CComCollection.new env iface (some c) = .error f ∧
          ∀ what, GetCOMError env IFace.IEnumVARIANT e.resetHr = .ok what →
            f = Fault.runtime_error what) ∧
      (∀ (q : CComCollection α) e, q.m_collection = some e → e.resetHr < 0 →
        ∃ f, q.Reset env = .error f ∧
          ∀ what, GetCOMError env IFace.IEnumVARIANT e.resetHr = .ok what →
            f = Fault.runtime_error what) ∧
      (∀ (q : CComCollection α) e, q.m_collection = some e → e.Next.1 < 0 →
        ∃ f, q.GetNext env = .error f ∧
          ∀ what, GetCOMError env IFace.IEnumVARIANT e.Next.1 = .ok what →
            f = Fault.runtime_error what) ∧
      (∀ e (items : List (Option α)) hr v tail, SUCCEEDED c.newEnumHr = true →
        c.newEnum = some e →
        SUCCEEDED e.resetHr = true →
        e.script = (items.map fun v => (S_OK, v)) ++ (hr, v) :: tail → hr < 0 →
        ∃ q0 f, CComCollection.new env iface (some c) = .ok q0 ∧
          q0.iterate env (q0.remaining + 1) [] = .error f) ∧
      (∀ items, ComCollection.yields c items →
        ∃ q0 qEnd, CComCollection.new env iface (some c) = .ok q0 ∧
          q0.iterate env (q0.remaining + 1) [] = .ok (items, qEnd) ∧
          qEnd.IsEnd = true) := by
  refine ⟨?_, ?_, ?_, ?_, ?_, ?_⟩
  · intro hfail
    obtain ⟨f, hf, hwhat⟩ := CheckCOMError_raises env iface _ hfail
    exact ⟨f, by simp [CComCollection.new, hf], hwhat⟩
  · intro e hnew he hfail
    obtain ⟨f, hf, hwhat⟩ := CheckCOMError_raises env IFace.IEnumVARIANT _ hfail
    refine ⟨f, ?_, hwhat⟩
    simp [CComCollection.new, CComCollection.Reset, IEnumVARIANT.Reset, he,
      CheckCOMError_succeeded env _ _ hnew, hf]
  · intro q e he hfail
    obtain ⟨f, hf, hwhat⟩ := CheckCOMError_raises env IFace.IEnumVARIANT _ hfail
    exact ⟨f, by simp [CComCollection.Reset, IEnumVARIANT.Reset, he, hf], hwhat⟩
  · intro q e he hfail
    obtain ⟨f, hf, hwhat⟩ := CheckCOMError_raises env IFace.IEnumVARIANT _ hfail
    exact ⟨f, by simp [CComCollection.GetNext, he, hf], hwhat⟩
  · intro e items hr v tail hnew he hreset hscript hfail
    obtain ⟨f, hf, _⟩ := CheckCOMError_raises env IFace.IEnumVARIANT _ hfail
    refine ⟨_, f, CComCollection_new_ok env iface c e hnew he hreset, ?_⟩
    simp only [CComCollection.remaining, hscript]
    exact iterate_fails env e.resetHr _ hr v tail f hf items _ [] (by simp; omega)
  · intro items hyields
    obtain ⟨hnew, e, he, hreset, hscript⟩ := hyields
    refine ⟨_, { m_isEnd := true, m_collection := some { e with rest := [] } },
      CComCollection_new_ok env iface c e hnew he hreset, ?_, rfl⟩
    simp only [CComCollection.remaining, hscript]
    have h := iterate_yields env e.resetHr (items.map fun v => (S_OK, v)) items
      (items.length + 1) [] (Nat.lt_succ_self _)
    simpa [hscript] using h

/-- C28 at the collection of the five sample orders, which iterates to exactly these
five in order, and at a collection whose enumerator fails at the third Next, whose
iteration raises instead of returning the first two. -/
theorem CComCollection_failure_raises_witness :
    (∃ q0 qEnd, CComCollection.new {} IFace.ICQGOrders (some sampleOrders.toCollection) = .ok q0 ∧
        q0.iterate {} (q0.remaining + 1) [] = .ok (sampleOrderList.map some, qEnd) ∧
        qEnd.IsEnd = true) ∧
      ∃ q0 f, CComCollection.new {} IFace.ICQGOrders (some brokenOrders) = .ok q0 ∧
        q0.iterate {} (q0.remaining + 1) [] = .error f :=
  have h := CComCollection_failure_raises {} IFace.ICQGOrders sampleOrders.toCollection
  have hb := CComCollection_failure_raises {} IFace.ICQGOrders brokenOrders
  ⟨h.2.2.2.2.2 (sampleOrderList.map some) ⟨rfl, _, rfl, rfl, by simp [sampleOrders]⟩,
    hb.2.2.2.2.1 _ [some sampleOrder, some sampleFinalOrder] E_FAIL none [] rfl rfl rfl rfl
      (by decide)⟩

/-- C29 as stated fails for an empty source collection: right after the adapter is
constructed over a collection without entries, before any GetNext call, IsEnd() is
false. -/
theorem CComCollection_empty_IsEnd_counterexample :
    ComCollection.yields emptyOrders [] ∧
      ∃ q, CComCollection.new {} IFace.ICQGOrders (some emptyOrders) = .ok q ∧
        q.IsEnd = false :=
  ⟨⟨rfl, _, rfl, rfl, rfl⟩, _, rfl, rfl⟩

/-- C29, amended. Constructing the adapter over a null source collection raises
nothing and gives IsEnd() = true at once; GetNext then returns an empty variant and
IsEnd() stays true.  Constructing it over an empty source collection raises nothing and
gives IsEnd() = false; the first GetNext returns an empty variant and sets IsEnd() to
true.  In both cases iterating with IsEnd / GetNext produces no item and ends with
IsEnd() = true. -/
theorem CComCollection_null_or_empty {α : Type} (env : ComEnv) (iface : IFace)
    (c : ComCollection α) (hempty : ComCollection.yields c []) :
    (∃ q : CComCollection α, CComCollection.new env iface none = .ok q ∧ q.IsEnd = true ∧
        (∃ q1, q.GetNext env = .ok (none, q1) ∧ q1.IsEnd = true) ∧
        ∀ fuel, q.iterate env fuel [] = .ok ([], q)) ∧
      ∃ q, CComCollection.new env iface (some c) = .ok q ∧ q.IsEnd = false ∧
        ∃ q1, q.GetNext env = .ok (none, q1) ∧ q1.IsEnd = true ∧
          q.iterate env (q.remaining + 1) [] = .ok ([], q1) := by
  refine ⟨⟨_, rfl, rfl, ⟨_, rfl, rfl⟩, ?_⟩, ?_⟩
  · intro fuel
    cases fuel <;> simp [CComCollection.iterate, CComCollection.IsEnd]
  · obtain ⟨hnew, e, he, hreset, hscript⟩ := hempty
    have hcheck : CheckCOMError env IFace.IEnumVARIANT S_FALSE = .ok () :=
      CheckCOMError_succeeded env _ _ rfl
    refine ⟨_, CComCollection_new_ok env iface c e hnew he hreset, rfl, { m_isEnd := true, m_collection := some { e with rest := e.script } },
      ?_, rfl, ?_⟩
    · simp [CComCollection.GetNext, IEnumVARIANT.Next, hscript, hcheck]
    · simp [CComCollection.iterate, CComCollection.remaining, CComCollection.IsEnd,
        CComCollection.GetNext, IEnumVARIANT.Next, hscript, hcheck]

/-- C29, amended, at the empty order collection: construction succeeds with IsEnd()
false, and iterating it produces no item. -/
theorem CComCollection_null_or_empty_witness :
    ComCollection.yields emptyOrders [] ∧
      ∃ q, CComCollection.new {} IFace.ICQGOrders (some emptyOrders) = .ok q ∧ q.IsEnd = false ∧
        ∃ q1, q.GetNext {} = .ok (none, q1) ∧ q1.IsEnd = true ∧
          q.iterate {} (q.remaining + 1) [] = .ok ([], q1) :=
  ⟨⟨rfl, _, rfl, rfl, rfl⟩,
    (CComCollection_null_or_empty {} IFace.ICQGOrders emptyOrders ⟨rfl, _, rfl, rfl, rfl⟩).2⟩

/-! ## Error translator -/

/-- C30, the code at the failure code E_FAIL in a COM runtime without a pending error
object: `GetErrorInfo` answers S_FALSE, which SUCCEEDED accepts, and the translator
calls GetDescription through the null error object instead of returning a string.  At
a source object that answers InterfaceSupportsErrorInfo with S_FALSE (not supported),
which SUCCEEDED accepts too, the translator returns the description of whatever error
object is pending instead of the generic text for the code.  What does hold: a success
code gives the empty string, and with an error object stored the translator returns a
string for a failure code, the prefixed description when QueryInterface,
InterfaceSupportsErrorInfo, GetErrorInfo and GetDescription all answer a success code and
the generic text otherwise. -/
theorem GetCOMError_no_error_object_evaluated :
    GetCOMError noPendingError IFace.ICQGCEL E_FAIL = .error Fault.nullDeref ∧
      (∀ s, GetCOMError noPendingError IFace.ICQGCEL E_FAIL ≠ .ok s) ∧
      unsupportedWithPendingError.supportsErrorInfoHr IFace.ICQGCEL = S_FALSE ∧
      GetCOMError unsupportedWithPendingError IFace.ICQGCEL E_FAIL =
        .ok "COM error occurred. Description: left by another call" ∧
      unsupportedWithPendingError.formatMessage E_FAIL = some "Unspecified error" ∧
      (∀ (env : ComEnv) (iface : IFace) (hr : HRESULT), 0 ≤ hr →
        GetCOMError env iface hr = .ok "") ∧
      (∀ (env : ComEnv) (iface : IFace) (hr : HRESULT) (info : IErrorInfo), hr < 0 →
        env.errorInfo = some info →
        GetCOMError env iface hr =
          .ok (if SUCCEEDED (env.queryInterfaceHr iface) = true ∧
                SUCCEEDED (env.supportsErrorInfoHr iface) = true ∧
                SUCCEEDED env.getErrorInfoHr = true ∧
                SUCCEEDED info.getDescriptionHr = true then
              "COM error occurred. Description: " ++ info.description
            else (env.formatMessage hr).getD "")) := by
  refine ⟨rfl, fun s h => Except.noConfusion h, rfl, rfl, rfl, ?_, ?_⟩
  · intro env iface hr h
    simp [GetCOMError, SUCCEEDED, h]
  · intro env iface hr info hfail hinfo
    have hs : SUCCEEDED hr = false := by
      simp only [SUCCEEDED, decide_eq_false_iff_not, not_le]
      exact hfail
    simp only [GetCOMError, GetCOMErrorString, hs, hinfo]
    by_cases h1 : SUCCEEDED (env.queryInterfaceHr iface) = true
    · by_cases h2 : SUCCEEDED (env.supportsErrorInfoHr iface) = true
      · by_cases h3 : SUCCEEDED env.getErrorInfoHr = true
        · by_cases h4 : SUCCEEDED info.getDescriptionHr = true <;> simp [h1, h2, h3, h4]
        · simp [h1, h2, h3]
      · simp [h1, h2]
    · simp [h1]

end cqg
